import Mathlib

/-!
# RoboTV client session (`src/robotv/robotvclient.cpp`)

A shallow embedding of the per-connection session engine `RoboTVClient`:
the channel filter, the channel grouper, the login handler, the opcode
dispatcher and the live-stream / playback sub-session handlers.

Conventions of the embedding

* C `int` values are `Int`, unsigned wire values are `Nat` reduced modulo
  the field width when they are written (`put_U32` and friends).
* A `cChannel*`, `cRecording*`, `LiveStreamer*` or `PacketPlayer*` that may
  be `NULL` is an `Option`.
* `m_req` and `m_resp` are passed to the handlers explicitly instead of
  living in the session record; a handler returns the session, the response
  packet and the `bool` it returns in the source.
* Everything the handlers obtain from VDR or from headers that are not part
  of `robotvclient.cpp` (clock, channel catalog, recordings cache, protocol
  constants) is a field of `Env`.
-/

namespace RoboTV

/-! ## VDR channel records -/

/-- The accessors of VDR's `cChannel` that the session reads. -/
structure Channel where
  Number : Int
  Name : String
  ShortName : String
  Provider : String
  GroupSep : Bool
  Vpid : Int
  Vtype : Int
  apids : List Int
  Sid : Int
  Tid : Int
  Nid : Int
  Source : Int
  caids : List Int
  alangs : List String
  dlangs : List String
  deriving DecidableEq, Repr

/-- Accessor `channel->Apid(i)`: the i-th audio pid, 0 past the last one. -/
def Channel.Apid (c : Channel) (i : Nat) : Int := c.apids.getD i 0

/-- Accessor `channel->Ca(j)`: the j-th conditional-access id, 0 past the last one. -/
def Channel.Ca (c : Channel) (j : Nat) : Int := c.caids.getD j 0

/-- Accessor `channel->Alang(i)`: the i-th audio language tag, `NULL` past the last one. -/
def Channel.Alang (c : Channel) (i : Nat) : Option String := c.alangs.get? i

/-- Accessor `channel->Dlang(i)`: the i-th digital-audio language tag, `NULL` past the last one. -/
def Channel.Dlang (c : Channel) (i : Nat) : Option String := c.dlangs.get? i

/-- Function `IsRadio` (robotvclient.cpp:59). -/
def IsRadio (channel : Channel) : Bool :=
  if channel.Vpid = 0 ∧ channel.Apid 0 = 0 then false
  else if channel.Vpid = 0 ∨ channel.Vpid = 1 then true
  else false

/-! ## Wire packets -/

/-- Message ids: the case labels of `processRequest`, the status ids used by
the push handlers, and `other` for any id that is none of these. -/
inductive MsgID where
  | LOGIN | GETTIME | ENABLESTATUSINTERFACE | UPDATECHANNELS | CHANNELFILTER
  | CHANNELSTREAM_OPEN | CHANNELSTREAM_CLOSE | CHANNELSTREAM_REQUEST
  | CHANNELSTREAM_PAUSE | CHANNELSTREAM_SIGNAL
  | RECSTREAM_OPEN | RECSTREAM_CLOSE | RECSTREAM_GETBLOCK | RECSTREAM_GETPACKET
  | RECSTREAM_UPDATE | RECSTREAM_SEEK
  | CHANNELS_GETCOUNT | CHANNELS_GETCHANNELS | CHANNELGROUP_GETCOUNT
  | CHANNELGROUP_LIST | CHANNELGROUP_MEMBERS
  | TIMER_GETCOUNT | TIMER_GET | TIMER_GETLIST | TIMER_ADD | TIMER_DELETE | TIMER_UPDATE
  | RECORDINGS_DISKSIZE | RECORDINGS_GETCOUNT | RECORDINGS_GETLIST | RECORDINGS_RENAME
  | RECORDINGS_DELETE | RECORDINGS_SETPLAYCOUNT | RECORDINGS_SETPOSITION
  | RECORDINGS_SETURLS | RECORDINGS_GETPOSITION | RECORDINGS_GETMARKS
  | ARTWORK_GET | ARTWORK_SET
  | EPG_GETFORCHANNEL
  | SCAN_SUPPORTED | SCAN_GETSETUP | SCAN_SETSETUP | SCAN_START | SCAN_STOP | SCAN_GETSTATUS
  | STATUS_CHANNELCHANGED | STATUS_TIMERCHANGE | STATUS_CHANNELCHANGE
  | STATUS_RECORDINGSCHANGE | STATUS_RECORDING | STATUS_MESSAGE | STATUS_CHANNELSCAN
  | other
  deriving DecidableEq, Repr

/-- The message class of a packet (`ROBOTV_CHANNEL_*`). -/
inductive MsgType where
  | REQUEST_RESPONSE | STATUS | STREAM
  deriving DecidableEq, Repr

/-- One typed payload field. -/
inductive Field where
  | U8 (v : Nat)
  | U16 (v : Nat)
  | U32 (v : Nat)
  | U64 (v : Nat)
  | S32 (v : Int)
  | Str (s : String)
  | Blob (bytes : List Nat)
  deriving DecidableEq, Repr

/-- Modelled from the spec: `MsgPacket` (net/msgpacket.h) is not part of the
sources. A packet is its header (message id, class, request id, protocol
version), the ordered sequence of typed payload fields and the compression
level applied to the serialized payload (0 = none). -/
structure MsgPacket where
  msgID : MsgID
  type : MsgType
  uid : Nat
  protocolVersion : Nat
  payload : List Field
  compression : Nat
  deriving DecidableEq, Repr

/-- Two's-complement reading of a value as a signed 32-bit `int`. -/
def toS32 (x : Int) : Int := (x + 2 ^ 31) % 2 ^ 32 - 2 ^ 31

/-- Conversion of a C integer to `uint8_t`. -/
def toU8 (x : Int) : Nat := (x % 2 ^ 8).toNat

/-- Conversion of a C integer to `uint16_t`. -/
def toU16 (x : Int) : Nat := (x % 2 ^ 16).toNat

/-- Conversion of a C integer to `uint32_t`. -/
def toU32 (x : Int) : Nat := (x % 2 ^ 32).toNat

/-- Conversion of a C integer to `uint64_t`. -/
def toU64 (x : Int) : Nat := (x % 2 ^ 64).toNat

/-- Numeric content of a field (0 for strings and blobs). -/
def Field.toNat : Field → Nat
  | .U8 v => v
  | .U16 v => v
  | .U32 v => v
  | .U64 v => v
  | .S32 v => toU32 v
  | .Str _ => 0
  | .Blob _ => 0

/-- Modelled from the spec: `MsgPacket::get_U8`, reading the next field of a
payload; an exhausted payload reads as 0. Returns the value and the rest. -/
def get_U8 : List Field → Nat × List Field
  | [] => (0, [])
  | f :: rest => (f.toNat % 2 ^ 8, rest)

/-- Modelled from the spec: `MsgPacket::get_U16`. -/
def get_U16 : List Field → Nat × List Field
  | [] => (0, [])
  | f :: rest => (f.toNat % 2 ^ 16, rest)

/-- Modelled from the spec: `MsgPacket::get_U32`. -/
def get_U32 : List Field → Nat × List Field
  | [] => (0, [])
  | f :: rest => (f.toNat % 2 ^ 32, rest)

/-- Modelled from the spec: `MsgPacket::get_U64`. -/
def get_U64 : List Field → Nat × List Field
  | [] => (0, [])
  | f :: rest => (f.toNat % 2 ^ 64, rest)

/-- Modelled from the spec: `MsgPacket::get_S32`. -/
def get_S32 : List Field → Int × List Field
  | [] => (0, [])
  | f :: rest => (toS32 f.toNat, rest)

/-- Modelled from the spec: `MsgPacket::get_String`; a field that is not a
string, or an exhausted payload, reads as the empty string. -/
def get_String : List Field → String × List Field
  | [] => ("", [])
  | .Str s :: rest => (s, rest)
  | _ :: rest => ("", rest)

/-- Modelled from the spec: `MsgPacket::eop`, true when no payload is left. -/
def eop (p : List Field) : Bool := p.isEmpty

/-- Modelled from the spec: `MsgPacket::put_U8`. -/
def MsgPacket.put_U8 (p : MsgPacket) (v : Int) : MsgPacket :=
  { p with payload := p.payload ++ [Field.U8 (toU8 v)] }

/-- Modelled from the spec: `MsgPacket::put_U16`. -/
def MsgPacket.put_U16 (p : MsgPacket) (v : Int) : MsgPacket :=
  { p with payload := p.payload ++ [Field.U16 (toU16 v)] }

/-- Modelled from the spec: `MsgPacket::put_U32`; the argument is converted to
`uint32_t`. -/
def MsgPacket.put_U32 (p : MsgPacket) (v : Int) : MsgPacket :=
  { p with payload := p.payload ++ [Field.U32 (toU32 v)] }

/-- Modelled from the spec: `MsgPacket::put_U64`. -/
def MsgPacket.put_U64 (p : MsgPacket) (v : Int) : MsgPacket :=
  { p with payload := p.payload ++ [Field.U64 (toU64 v)] }

/-- Modelled from the spec: `MsgPacket::put_S32`; the argument is converted to
`int32_t`. -/
def MsgPacket.put_S32 (p : MsgPacket) (v : Int) : MsgPacket :=
  { p with payload := p.payload ++ [Field.S32 (toS32 v)] }

/-- Modelled from the spec: `MsgPacket::put_String`. -/
def MsgPacket.put_String (p : MsgPacket) (s : String) : MsgPacket :=
  { p with payload := p.payload ++ [Field.Str s] }

/-- Modelled from the spec: `MsgPacket::setProtocolVersion`. -/
def MsgPacket.setProtocolVersion (p : MsgPacket) (v : Nat) : MsgPacket :=
  { p with protocolVersion := v }

/-- Modelled from the spec: `MsgPacket::compress(level)`; compression is
transparent to the fields, only the level is recorded. -/
def MsgPacket.compress (p : MsgPacket) (level : Nat) : MsgPacket :=
  { p with compression := level }

/-- Constructor `new MsgPacket(id, type, uid)`: an empty packet. -/
def MsgPacket.new (id : MsgID) (type : MsgType) (uid : Nat) : MsgPacket :=
  { msgID := id, type := type, uid := uid, protocolVersion := 0, payload := [],
    compression := 0 }

/-! ## Collaborators -/

/-- The accessors of VDR's `cRecording` that the playback handlers read. -/
structure Recording where
  FileName : String
  Name : String
  IsPesRecording : Bool
  LengthInSeconds : Int
  deriving DecidableEq, Repr

/-- Modelled from the spec: `PacketPlayer` (recordings/packetplayer.h) is not
part of the sources. An open playback sub-session holds the recording it
plays and its total length in bytes. -/
structure PacketPlayer where
  recording : Recording
  lengthBytes : Nat
  deriving DecidableEq, Repr

/-- Modelled from the spec: `LiveStreamer` (live/livestreamer.h) is not part
of the sources. An active streaming sub-session holds its channel, priority,
raw-PTS flag and the settings `StartChannelStreaming` applies to it. -/
structure LiveStreamer where
  channel : Channel
  priority : Int
  rawPTS : Bool
  languageIndex : Int
  langStreamType : Nat
  timeout : Nat
  protocolVersion : Nat
  waitForKeyFrame : Bool
  paused : Bool
  packetRequests : Nat
  signalRequests : Nat
  deriving DecidableEq, Repr

/-- The fields of `WIRBELSCAN_SERVICE::cWirbelscanStatus` that are sent. -/
structure WirbelscanStatus where
  status : Int
  progress : Int
  strength : Int
  numChannels : Int
  newChannels : Int
  curr_device : String
  transponder : String
  deriving DecidableEq, Repr

/-- The part of a VDR `cTimer` that the timer handlers read: its uid
(`CreateTimerUID`), whether it is recording (`Recording()`) and its settings
as text (`ToText()`). -/
structure Timer where
  uid : Nat
  Recording : Bool
  settings : String
  deriving DecidableEq, Repr

/-- The timer catalog, VDR's global `Timers`: the timers in list order, the
flag `BeingEdited()`, whether `SetModified()` was called, and as ghost state
the timers on which `Skip()` was called before the record controls were
processed. -/
structure TimerCatalog where
  timers : List Timer
  BeingEdited : Bool
  modified : Bool
  skipped : List Timer
  deriving DecidableEq, Repr

/-- The accessors of a `cEvent` that `processEPG_GetForChannel` reads; a text
accessor that returns `NULL` is `none`. -/
structure EpgEvent where
  EventID : Int
  Title : Option String
  ShortText : Option String
  Description : Option String
  StartTime : Int
  Duration : Int
  Contents : Int
  ParentalRating : Int
  deriving DecidableEq, Repr

/-- The accessors of the event of a recording (`recording->Info()->GetEvent()`)
that `processRECORDINGS_GetList` reads. -/
structure RecordingEvent where
  StartTime : Int
  Duration : Int
  Contents : Int
  deriving DecidableEq, Repr

/-- One entry of VDR's `Recordings` as `processRECORDINGS_GetList` reads it:
its event, if any; the start and stop time of the timer of its record
control (`cRecordControls::GetRecordControl(recording->FileName())`), if any;
`Start()`, `Priority()`, `Lifetime()`, `Name()` and the channel name, short
text and description of its info (`none` for `NULL`). -/
structure ListedRecording where
  event : Option RecordingEvent
  recordControl : Option (Int × Int)
  Start : Int
  Priority : Int
  Lifetime : Int
  ChannelName : Option String
  Name : String
  ShortText : Option String
  Description : Option String
  deriving DecidableEq, Repr

/-- What a handler observes outside the session while it runs: constants of
headers that are not part of the sources (robotvcommand.h, config.h, VDR),
the clock, and snapshots of the backend catalogs. -/
structure Env where
  ROBOTV_PROTOCOLVERSION : Nat
  ROBOTV_VERSION : String
  ROBOTV_RET_OK : Int
  ROBOTV_RET_RECRUNNING : Int
  ROBOTV_RET_NOTSUPPORTED : Int
  ROBOTV_RET_DATAUNKNOWN : Int
  ROBOTV_RET_DATALOCKED : Int
  ROBOTV_RET_DATAINVALID : Int
  ROBOTV_RET_ERROR : Int
  MAXAPIDS : Nat
  MAXDPIDS : Nat
  MAXCAIDS : Nat
  /-- Result of `time(NULL)`. -/
  timeNow : Int
  /-- Field `tm_gmtoff` of `localtime(&timeNow)`. -/
  tm_gmtoff : Int
  /-- VDR's `I18nLanguageIndex`. -/
  I18nLanguageIndex : String → Int
  /-- Setting `RoboTVServerConfig::instance().stream_timeout`. -/
  stream_timeout : Nat
  /-- The channel catalog `RoboTVChannels::instance().Get()`, in list order. -/
  channels : List Channel
  /-- Lookup `FindChannelByUID`. -/
  FindChannelByUID : Nat → Option Channel
  /-- Lookup `cChannels::GetByNumber`. -/
  GetByNumber : Nat → Option Channel
  /-- Hash `CreateChannelUID`. -/
  CreateChannelUID : Channel → Nat
  /-- Lookup `RecordingsCache::GetInstance().Lookup`. -/
  Lookup : Nat → Option Recording
  /-- Value of `getLengthBytes()` of a player freshly opened on a recording. -/
  playerLength : Recording → Nat
  /-- Fields appended by a handler that only consults or changes the VDR
  catalogs (timers, recordings, artwork, EPG, scanner), given the request id
  and payload, and whether the handler reaches its `compress` call. -/
  backendFields : MsgID → List Field → List Field × Bool
  /-- The timer catalog `Timers` as the handler finds it. -/
  Timers : TimerCatalog
  /-- The timer that `processTIMER_Add` obtains from the fields of the request
  through `cTimer::Parse`; `none` when the channel is not found or the settings
  do not parse. -/
  parseTimerAdd : List Field → Option Timer
  /-- The timer that `processTIMER_Update` obtains for an existing timer from
  the fields of the request that follow the uid, through `cTimer::Parse`;
  `none` when the channel is not found or the settings do not parse. -/
  parseTimerUpdate : Timer → List Field → Option Timer
  /-- The comparison by which `Timers.GetTimer(timer)` finds a timer that is
  already defined. -/
  sameTimer : Timer → Timer → Bool
  /-- VDR's translation `trVDR`. -/
  trVDR : String → String
  /-- The streamer after `LiveStreamer::channelChange(Channel)`. -/
  streamerChannelChange : LiveStreamer → Channel → LiveStreamer
  /-- Whether `RoboTVChannels::Lock(false)` succeeds. -/
  channelsLock : Bool
  /-- The string built by `CreateServiceReference` for a channel. -/
  CreateServiceReference : Channel → String
  /-- The string built by `CreateLogoURL` for a channel. -/
  CreateLogoURL : Channel → String
  /-- Conversion `m_toUTF8.Convert`. -/
  toUTF8 : String → String
  /-- Bytes that `PacketPlayer::getBlock(p, position, amount)` delivers. -/
  playerGetBlock : PacketPlayer → Nat → Nat → List Nat
  /-- Result of `PacketPlayer::getPacket()`. -/
  playerGetPacket : PacketPlayer → Option MsgPacket
  /-- Result of `PacketPlayer::seek(position)`. -/
  playerSeek : PacketPlayer → Nat → Int
  /-- Value of `getLengthBytes()` after `PacketPlayer::update()`. -/
  playerUpdate : PacketPlayer → Nat
  /-- Result of `m_scanner.GetStatus(status)`: `none` when it fails. -/
  scannerStatus : Option WirbelscanStatus
  /-- Result of `VideoDiskSpace(&FreeMB)`: the percentage in use and the free
  space in MB. -/
  VideoDiskSpace : Int × Int
  /-- VDR's `Recordings`, in list order. -/
  Recordings : List ListedRecording
  /-- Uid that `RecordingsCache::GetInstance().Register` returns. -/
  Register : ListedRecording → Nat
  /-- Accessor `RecordingsCache::GetPlayCount`. -/
  GetPlayCount : Nat → Int
  /-- Accessor `RecordingsCache::GetPosterUrl`. -/
  GetPosterUrl : Nat → String
  /-- Accessor `RecordingsCache::GetBackgroundUrl`. -/
  GetBackgroundUrl : Nat → String
  /-- VDR's `isempty` on a C string (`none` for `NULL`). -/
  isempty : Option String → Bool
  /-- VDR's constant `FOLDERDELIMCHAR`. -/
  FOLDERDELIMCHAR : Char
  /-- The schedules under `cSchedulesLock`, `none` when `cSchedules::Schedules`
  returns `NULL`; applied to a channel, the events of `GetSchedule` for its
  channel id in list order, `none` when there is no schedule. -/
  Schedules : Option (Channel → Option (List EpgEvent))
  /-- Result of `m_artwork.get(content, title, posterUrl, backgroundUrl)`: the
  two URLs, `none` when it returns false. -/
  artworkGet : Nat → String → Option (String × String)

/-- One entry of a group catalog (`ChannelGroup`). -/
structure ChannelGroup where
  name : String
  radio : Bool
  automatic : Bool
  deriving DecidableEq, Repr

/-- A group catalog `std::map<std::string, ChannelGroup>`: entries in
ascending key order, one entry per key. -/
abbrev GroupMap := List (String × ChannelGroup)

/-- Lexicographic order on character sequences by code point. -/
def charsLess : List Char → List Char → Bool
  | [], [] => false
  | [], _ :: _ => true
  | _ :: _, [] => false
  | a :: as, b :: bs =>
    if a.toNat < b.toNat then true
    else if b.toNat < a.toNat then false
    else charsLess as bs

/-- The key order of `std::map<std::string, _>`: `std::less<std::string>`,
which on UTF-8 text is the lexicographic order of the code points. -/
def keyLess (a b : String) : Bool := charsLess a.data b.data

/-- Lookup `map.find(key)`, `none` for `end()`. -/
def GroupMap.find (m : GroupMap) (key : String) : Option ChannelGroup :=
  match m with
  | [] => none
  | (k, g) :: rest => if k = key then some g else GroupMap.find rest key

/-- Assignment `map[key] = g`: overwrite the entry of `key` or insert it in key order. -/
def GroupMap.assign (m : GroupMap) (key : String) (g : ChannelGroup) : GroupMap :=
  match m with
  | [] => [(key, g)]
  | (k, g0) :: rest =>
    if key = k then (key, g) :: rest
    else if keyLess key k = true then (key, g) :: (k, g0) :: rest
    else (k, g0) :: GroupMap.assign rest key g

/-- The state of one `RoboTVClient`. `orphanedStreamers` is ghost state: the
`LiveStreamer` objects this session allocated, no longer points to and never
deleted (the slot `m_Streamer` is a raw pointer). -/
structure Session where
  m_Id : Nat
  m_loggedIn : Bool
  m_Streamer : Option LiveStreamer
  orphanedStreamers : List LiveStreamer
  m_StatusInterfaceEnabled : Bool
  m_RecPlayer : Option PacketPlayer
  m_compressionLevel : Nat
  m_LanguageIndex : Int
  m_LangStreamType : Nat
  m_channelCount : Int
  m_timeout : Nat
  m_scanSupported : Bool
  m_wantfta : Bool
  m_filterlanguage : Bool
  m_caids : List Int
  m_protocolVersion : Nat
  m_clientName : String
  m_channelgroups : GroupMap × GroupMap
  m_queue : List MsgPacket
  deriving DecidableEq, Repr

/-- Catalog `m_channelgroups[isRadio]` for a `bool` index. -/
def Session.groups (s : Session) (isRadio : Bool) : GroupMap :=
  if isRadio then s.m_channelgroups.2 else s.m_channelgroups.1

/-- Assignment to `m_channelgroups[isRadio]`. -/
def Session.setGroups (s : Session) (isRadio : Bool) (m : GroupMap) : Session :=
  if isRadio then { s with m_channelgroups := (s.m_channelgroups.1, m) }
  else { s with m_channelgroups := (m, s.m_channelgroups.2) }

/-- The live streams of the session that exist: the orphaned ones and the one
in the slot. -/
def Session.activeStreamers (s : Session) : List LiveStreamer :=
  s.orphanedStreamers ++ s.m_Streamer.toList

/-- Function `QueueMessage` (robotvclient.cpp:2248). -/
def QueueMessage (s : Session) (p : MsgPacket) : Session :=
  { s with m_queue := s.m_queue ++ [p] }

/-! ## Channel filter -/

/-- The loop over `channel->Alang(i)` of `IsChannelWanted`, from index `i` with
`n` iterations left: true when it sets `bLanguageFound`. -/
def alangLoop (env : Env) (idx : Int) (c : Channel) : Nat → Nat → Bool
  | _, 0 => false
  | i, n + 1 =>
    match c.Alang i with
    | none => false
    | some lang =>
      if idx = env.I18nLanguageIndex lang then true else alangLoop env idx c (i + 1) n

/-- The loop over `channel->Dlang(i)` of `IsChannelWanted`. -/
def dlangLoop (env : Env) (idx : Int) (c : Channel) : Nat → Nat → Bool
  | _, 0 => false
  | i, n + 1 =>
    match c.Dlang i with
    | none => false
    | some lang =>
      if idx = env.I18nLanguageIndex lang then true else dlangLoop env idx c (i + 1) n

/-- Value of `bLanguageFound` after both language loops. -/
def languageFound (env : Env) (idx : Int) (c : Channel) : Bool :=
  alangLoop env idx c 0 env.MAXAPIDS || dlangLoop env idx c 0 env.MAXDPIDS

/-- The inner loop `for j < MAXCAIDS` of the CaID match for one allowed id,
from index `j` with `n` iterations left: true when it returns true. -/
def caidLoop (c : Channel) (caid : Int) : Nat → Nat → Bool
  | _, 0 => false
  | j, n + 1 =>
    if c.Ca j = 0 then false
    else if c.Ca j = caid then true
    else caidLoop c caid (j + 1) n

/-- The outer loop over `m_caids` of the CaID match. -/
def caidsLoop (env : Env) (c : Channel) : List Int → Bool
  | [] => false
  | caid :: rest => if caidLoop c caid 0 env.MAXCAIDS then true else caidsLoop env c rest

/-- Function `RoboTVClient::IsChannelWanted` (robotvclient.cpp:469). -/
def IsChannelWanted (env : Env) (s : Session) (channel : Option Channel) (type : Int) : Bool :=
  match channel with
  | none => false
  | some c =>
    if type = 1 ∧ ¬ IsRadio c = true then false
    else if type = 2 ∧ (c.Vtype ≠ 27 ∧ c.Vtype ≠ 36) then false
    else if c.Sid = 0 then false
    else if c.Name = "." then false
    else if s.m_filterlanguage = true ∧ s.m_LanguageIndex ≠ -1
        ∧ ¬ languageFound env s.m_LanguageIndex c = true then false
    else if c.Ca 0 = 0 then s.m_wantfta
    else if s.m_caids.length = 0 then true
    else caidsLoop env c s.m_caids

/-! ## Channel groups -/

/-- The implicit conversion of a C++ `bool` to `int`. -/
def boolToInt (b : Bool) : Int := if b = true then 1 else 0

/-- The value of `groupname` after the assignment at the top of the loop body
of `CreateChannelGroups`. -/
def nextGroupName (automatic : Bool) (channel : Channel) (groupname : String) : String :=
  if automatic = true ∧ ¬ channel.GroupSep = true then channel.Provider
  else if ¬ automatic = true ∧ channel.GroupSep = true then channel.Name
  else groupname

/-- The loop of `CreateChannelGroups` over the remaining channels, with the
current value of `groupname`. -/
def createGroupsLoop (env : Env) (automatic : Bool) :
    List Channel → String → Session → Session
  | [], _, s => s
  | channel :: rest, groupname, s =>
    let isRadio := IsRadio channel
    let groupname := nextGroupName automatic channel groupname
    if groupname = "" then createGroupsLoop env automatic rest groupname s
    else if ¬ IsChannelWanted env s (some channel) (boolToInt isRadio) = true then
      createGroupsLoop env automatic rest groupname s
    else if (s.groups isRadio).find groupname = none then
      createGroupsLoop env automatic rest groupname
        (s.setGroups isRadio ((s.groups isRadio).assign groupname
          { name := groupname, radio := isRadio, automatic := automatic }))
    else createGroupsLoop env automatic rest groupname s

/-- Function `RoboTVClient::CreateChannelGroups` (robotvclient.cpp:1260). -/
def CreateChannelGroups (env : Env) (s : Session) (automatic : Bool) : Session :=
  createGroupsLoop env automatic env.channels "" s

/-! ## Handlers -/

/-- What a handler leaves behind: the session, the response packet `m_resp`
and the `bool` it returns (true when the response must be sent). -/
structure HandlerOut where
  s : Session
  resp : MsgPacket
  result : Bool
  deriving DecidableEq, Repr

/-- Modelled from the spec: `SetLoggedIn` is defined in robotvclient.h, which
is not part of the sources; it records whether the session is logged in. -/
def SetLoggedIn (s : Session) (yesNo : Bool) : Session := { s with m_loggedIn := yesNo }

/-- Modelled from the spec: `SetStatusInterface` is defined in robotvclient.h,
which is not part of the sources; it records whether the session opted into
the status interface. -/
def SetStatusInterface (s : Session) (yesNo : Bool) : Session :=
  { s with m_StatusInterfaceEnabled := yesNo }

/-- Function `RoboTVClient::process_Login` (robotvclient.cpp:779). -/
def process_Login (env : Env) (s : Session) (req resp : MsgPacket) : HandlerOut :=
  let s := { s with m_protocolVersion := req.protocolVersion }
  let r1 := get_U8 req.payload
  let s := { s with m_compressionLevel := r1.1 }
  let r2 := get_String r1.2
  let s := { s with m_clientName := r2.1 }
  let s : Session :=
    if ¬ eop r2.2 = true then
      let r3 := get_String r2.2
      let r4 := get_U8 r3.2
      { s with m_LanguageIndex := env.I18nLanguageIndex r3.1, m_LangStreamType := r4.1 }
    else s
  if s.m_protocolVersion > env.ROBOTV_PROTOCOLVERSION ∨ s.m_protocolVersion < 4 then
    { s := s, resp := resp, result := false }
  else
    let resp := resp.setProtocolVersion s.m_protocolVersion
    let resp := resp.put_U32 env.timeNow
    let resp := resp.put_S32 env.tm_gmtoff
    let resp := resp.put_String "VDR-RoboTV Server"
    let resp := resp.put_String env.ROBOTV_VERSION
    { s := SetLoggedIn s true, resp := resp, result := true }

/-- Function `RoboTVClient::process_GetTime` (robotvclient.cpp:818). -/
def process_GetTime (env : Env) (s : Session) (resp : MsgPacket) : HandlerOut :=
  { s := s, resp := (resp.put_U32 env.timeNow).put_S32 env.tm_gmtoff, result := true }

/-- Function `RoboTVClient::process_EnableStatusInterface` (robotvclient.cpp:829). -/
def process_EnableStatusInterface (env : Env) (s : Session) (req resp : MsgPacket) :
    HandlerOut :=
  let enabled := decide ((get_U8 req.payload).1 ≠ 0)
  { s := SetStatusInterface s enabled, resp := resp.put_U32 env.ROBOTV_RET_OK, result := true }

/-- Function `RoboTVClient::process_UpdateChannels` (robotvclient.cpp:839); the write to
VDR's `Setup.UpdateChannels` is outside the session. -/
def process_UpdateChannels (env : Env) (s : Session) (req resp : MsgPacket) : HandlerOut :=
  let updatechannels := (get_U8 req.payload).1
  if updatechannels ≤ 5 then
    { s := s, resp := resp.put_U32 env.ROBOTV_RET_OK, result := true }
  else
    { s := s, resp := resp.put_U32 env.ROBOTV_RET_DATAINVALID, result := true }

/-- The loop `for i < count` of `process_ChannelFilter`, reading one CaID per
iteration and appending it to the list. -/
def readCaids : Nat → List Field → List Int → List Int
  | 0, _, acc => acc
  | n + 1, p, acc =>
    let r := get_U32 p
    readCaids n r.2 (acc ++ [toS32 r.1])

/-- Function `RoboTVClient::process_ChannelFilter` (robotvclient.cpp:854). -/
def process_ChannelFilter (env : Env) (s : Session) (req resp : MsgPacket) : HandlerOut :=
  let r1 := get_U32 req.payload
  let s := { s with m_wantfta := decide (r1.1 ≠ 0) }
  let r2 := get_U32 r1.2
  let s := { s with m_filterlanguage := decide (r2.1 ≠ 0) }
  let s := { s with m_caids := [] }
  let r3 := get_U32 r2.2
  let count := r3.1
  let s : Session :=
    if count < 20 then { s with m_caids := readCaids count r3.2 s.m_caids } else s
  { s := s, resp := resp.put_U32 env.ROBOTV_RET_OK, result := true }

/-! ### Live streaming -/

/-- Function `RoboTVClient::StartChannelStreaming` (robotvclient.cpp:271): the slot is
overwritten with a new streamer; a streamer still in the slot is not deleted.
Returns the session and the status. -/
def StartChannelStreaming (env : Env) (s : Session) (channel : Channel) (timeout : Nat)
    (priority : Int) (waitforiframe rawPTS : Bool) : Session × Int :=
  let streamer : LiveStreamer :=
    { channel := channel, priority := priority, rawPTS := rawPTS,
      languageIndex := s.m_LanguageIndex, langStreamType := s.m_LangStreamType,
      timeout := timeout, protocolVersion := s.m_protocolVersion,
      waitForKeyFrame := waitforiframe, paused := false, packetRequests := 0,
      signalRequests := 0 }
  ({ s with m_Streamer := some streamer,
            orphanedStreamers := s.orphanedStreamers ++ s.m_Streamer.toList },
   env.ROBOTV_RET_OK)

/-- Function `RoboTVClient::StopChannelStreaming` (robotvclient.cpp:283). -/
def StopChannelStreaming (s : Session) : Session := { s with m_Streamer := none }

/-- The channel lookup of `processChannelStream_Open`: by channel uid first
(`FindChannelByUID`), then by channel number (`GetByNumber`). -/
def resolveChannel (env : Env) (uid : Nat) : Option Channel :=
  match env.FindChannelByUID uid with
  | some c => some c
  | none => env.GetByNumber uid

/-- Function `RoboTVClient::processChannelStream_Open` (robotvclient.cpp:890). -/
def processChannelStream_Open (env : Env) (s : Session) (req resp : MsgPacket) : HandlerOut :=
  let r1 := get_U32 req.payload
  let uid := r1.1
  let r2 := if ¬ eop r1.2 = true then get_S32 r1.2 else (50, r1.2)
  let priority := r2.1
  let r3 := if ¬ eop r2.2 = true then get_U8 r2.2 else (0, r2.2)
  let waitforiframe := decide (r3.1 ≠ 0)
  let r4 := if ¬ eop r3.2 = true then get_U8 r3.2 else (0, r3.2)
  let rawPTS := decide (r4.1 ≠ 0)
  let timeout := env.stream_timeout
  let s := StopChannelStreaming s
  let channel := resolveChannel env uid
  match channel with
  | none => { s := s, resp := resp.put_U32 env.ROBOTV_RET_DATAINVALID, result := true }
  | some c =>
    let st := StartChannelStreaming env s c timeout priority waitforiframe rawPTS
    { s := st.1, resp := resp.put_U32 st.2, result := true }

/-- Function `RoboTVClient::processChannelStream_Close` (robotvclient.cpp:952). -/
def processChannelStream_Close (s : Session) (resp : MsgPacket) : HandlerOut :=
  { s := StopChannelStreaming s, resp := resp, result := true }

/-- Function `RoboTVClient::processChannelStream_Request` (robotvclient.cpp:957). -/
def processChannelStream_Request (s : Session) (resp : MsgPacket) : HandlerOut :=
  match s.m_Streamer with
  | some st =>
    { s := { s with m_Streamer := some { st with packetRequests := st.packetRequests + 1 } },
      resp := resp, result := false }
  | none => { s := s, resp := resp, result := false }

/-- Function `RoboTVClient::processChannelStream_Pause` (robotvclient.cpp:966);
`m_Streamer->pause(on)` is called without a null check, so the handler is
undefined (`none`) when the slot is empty. -/
def processChannelStream_Pause (s : Session) (req resp : MsgPacket) : Option HandlerOut :=
  let on_ := decide ((get_U32 req.payload).1 ≠ 0)
  match s.m_Streamer with
  | some st =>
    some { s := { s with m_Streamer := some { st with paused := on_ } }, resp := resp,
           result := true }
  | none => none

/-- Function `RoboTVClient::processChannelStream_Signal` (robotvclient.cpp:975). -/
def processChannelStream_Signal (s : Session) (resp : MsgPacket) : HandlerOut :=
  match s.m_Streamer with
  | none => { s := s, resp := resp, result := false }
  | some st =>
    { s := { s with m_Streamer := some { st with signalRequests := st.signalRequests + 1 } },
      resp := resp, result := false }

/-! ### Recording playback -/

/-- C `isspace` in the "C" locale. -/
def isSpaceC (c : Char) : Bool := c = ' ' ∨ (9 ≤ c.toNat ∧ c.toNat ≤ 13)

/-- Value of a hexadecimal digit, `none` for any other character. -/
def hexDigit (c : Char) : Option Nat :=
  if '0'.toNat ≤ c.toNat ∧ c.toNat ≤ '9'.toNat then some (c.toNat - '0'.toNat)
  else if 'a'.toNat ≤ c.toNat ∧ c.toNat ≤ 'f'.toNat then some (c.toNat - 'a'.toNat + 10)
  else if 'A'.toNat ≤ c.toNat ∧ c.toNat ≤ 'F'.toNat then some (c.toNat - 'A'.toNat + 10)
  else none

/-- Base-16 value of the leading hexadecimal digits of a character sequence,
continuing from the accumulator. -/
def hexValue : List Char → Nat → Nat
  | [], acc => acc
  | c :: rest, acc =>
    match hexDigit c with
    | some d => hexValue rest (acc * 16 + d)
    | none => acc

/-- The optional sign of a `%x` conversion: whether the field starts with a
minus sign, and the field after the sign. -/
def scanSign : List Char → Bool × List Char
  | '-' :: r => (true, r)
  | '+' :: r => (false, r)
  | cs => (false, cs)

/-- The optional prefix `0x` or `0X` of a `%x` conversion: the field after the
prefix. -/
def scanHexPrefix : List Char → List Char
  | '0' :: x :: r => if x = 'x' ∨ x = 'X' then r else '0' :: x :: r
  | cs => cs

/-- Function `recid2uid` (robotvclient.cpp:74): `sscanf(recid, "%8x", &uid)` on
`uid = 0`. The conversion skips white space, then reads within a field of at
most 8 characters an optional sign, an optional `0x` and hexadecimal digits;
without digits `uid` stays 0. -/
def recid2uid (recid : String) : Nat :=
  let window := (recid.data.dropWhile isSpaceC).take 8
  let signed : Bool × List Char := scanSign window
  let digits : List Char := scanHexPrefix signed.2
  let v := hexValue digits 0
  if signed.1 = true then (2 ^ 32 - v) % 2 ^ 32 else v

/-- The lower-case hexadecimal digit of a value below 16, as `%x` prints it. -/
def hexChar (d : Nat) : Char := "0123456789abcdef".data.getD d '0'

/-- The recording id that `processRECORDINGS_GetList` writes for a uid
(robotvclient.cpp:1671): `snprintf(recid, sizeof(recid), "%08x", uid)` with
`uint32_t uid` and `char recid[9]`. A 32-bit value has at most eight
hexadecimal digits, so `%08x` prints exactly eight characters, the digits of
the uid from the most significant one, with leading zeros. -/
def recidOfUid (uid : Nat) : String :=
  let u := uid % 2 ^ 32
  String.mk
    [hexChar (u / 16 ^ 7 % 16), hexChar (u / 16 ^ 6 % 16), hexChar (u / 16 ^ 5 % 16),
     hexChar (u / 16 ^ 4 % 16), hexChar (u / 16 ^ 3 % 16), hexChar (u / 16 ^ 2 % 16),
     hexChar (u / 16 % 16), hexChar (u % 16)]

/-- Function `RoboTVClient::processRecStream_Open` (robotvclient.cpp:986), in
the build for VDRVERSNUM >= 10703, where the container flag is
`recording->IsPesRecording()`. -/
def processRecStream_Open (env : Env) (s : Session) (req resp : MsgPacket) : HandlerOut :=
  let recid := (get_String req.payload).1
  let uid := recid2uid recid
  let recording := env.Lookup uid
  match recording, s.m_RecPlayer with
  | some rec, none =>
    let player : PacketPlayer := { recording := rec, lengthBytes := env.playerLength rec }
    let s := { s with m_RecPlayer := some player }
    let resp := resp.put_U32 env.ROBOTV_RET_OK
    let resp := resp.put_U32 0
    let resp := resp.put_U64 player.lengthBytes
    let resp := resp.put_U8 (if rec.IsPesRecording then 1 else 0)
    let resp := resp.put_U32 rec.LengthInSeconds
    { s := s, resp := resp, result := true }
  | _, _ => { s := s, resp := resp.put_U32 env.ROBOTV_RET_DATAUNKNOWN, result := true }

/-- Function `RoboTVClient::processRecStream_Close` (robotvclient.cpp:1020). -/
def processRecStream_Close (env : Env) (s : Session) (resp : MsgPacket) : HandlerOut :=
  let s : Session :=
    match s.m_RecPlayer with
    | some _ => { s with m_RecPlayer := none }
    | none => s
  { s := s, resp := resp.put_U32 env.ROBOTV_RET_OK, result := true }

/-- Function `RoboTVClient::processRecStream_Update` (robotvclient.cpp:1031). -/
def processRecStream_Update (env : Env) (s : Session) (resp : MsgPacket) : HandlerOut :=
  match s.m_RecPlayer with
  | none => { s := s, resp := resp, result := false }
  | some player =>
    let player := { player with lengthBytes := env.playerUpdate player }
    { s := { s with m_RecPlayer := some player },
      resp := (resp.put_U32 0).put_U64 player.lengthBytes, result := true }

/-- Function `RoboTVClient::processRecStream_GetBlock` (robotvclient.cpp:1043): `amount`
bytes are reserved in the response, the reader fills them, and the part it did
not fill is given back. -/
def processRecStream_GetBlock (env : Env) (s : Session) (req resp : MsgPacket) : HandlerOut :=
  match s.m_RecPlayer with
  | none => { s := s, resp := resp, result := false }
  | some player =>
    let r1 := get_U64 req.payload
    let position := r1.1
    let amount := (get_U32 r1.2).1
    let bytes := env.playerGetBlock player position amount
    { s := s, resp := { resp with payload := resp.payload ++ [Field.Blob (bytes.take amount)] },
      result := true }

/-- Function `RoboTVClient::processRecStream_GetPacket` (robotvclient.cpp:1063). -/
def processRecStream_GetPacket (env : Env) (s : Session) (resp : MsgPacket) : HandlerOut :=
  match s.m_RecPlayer with
  | none => { s := s, resp := resp, result := false }
  | some player =>
    match env.playerGetPacket player with
    | none => { s := s, resp := resp, result := true }
    | some p => { s := QueueMessage s p, resp := resp, result := true }

/-- Function `RoboTVClient::processRecStream_Seek` (robotvclient.cpp:1088). -/
def processRecStream_Seek (env : Env) (s : Session) (req resp : MsgPacket) : HandlerOut :=
  match s.m_RecPlayer with
  | none => { s := s, resp := resp, result := false }
  | some player =>
    let position := (get_U64 req.payload).1
    { s := s, resp := resp.put_U64 (env.playerSeek player position), result := true }

/-! ### Channel access -/

/-- The loop of `ChannelsCount` over the remaining channels. -/
def channelsCountLoop (env : Env) (s : Session) : List Channel → Int → Int
  | [], count => count
  | channel :: rest, count =>
    let count := if IsChannelWanted env s (some channel) 0 = true then count + 1 else count
    let count := if IsChannelWanted env s (some channel) 1 = true then count + 1 else count
    channelsCountLoop env s rest count

/-- Function `RoboTVClient::ChannelsCount` (robotvclient.cpp:1101). -/
def ChannelsCount (env : Env) (s : Session) : Int := channelsCountLoop env s env.channels 0

/-- Function `RoboTVClient::processCHANNELS_ChannelsCount` (robotvclient.cpp:1123). -/
def processCHANNELS_ChannelsCount (env : Env) (s : Session) (resp : MsgPacket) : HandlerOut :=
  let s := { s with m_channelCount := ChannelsCount env s }
  { s := s, resp := resp.put_U32 s.m_channelCount, result := true }

/-- Function `RoboTVClient::addChannelToPacket` (robotvclient.cpp:81). -/
def addChannelToPacket (env : Env) (s : Session) (channel : Channel) (p : MsgPacket) :
    MsgPacket :=
  let p := p.put_U32 channel.Number
  let p := p.put_String (env.toUTF8 channel.Name)
  let p := p.put_U32 (env.CreateChannelUID channel)
  let p := p.put_U32 (channel.Ca 0)
  let p := p.put_String (env.CreateLogoURL channel)
  if s.m_protocolVersion > 4 then p.put_String (env.CreateServiceReference channel) else p

/-- The loop of `processCHANNELS_GetChannels` over the remaining channels. -/
def getChannelsLoop (env : Env) (s : Session) (type : Int) : List Channel → MsgPacket → MsgPacket
  | [], resp => resp
  | channel :: rest, resp =>
    if ¬ IsChannelWanted env s (some channel) type = true then
      getChannelsLoop env s type rest resp
    else
      let resp := resp.put_U32 channel.Number
      let resp := resp.put_String (env.toUTF8 channel.Name)
      let resp := resp.put_U32 (env.CreateChannelUID channel)
      let resp := resp.put_U32 (channel.Ca 0)
      let resp := resp.put_String (env.CreateLogoURL channel)
      let resp :=
        if s.m_protocolVersion > 4 then resp.put_String (env.CreateServiceReference channel)
        else resp
      getChannelsLoop env s type rest resp

/-- Function `RoboTVClient::processCHANNELS_GetChannels` (robotvclient.cpp:1130). -/
def processCHANNELS_GetChannels (env : Env) (s : Session) (req resp : MsgPacket) : HandlerOut :=
  let type := toS32 (get_U32 req.payload).1
  let s := { s with m_channelCount := ChannelsCount env s }
  if ¬ env.channelsLock = true then { s := s, resp := resp, result := true }
  else
    let resp := getChannelsLoop env s type env.channels resp
    { s := s, resp := resp.compress s.m_compressionLevel, result := true }

/-- Function `RoboTVClient::processCHANNELS_GroupsCount` (robotvclient.cpp:1168). -/
def processCHANNELS_GroupsCount (env : Env) (s : Session) (req resp : MsgPacket) : HandlerOut :=
  let type := (get_U32 req.payload).1
  let s := { s with m_channelgroups := ([], s.m_channelgroups.2) }
  let s := { s with m_channelgroups := (s.m_channelgroups.1, []) }
  let s := if type = 1 then CreateChannelGroups env s true else CreateChannelGroups env s false
  let count : Int := (s.m_channelgroups.1.length + s.m_channelgroups.2.length : Nat)
  { s := s, resp := resp.put_U32 count, result := true }

/-- Catalog `m_channelgroups[radio]` for a numeric index; there are two catalogs, so
any other index is out of bounds (`none`). -/
def Session.groupsAt (s : Session) (radio : Nat) : Option GroupMap :=
  if radio = 0 then some s.m_channelgroups.1
  else if radio = 1 then some s.m_channelgroups.2
  else none

/-- The loop of `processCHANNELS_GroupList` over the entries of a catalog. -/
def groupListLoop : GroupMap → MsgPacket → MsgPacket
  | [], resp => resp
  | (_, g) :: rest, resp =>
    groupListLoop rest ((resp.put_String g.name).put_U8 (if g.radio then 1 else 0))

/-- Function `RoboTVClient::processCHANNELS_GroupList` (robotvclient.cpp:1199). -/
def processCHANNELS_GroupList (s : Session) (req resp : MsgPacket) : Option HandlerOut :=
  let radio := (get_U8 req.payload).1
  match s.groupsAt radio with
  | none => none
  | some m => some { s := s, resp := groupListLoop m resp, result := true }

/-- The loop of `processCHANNELS_GetGroupMembers` over the remaining channels,
with the current values of `name` and `index`. -/
def groupMembersLoop (env : Env) (s : Session) (automatic : Bool) (groupname : String)
    (radio : Nat) : List Channel → String → Nat → MsgPacket → MsgPacket
  | [], _, _, resp => resp
  | channel :: rest, name, index, resp =>
    if automatic = true ∧ ¬ channel.GroupSep = true then
      let name := channel.Provider
      if name = "" then groupMembersLoop env s automatic groupname radio rest name index resp
      else if ¬ IsChannelWanted env s (some channel) radio = true then
        groupMembersLoop env s automatic groupname radio rest name index resp
      else if name = groupname then
        groupMembersLoop env s automatic groupname radio rest name (index + 1)
          ((resp.put_U32 (env.CreateChannelUID channel)).put_U32 ((index + 1 : Nat) : Int))
      else groupMembersLoop env s automatic groupname radio rest name index resp
    else if channel.GroupSep = true then
      groupMembersLoop env s automatic groupname radio rest channel.Name index resp
    else if name = "" then groupMembersLoop env s automatic groupname radio rest name index resp
    else if ¬ IsChannelWanted env s (some channel) radio = true then
      groupMembersLoop env s automatic groupname radio rest name index resp
    else if name = groupname then
      groupMembersLoop env s automatic groupname radio rest name (index + 1)
        ((resp.put_U32 (env.CreateChannelUID channel)).put_U32 ((index + 1 : Nat) : Int))
    else groupMembersLoop env s automatic groupname radio rest name index resp

/-- Function `RoboTVClient::processCHANNELS_GetGroupMembers` (robotvclient.cpp:1211). -/
def processCHANNELS_GetGroupMembers (env : Env) (s : Session) (req resp : MsgPacket) :
    Option HandlerOut :=
  let r1 := get_String req.payload
  let groupname := r1.1
  let radio := (get_U8 r1.2).1
  match s.groupsAt radio with
  | none => none
  | some m =>
    match m.find groupname with
    | none => some { s := s, resp := resp, result := true }
    | some g =>
      let automatic := g.automatic
      let s := { s with m_channelCount := ChannelsCount env s }
      some { s := s,
             resp := groupMembersLoop env s automatic groupname radio env.channels "" 0 resp,
             result := true }

/-! ### Backend catalogs -/

/-- Function `RoboTVClient::TimerChange()` (robotvclient.cpp:317). -/
def TimerChange (s : Session) : Session :=
  if s.m_StatusInterfaceEnabled = true then
    QueueMessage s (MsgPacket.new MsgID.STATUS_TIMERCHANGE MsgType.STATUS 0)
  else s

/-- A handler of the timer, recording, artwork, EPG or scanner group: it
leaves the session alone, appends the fields the backend determines, applies
`compress(m_compressionLevel)` where the source does and returns true. -/
def backendHandler (env : Env) (s : Session) (req resp : MsgPacket) (compresses : Bool) :
    HandlerOut :=
  let r := env.backendFields req.msgID req.payload
  let resp := { resp with payload := resp.payload ++ r.1 }
  let resp := if compresses = true ∧ r.2 = true then resp.compress s.m_compressionLevel else resp
  { s := s, resp := resp, result := true }

/-- What a timer handler leaves behind: the handler result and the timer
catalog. -/
structure TimerOut where
  out : HandlerOut
  Timers : TimerCatalog
  deriving DecidableEq, Repr

/-- Modelled from the spec: `FindTimerByUID` is not part of the sources; it
returns the first timer of the catalog with the given uid, `NULL` when there
is none. -/
def FindTimerByUID (cat : TimerCatalog) (uid : Nat) : Option Timer :=
  cat.timers.find? (fun t => decide (t.uid = uid))

/-- The list after `*timer = t` for the first timer with the given uid. -/
def replaceTimer : List Timer → Nat → Timer → List Timer
  | [], _, _ => []
  | x :: rest, uid, t => if x.uid = uid then t :: rest else x :: replaceTimer rest uid t

/-- Function `RoboTVClient::processTIMER_Add` (robotvclient.cpp:1349) on the
catalog `env.Timers`. -/
def processTIMER_Add (env : Env) (s : Session) (req resp : MsgPacket) : TimerOut :=
  if env.Timers.BeingEdited = true then
    { out := { s := s, resp := resp.put_U32 env.ROBOTV_RET_DATALOCKED, result := true },
      Timers := env.Timers }
  else
    match env.parseTimerAdd req.payload with
    | some timer =>
      match env.Timers.timers.find? (fun t => env.sameTimer t timer) with
      | none =>
        { out := { s := s, resp := resp.put_U32 env.ROBOTV_RET_OK, result := true },
          Timers := { env.Timers with timers := env.Timers.timers ++ [timer], modified := true } }
      | some _ =>
        { out := { s := s, resp := resp.put_U32 env.ROBOTV_RET_DATALOCKED, result := true },
          Timers := env.Timers }
    | none =>
      { out := { s := s, resp := resp.put_U32 env.ROBOTV_RET_DATAINVALID, result := true },
        Timers := env.Timers }

/-- Function `RoboTVClient::processTIMER_Delete` (robotvclient.cpp:1424) on the
catalog `env.Timers`. -/
def processTIMER_Delete (env : Env) (s : Session) (req resp : MsgPacket) : TimerOut :=
  let r1 := get_U32 req.payload
  let uid := r1.1
  let force := decide ((get_U32 r1.2).1 ≠ 0)
  match FindTimerByUID env.Timers uid with
  | none =>
    { out := { s := s, resp := resp.put_U32 env.ROBOTV_RET_DATAINVALID, result := true },
      Timers := env.Timers }
  | some timer =>
    if env.Timers.BeingEdited = true then
      { out := { s := s, resp := resp.put_U32 env.ROBOTV_RET_DATALOCKED, result := true },
        Timers := env.Timers }
    else if timer.Recording = true ∧ ¬ force = true then
      { out := { s := s, resp := resp.put_U32 env.ROBOTV_RET_RECRUNNING, result := true },
        Timers := env.Timers }
    else
      { out := { s := s, resp := resp.put_U32 env.ROBOTV_RET_OK, result := true },
        Timers := { env.Timers with
          skipped := env.Timers.skipped ++ [timer],
          timers := env.Timers.timers.erase timer,
          modified := true } }

/-- Function `RoboTVClient::processTIMER_Update` (robotvclient.cpp:1459) on the
catalog `env.Timers`. -/
def processTIMER_Update (env : Env) (s : Session) (req resp : MsgPacket) : TimerOut :=
  let r1 := get_U32 req.payload
  let uid := r1.1
  match FindTimerByUID env.Timers uid with
  | none =>
    { out := { s := s, resp := resp.put_U32 env.ROBOTV_RET_DATAUNKNOWN, result := true },
      Timers := env.Timers }
  | some timer =>
    if timer.Recording = true then
      { out := { s := s, resp := resp.put_U32 env.ROBOTV_RET_OK, result := true },
        Timers := env.Timers }
    else
      match env.parseTimerUpdate timer r1.2 with
      | none =>
        { out := { s := s, resp := resp.put_U32 env.ROBOTV_RET_DATAINVALID, result := true },
          Timers := env.Timers }
      | some t =>
        { out := { s := TimerChange s, resp := resp.put_U32 env.ROBOTV_RET_OK, result := true },
          Timers := { env.Timers with
            timers := replaceTimer env.Timers.timers uid t, modified := true } }

/-- Function `RoboTVClient::processRECORDINGS_GetDiskSpace`
(robotvclient.cpp:1531). `FreeMB / (100 - Percent)` is a division of `int`s,
undefined (`none`) when `Percent` is 100; the product with 100 is sent by
`put_U32` and so taken modulo 2^32. -/
def processRECORDINGS_GetDiskSpace (env : Env) (s : Session) (resp : MsgPacket) :
    Option HandlerOut :=
  let Percent := env.VideoDiskSpace.1
  let FreeMB := env.VideoDiskSpace.2
  if 100 - Percent = 0 then none
  else
    let Total := (FreeMB.tdiv (100 - Percent)) * 100
    let resp := resp.put_U32 Total
    let resp := resp.put_U32 FreeMB
    let resp := resp.put_U32 Percent
    some { s := s, resp := resp, result := true }

/-- C `strrchr(fullname, d)` followed by the split the recording list makes at
the position found: the text before the last `d` and the text after it; `none`
when `d` does not occur. -/
def splitLast (d : Char) (cs : List Char) : Option (List Char × List Char) :=
  match cs.reverse.span (fun c => c != d) with
  | (_, []) => none
  | (afterRev, _ :: beforeRev) => some (beforeRev.reverse, afterRev.reverse)

/-- The directory of a recording as the list sends it: every folder delimiter
becomes a slash, every underscore a blank, and leading slashes are skipped. -/
def directoryText (d : Char) (directory : List Char) : List Char :=
  (directory.map (fun c => if c = d then '/' else if c = '_' then ' ' else c)).dropWhile
    (fun c => c == '/')

/-- The body of the loop of `processRECORDINGS_GetList` for one recording, in
the build for APIVERSNUM >= 10727. -/
def addRecordingToPacket (env : Env) (recording : ListedRecording) (resp : MsgPacket) :
    MsgPacket :=
  let times : Int × Int :=
    match recording.event with
    | some event => (event.StartTime, event.Duration)
    | none =>
      match recording.recordControl with
      | some rc => (rc.1, rc.2 - rc.1)
      | none => (recording.Start, 0)
  let resp := resp.put_U32 times.1
  let resp := resp.put_U32 times.2
  let resp := resp.put_U32 recording.Priority
  let resp := resp.put_U32 recording.Lifetime
  let resp := resp.put_String
    (match recording.ChannelName with
     | some n => env.toUTF8 n
     | none => "")
  let split := splitLast env.FOLDERDELIMCHAR recording.Name.data
  let recname : List Char :=
    match split with
    | none => recording.Name.data
    | some parts => parts.2
  let directory : Option (List Char) := split.map (fun parts => parts.1)
  let resp := resp.put_String (env.toUTF8 (String.mk recname))
  let resp :=
    if ¬ env.isempty recording.ShortText = true then
      resp.put_String (env.toUTF8 (recording.ShortText.getD ""))
    else resp.put_String ""
  let resp :=
    if ¬ env.isempty recording.Description = true then
      resp.put_String (env.toUTF8 (recording.Description.getD ""))
    else resp.put_String ""
  let directory : Option String :=
    directory.map (fun dir => String.mk (directoryText env.FOLDERDELIMCHAR dir))
  let resp := resp.put_String
    (if env.isempty directory = true then "" else env.toUTF8 (directory.getD ""))
  let uid := env.Register recording
  let resp := resp.put_String (recidOfUid uid)
  let resp := resp.put_U32 (env.GetPlayCount uid)
  let resp :=
    match recording.event with
    | some event => resp.put_U32 event.Contents
    | none => resp.put_U32 0
  let resp := resp.put_String (env.GetPosterUrl uid)
  resp.put_String (env.GetBackgroundUrl uid)

/-- The loop of `processRECORDINGS_GetList` over the remaining recordings. -/
def recordingsListLoop (env : Env) : List ListedRecording → MsgPacket → MsgPacket
  | [], resp => resp
  | recording :: rest, resp => recordingsListLoop env rest (addRecordingToPacket env recording resp)

/-- Function `RoboTVClient::processRECORDINGS_GetList` (robotvclient.cpp:1553). -/
def processRECORDINGS_GetList (env : Env) (s : Session) (resp : MsgPacket) : HandlerOut :=
  let resp := recordingsListLoop env env.Recordings resp
  { s := s, resp := resp.compress s.m_compressionLevel, result := true }

/-- The loop of `processEPG_GetForChannel` over the remaining events of the
schedule, with the current value of `atLeastOneEvent`; the build is the one
for APIVERSNUM >= 10711 without the parental-rating patch, where the content
is `event->Contents()` and the rating `event->ParentalRating()`. Times are
`uint32_t`. -/
def epgLoop (env : Env) (s : Session) (startTime duration : Nat) :
    List EpgEvent → Bool → MsgPacket → Bool × MsgPacket
  | [], atLeastOneEvent, resp => (atLeastOneEvent, resp)
  | event :: rest, atLeastOneEvent, resp =>
    let thisEventID := toU32 event.EventID
    let thisEventTime := toU32 event.StartTime
    let thisEventDuration := toU32 event.Duration
    let thisEventContent := toU32 event.Contents
    let thisEventRating := toU32 event.ParentalRating
    if (thisEventTime + thisEventDuration) % 2 ^ 32 < toU32 env.timeNow then
      epgLoop env s startTime duration rest atLeastOneEvent resp
    else if (thisEventTime + thisEventDuration) % 2 ^ 32 ≤ startTime then
      epgLoop env s startTime duration rest atLeastOneEvent resp
    else if duration ≠ 0 ∧ thisEventTime ≥ (startTime + duration) % 2 ^ 32 then
      epgLoop env s startTime duration rest atLeastOneEvent resp
    else
      let thisEventTitle := event.Title.getD ""
      let thisEventSubTitle := event.ShortText.getD ""
      let thisEventDescription := event.Description.getD ""
      let resp := resp.put_U32 thisEventID
      let resp := resp.put_U32 thisEventTime
      let resp := resp.put_U32 thisEventDuration
      let resp := resp.put_U32 thisEventContent
      let resp := resp.put_U32 thisEventRating
      let resp := resp.put_String (env.toUTF8 thisEventTitle)
      let resp := resp.put_String (env.toUTF8 thisEventSubTitle)
      let resp := resp.put_String (env.toUTF8 thisEventDescription)
      let resp :=
        if s.m_protocolVersion ≥ 6 then
          match env.artworkGet thisEventContent (env.toUTF8 thisEventTitle) with
          | some urls => (resp.put_String urls.1).put_String urls.2
          | none => (resp.put_String "x").put_String "x"
        else resp
      epgLoop env s startTime duration rest true resp

/-- Function `RoboTVClient::processEPG_GetForChannel` (robotvclient.cpp:1905). -/
def processEPG_GetForChannel (env : Env) (s : Session) (req resp : MsgPacket) : HandlerOut :=
  let r1 := get_U32 req.payload
  let channelUID := r1.1
  let r2 := get_U32 r1.2
  let startTime := r2.1
  let duration := (get_U32 r2.2).1
  match env.FindChannelByUID channelUID with
  | none => { s := s, resp := resp.put_U32 0, result := true }
  | some channel =>
    match env.Schedules with
    | none => { s := s, resp := resp.put_U32 0, result := true }
    | some Schedules =>
      match Schedules channel with
      | none => { s := s, resp := resp.put_U32 0, result := true }
      | some events =>
        let r := epgLoop env s startTime duration events false resp
        let resp := if ¬ r.1 = true then r.2.put_U32 0 else r.2
        { s := s, resp := resp.compress s.m_compressionLevel, result := true }

/-- The handlers `processRECORDINGS_SetPlayCount`, `processRECORDINGS_SetPosition`,
`processRECORDINGS_SetUrls` and `processArtwork_Set`: they update the
recordings cache or the artwork store, write no field and return true. -/
def silentHandler (s : Session) (resp : MsgPacket) : HandlerOut :=
  { s := s, resp := resp, result := true }

/-! ## Status notifications -/

/-- Function `RoboTVClient::TimerChange(const cTimer*, eTimerChange)`
(robotvclient.cpp:290), the overload VDR calls with the timer that changed. -/
def TimerChangeOf (s : Session) (timer : Option Timer) : Session :=
  match timer with
  | none => s
  | some _ => TimerChange s

/-- Function `RoboTVClient::ChannelChange` (robotvclient.cpp:299). -/
def ChannelChange (env : Env) (s : Session) (Channel : Channel) : Session :=
  let s : Session :=
    match s.m_Streamer with
    | some st => { s with m_Streamer := some (env.streamerChannelChange st Channel) }
    | none => s
  if s.m_StatusInterfaceEnabled = true ∧ s.m_protocolVersion ≥ 6 then
    let resp := MsgPacket.new MsgID.STATUS_CHANNELCHANGED MsgType.STATUS 0
    let resp := addChannelToPacket env s Channel resp
    QueueMessage s resp
  else s

/-- Function `RoboTVClient::ChannelsChanged` (robotvclient.cpp:327). -/
def ChannelsChanged (env : Env) (s : Session) : Session :=
  if ¬ s.m_StatusInterfaceEnabled = true then s
  else
    let count := ChannelsCount env s
    if s.m_channelCount = count then s
    else QueueMessage s (MsgPacket.new MsgID.STATUS_CHANNELCHANGE MsgType.STATUS 0)

/-- Function `RoboTVClient::RecordingsChange` (robotvclient.cpp:352). -/
def RecordingsChange (s : Session) : Session :=
  if ¬ s.m_StatusInterfaceEnabled = true then s
  else QueueMessage s (MsgPacket.new MsgID.STATUS_RECORDINGSCHANGE MsgType.STATUS 0)

/-- Function `RoboTVClient::Recording` (robotvclient.cpp:363); `CardIndex` is
`Device->CardIndex()`. -/
def Recording_ (s : Session) (CardIndex : Int) (Name FileName : Option String) (On : Bool) :
    Session :=
  if s.m_StatusInterfaceEnabled = true then
    let resp := MsgPacket.new MsgID.STATUS_RECORDING MsgType.STATUS 0
    let resp := resp.put_U32 CardIndex
    let resp := resp.put_U32 (boolToInt On)
    let resp := match Name with
      | some n => resp.put_String n
      | none => resp.put_String ""
    let resp := match FileName with
      | some f => resp.put_String f
      | none => resp.put_String ""
    QueueMessage s resp
  else s

/-- Function `RoboTVClient::StatusMessage` (robotvclient.cpp:460). -/
def StatusMessage (s : Session) (Message : String) : Session :=
  let resp := MsgPacket.new MsgID.STATUS_MESSAGE MsgType.STATUS 0
  let resp := resp.put_U32 0
  let resp := resp.put_String Message
  QueueMessage s resp

/-- C `strcasecmp(a, b) == 0` in the "C" locale: equality up to the case of
the ASCII letters. -/
def strcasecmpEq (a b : String) : Bool :=
  decide (a.data.map Char.toLower = b.data.map Char.toLower)

/-- The messages that `OsdStatusMessage` ignores, before translation
(robotvclient.cpp:395 to 454). -/
def ignoredOsdMessages : List String :=
  ["Channel not available!", "Delete timer?", "Delete recording?",
   "Press any key to cancel shutdown", "Press any key to cancel restart",
   "Editing - shut down anyway?", "Recording - shut down anyway?", "shut down anyway?",
   "Recording - restart anyway?", "Editing - restart anyway?", "Delete channel?",
   "Timer still recording - really delete?", "Delete marks information?",
   "Delete resume information?", "CAM is in use - really reset?", "Really restart?",
   "Stop recording?", "Cancel editing?", "Cutter already running - Add to cutting queue?",
   "No index-file found. Creating may take minutes. Create one?"]

/-- Function `RoboTVClient::OsdStatusMessage` (robotvclient.cpp:390). -/
def OsdStatusMessage (env : Env) (s : Session) (Message : Option String) : Session :=
  match Message with
  | none => s
  | some msg =>
    if s.m_StatusInterfaceEnabled = true then
      if ignoredOsdMessages.any (fun m => strcasecmpEq msg (env.trVDR m)) = true then s
      else StatusMessage s msg
    else s

/-! ## Dispatcher and session loop -/

/-- The `switch` of `processRequest`: the handler selected by the message id,
`none` when that handler is undefined on the session or on what the backend
reports, and `result = false`
with nothing changed for an id without case label. The timer catalog that a
timer handler leaves is VDR's, not the session's: the next request observes
it in its own environment. -/
def dispatch (env : Env) (s : Session) (req resp : MsgPacket) : Option HandlerOut :=
  match req.msgID with
  | .LOGIN => some (process_Login env s req resp)
  | .GETTIME => some (process_GetTime env s resp)
  | .ENABLESTATUSINTERFACE => some (process_EnableStatusInterface env s req resp)
  | .UPDATECHANNELS => some (process_UpdateChannels env s req resp)
  | .CHANNELFILTER => some (process_ChannelFilter env s req resp)
  | .CHANNELSTREAM_OPEN => some (processChannelStream_Open env s req resp)
  | .CHANNELSTREAM_CLOSE => some (processChannelStream_Close s resp)
  | .CHANNELSTREAM_REQUEST => some (processChannelStream_Request s resp)
  | .CHANNELSTREAM_PAUSE => processChannelStream_Pause s req resp
  | .CHANNELSTREAM_SIGNAL => some (processChannelStream_Signal s resp)
  | .RECSTREAM_OPEN => some (processRecStream_Open env s req resp)
  | .RECSTREAM_CLOSE => some (processRecStream_Close env s resp)
  | .RECSTREAM_GETBLOCK => some (processRecStream_GetBlock env s req resp)
  | .RECSTREAM_GETPACKET => some (processRecStream_GetPacket env s resp)
  | .RECSTREAM_UPDATE => some (processRecStream_Update env s resp)
  | .RECSTREAM_SEEK => some (processRecStream_Seek env s req resp)
  | .CHANNELS_GETCOUNT => some (processCHANNELS_ChannelsCount env s resp)
  | .CHANNELS_GETCHANNELS => some (processCHANNELS_GetChannels env s req resp)
  | .CHANNELGROUP_GETCOUNT => some (processCHANNELS_GroupsCount env s req resp)
  | .CHANNELGROUP_LIST => processCHANNELS_GroupList s req resp
  | .CHANNELGROUP_MEMBERS => processCHANNELS_GetGroupMembers env s req resp
  | .TIMER_GETCOUNT => some (backendHandler env s req resp false)
  | .TIMER_GET => some (backendHandler env s req resp false)
  | .TIMER_GETLIST => some (backendHandler env s req resp false)
  | .TIMER_ADD => some (processTIMER_Add env s req resp).out
  | .TIMER_DELETE => some (processTIMER_Delete env s req resp).out
  | .TIMER_UPDATE => some (processTIMER_Update env s req resp).out
  | .RECORDINGS_DISKSIZE => processRECORDINGS_GetDiskSpace env s resp
  | .RECORDINGS_GETCOUNT => some (backendHandler env s req resp false)
  | .RECORDINGS_GETLIST => some (processRECORDINGS_GetList env s resp)
  | .RECORDINGS_RENAME => some (backendHandler env s req resp false)
  | .RECORDINGS_DELETE => some (backendHandler env s req resp false)
  | .RECORDINGS_SETPLAYCOUNT => some (silentHandler s resp)
  | .RECORDINGS_SETPOSITION => some (silentHandler s resp)
  | .RECORDINGS_SETURLS => some (silentHandler s resp)
  | .RECORDINGS_GETPOSITION => some (backendHandler env s req resp false)
  | .RECORDINGS_GETMARKS => some (backendHandler env s req resp false)
  | .ARTWORK_GET => some (backendHandler env s req resp false)
  | .ARTWORK_SET => some (silentHandler s resp)
  | .EPG_GETFORCHANNEL => some (processEPG_GetForChannel env s req resp)
  | .SCAN_SUPPORTED => some (backendHandler env s req resp false)
  | .SCAN_GETSETUP => some (backendHandler env s req resp true)
  | .SCAN_SETSETUP => some (backendHandler env s req resp false)
  | .SCAN_START => some (backendHandler env s req resp false)
  | .SCAN_STOP => some (backendHandler env s req resp false)
  | .SCAN_GETSTATUS => some (backendHandler env s req resp true)
  | _ => some { s := s, resp := resp, result := false }

/-- The response packet `m_resp` that `processRequest` sets up for a request:
empty, with the id and request id of the request and the server's protocol
version. -/
def freshResponse (env : Env) (req : MsgPacket) : MsgPacket :=
  (MsgPacket.new req.msgID MsgType.REQUEST_RESPONSE req.uid).setProtocolVersion
    env.ROBOTV_PROTOCOLVERSION

/-- Function `RoboTVClient::processRequest` (robotvclient.cpp:559) on the request `m_req`:
a fresh response packet is set up, the handler runs, and the response is queued
when the handler returned true. Returns the session and `result`. -/
def processRequest (env : Env) (s : Session) (req : MsgPacket) : Option (Session × Bool) :=
  let resp := freshResponse env req
  match dispatch env s req resp with
  | none => none
  | some out =>
    if out.result = true then some (QueueMessage out.s out.resp, out.result)
    else some (out.s, out.result)

/-- Function `RoboTVClient::SendScannerStatus` (robotvclient.cpp:2225). -/
def SendScannerStatus (env : Env) (s : Session) : Session :=
  match env.scannerStatus with
  | none => s
  | some status =>
    let resp := MsgPacket.new MsgID.STATUS_CHANNELSCAN MsgType.STATUS 0
    let resp := resp.setProtocolVersion env.ROBOTV_PROTOCOLVERSION
    let resp := resp.put_U8 status.status
    let resp := resp.put_U16 status.progress
    let resp := resp.put_U16 status.strength
    let resp := resp.put_U16 status.numChannels
    let resp := resp.put_U16 status.newChannels
    let resp := resp.put_String status.curr_device
    let resp := resp.put_String status.transponder
    let resp := resp.compress s.m_compressionLevel
    QueueMessage s resp

/-- Outcome of `MsgPacket::read(m_socket, bClosed, 1000)`. -/
inductive ReadResult where
  | closed
  | nothing
  | message (req : MsgPacket)
  deriving DecidableEq, Repr

/-- What one iteration of the loop of `Action` observes: the environment, the
outcome of the k-th `write` of the drain step, the outcome of the read and
whether the scanner is scanning. -/
structure Iteration where
  env : Env
  sendOk : Nat → Bool
  read : ReadResult
  scanning : Bool

/-- The drain step of `Action` ("send pending messages"): the queue that is
left, starting with the k-th `write` of the iteration. -/
def drainQueue (sendOk : Nat → Bool) : List MsgPacket → Nat → List MsgPacket
  | [], _ => []
  | p :: rest, k => if ¬ sendOk k = true then p :: rest else drainQueue sendOk rest (k + 1)

/-- The `write` calls of the drain step of `Action` in the order they are
made, each with its outcome, starting with the k-th `write` of the iteration:
the loop stops after the first failed `write`. -/
def drainTrace (sendOk : Nat → Bool) : List MsgPacket → Nat → List (MsgPacket × Bool)
  | [], _ => []
  | p :: rest, k =>
    if ¬ sendOk k = true then [(p, false)] else (p, true) :: drainTrace sendOk rest (k + 1)

/-- The loop of `RoboTVClient::Action` (robotvclient.cpp:231) over the
iterations it runs while `Running()` holds; `none` when a handler is
undefined. -/
def actionLoop : List Iteration → Session → Option Session
  | [], s => some s
  | it :: rest, s =>
    let s := { s with m_queue := drainQueue it.sendOk s.m_queue 0 }
    match it.read with
    | .closed => some s
    | .message req =>
      match processRequest it.env s req with
      | none => none
      | some r => actionLoop rest r.1
    | .nothing =>
      if it.scanning = true then actionLoop rest (SendScannerStatus it.env s)
      else actionLoop rest s

/-- Function `RoboTVClient::Action` (robotvclient.cpp:223). -/
def Action (iterations : List Iteration) (s : Session) : Option Session :=
  (actionLoop iterations s).map StopChannelStreaming

/-- The session loop on a sequence of decoded requests, each with the
environment it runs in: `processRequest` on each in turn. -/
def processRequests : List (Env × MsgPacket) → Session → Option Session
  | [], s => some s
  | er :: rest, s =>
    match processRequest er.1 s er.2 with
    | none => none
    | some r => processRequests rest r.1

/-! ## Locking -/

/-- The mutexes of a `RoboTVClient`: `cMutex` members, taken by constructing a
`cMutexLock` and released when its scope ends. -/
inductive Mutex where
  | m_msgLock
  | m_streamerLock
  | m_queueLock
  deriving DecidableEq, Repr

/-- The shared objects: the slot `m_Streamer` together with the streamer it
points to, and the outgoing queue `m_queue`. -/
inductive Shared where
  | m_Streamer
  | m_queue
  deriving DecidableEq, Repr

/-- What one statement does to the mutexes and the shared objects. A call
through the pointer (`m_Streamer->f()`), a comparison of the pointer and
`delete m_Streamer` read the slot; an assignment writes it. On the queue,
`empty()` and `front()` read, `push` and `pop` write. -/
inductive Op where
  | lock (m : Mutex)
  | unlock (m : Mutex)
  | read (x : Shared)
  | write (x : Shared)
  deriving DecidableEq, Repr

/-- Function `RoboTVClient::StartChannelStreaming` (robotvclient.cpp:271) as a
sequence of operations: the lock, the assignment of the new streamer, the four
setter calls through the slot, the end of the scope. -/
def Trace.StartChannelStreaming : List Op :=
  [Op.lock Mutex.m_streamerLock, Op.write Shared.m_Streamer, Op.read Shared.m_Streamer,
   Op.read Shared.m_Streamer, Op.read Shared.m_Streamer, Op.read Shared.m_Streamer,
   Op.unlock Mutex.m_streamerLock]

/-- Function `RoboTVClient::StopChannelStreaming` (robotvclient.cpp:283) as a
sequence of operations: the lock, `delete m_Streamer`, `m_Streamer = NULL`, the
end of the scope. -/
def Trace.StopChannelStreaming : List Op :=
  [Op.lock Mutex.m_streamerLock, Op.read Shared.m_Streamer, Op.write Shared.m_Streamer,
   Op.unlock Mutex.m_streamerLock]

/-- Function `RoboTVClient::QueueMessage` (robotvclient.cpp:2248) as a sequence
of operations. -/
def Trace.QueueMessage : List Op :=
  [Op.lock Mutex.m_queueLock, Op.write Shared.m_queue, Op.unlock Mutex.m_queueLock]

/-- Function `RoboTVClient::ChannelChange` (robotvclient.cpp:299) as a sequence
of operations; `streaming` says whether the slot is found non-null, `pushes`
whether the status message is queued. The two scoped locks end in reverse
order. -/
def Trace.ChannelChange (streaming pushes : Bool) : List Op :=
  [Op.lock Mutex.m_streamerLock, Op.read Shared.m_Streamer]
    ++ (if streaming = true then [Op.read Shared.m_Streamer] else [])
    ++ [Op.lock Mutex.m_msgLock]
    ++ (if pushes = true then Trace.QueueMessage else [])
    ++ [Op.unlock Mutex.m_msgLock, Op.unlock Mutex.m_streamerLock]

/-- A status callback other than `ChannelChange` (`TimerChange`,
`ChannelsChanged`, `RecordingsChange`, `Recording`, `OsdStatusMessage`) as a
sequence of operations; `pushes` says whether a message is queued. -/
def Trace.statusCallback (pushes : Bool) : List Op :=
  [Op.lock Mutex.m_msgLock] ++ (if pushes = true then Trace.QueueMessage else [])
    ++ [Op.unlock Mutex.m_msgLock]

/-- The `sent` rounds of the drain loop of `Action` in which the `write`
succeeds: `empty()`, `front()`, `pop()`. -/
def Trace.drainRounds : Nat → List Op
  | 0 => []
  | sent + 1 =>
    Op.read Shared.m_queue :: Op.read Shared.m_queue :: Op.write Shared.m_queue
      :: Trace.drainRounds sent

/-- The drain step of `Action` (robotvclient.cpp:233) as a sequence of
operations: `sent` messages are written and popped; then either the queue is
found empty, or (`failed`) the `write` of the front message fails and the loop
is left. -/
def Trace.drain (sent : Nat) (failed : Bool) : List Op :=
  [Op.lock Mutex.m_queueLock] ++ Trace.drainRounds sent
    ++ (if failed = true then [Op.read Shared.m_queue, Op.read Shared.m_queue]
        else [Op.read Shared.m_queue])
    ++ [Op.unlock Mutex.m_queueLock]

/-- The request handlers, as far as they touch the slot `m_Streamer`. -/
inductive Handler where
  /-- Handler `processChannelStream_Open`; `found` says whether the channel resolves. -/
  | open_ (found : Bool)
  /-- Handler `processChannelStream_Close`. -/
  | close
  /-- Handler `processChannelStream_Request`; `streaming` says whether the slot
  is found non-null. -/
  | packetRequest (streaming : Bool)
  /-- Handler `processChannelStream_Pause`. -/
  | pause
  /-- Handler `processChannelStream_Signal`. -/
  | signal (streaming : Bool)
  /-- Any other handler, with its result. -/
  | other (result : Bool)
  deriving DecidableEq, Repr

/-- The operations of a handler body. -/
def Trace.handler : Handler → List Op
  | .open_ found =>
    Trace.StopChannelStreaming ++ (if found = true then Trace.StartChannelStreaming else [])
  | .close => Trace.StopChannelStreaming
  | .packetRequest streaming =>
    Op.read Shared.m_Streamer :: (if streaming = true then [Op.read Shared.m_Streamer] else [])
  | .pause => [Op.read Shared.m_Streamer]
  | .signal streaming =>
    Op.read Shared.m_Streamer :: (if streaming = true then [Op.read Shared.m_Streamer] else [])
  | .other _ => []

/-- The value a handler returns. -/
def Handler.result : Handler → Bool
  | .open_ _ => true
  | .close => true
  | .packetRequest _ => false
  | .pause => true
  | .signal _ => false
  | .other result => result

/-- Function `RoboTVClient::processRequest` (robotvclient.cpp:559) as a
sequence of operations: the lock of `m_msgLock`, the handler, the queueing of
the response when the handler returned true, the end of the scope. -/
def Trace.processRequest (h : Handler) : List Op :=
  [Op.lock Mutex.m_msgLock] ++ Trace.handler h
    ++ (if h.result = true then Trace.QueueMessage else [])
    ++ [Op.unlock Mutex.m_msgLock]

/-- What one iteration of the loop of `Action` finds after the drain step. -/
inductive Incoming where
  | nothing
  | scanStatus
  | request (h : Handler)
  deriving DecidableEq, Repr

/-- One iteration of the loop of `Action` that does not leave the loop: the
drain step, then the request, or the scan status push, or nothing. -/
def Trace.iteration (it : Nat × Bool × Incoming) : List Op :=
  Trace.drain it.1 it.2.1
    ++ (match it.2.2 with
        | .nothing => []
        | .scanStatus => Trace.QueueMessage
        | .request h => Trace.processRequest h)

/-- Function `RoboTVClient::Action` (robotvclient.cpp:223) as a sequence of
operations: the iterations of the loop, the last drain step before the loop is
left, and `StopChannelStreaming`. -/
def Trace.Action (iterations : List (Nat × Bool × Incoming)) (last : Nat × Bool) : List Op :=
  (iterations.map Trace.iteration).flatten ++ Trace.drain last.1 last.2
    ++ Trace.StopChannelStreaming

/-- A callback that the backend runs on a thread of its own. -/
inductive Callback where
  | ChannelChange (streaming pushes : Bool)
  | status (pushes : Bool)
  deriving DecidableEq, Repr

/-- The operations of a callback. -/
def Trace.callback : Callback → List Op
  | .ChannelChange streaming pushes => Trace.ChannelChange streaming pushes
  | .status pushes => Trace.statusCallback pushes

/-- The operations of a backend thread that runs a sequence of callbacks. -/
def Trace.callbacks (cs : List Callback) : List Op := (cs.map Trace.callback).flatten

/-- The threads of one client at a point of an execution: what each thread has
still to do (thread 0 is the session thread, the others deliver callbacks),
and for each mutex the thread that holds it and how often it took it (a
`cMutex` may be taken again by the thread that holds it). -/
structure Threads where
  todo : Nat → List Op
  owner : Mutex → Option Nat
  depth : Mutex → Nat

/-- The threads before any of them ran: the session thread runs `Action`, the
thread `j + 1` runs the callbacks `callbacks j`, and no mutex is held. -/
def Threads.start (iterations : List (Nat × Bool × Incoming)) (last : Nat × Bool)
    (callbacks : List (List Callback)) : Threads :=
  { todo := fun i =>
      match i with
      | 0 => Trace.Action iterations last
      | j + 1 => Trace.callbacks (callbacks.getD j []),
    owner := fun _ => none,
    depth := fun _ => 0 }

/-- Thread `i` performs its next operation; `none` when it has none left or
waits for a mutex that another thread holds. -/
def Threads.step (st : Threads) (i : Nat) : Option Threads :=
  match st.todo i with
  | [] => none
  | Op.lock m :: rest =>
    match st.owner m with
    | none =>
      some { todo := Function.update st.todo i rest,
             owner := Function.update st.owner m (some i),
             depth := Function.update st.depth m 1 }
    | some j =>
      if j = i then
        some { st with todo := Function.update st.todo i rest,
                       depth := Function.update st.depth m (st.depth m + 1) }
      else none
  | Op.unlock m :: rest =>
    if st.owner m = some i then
      some { todo := Function.update st.todo i rest,
             owner := if st.depth m - 1 = 0 then Function.update st.owner m none else st.owner,
             depth := Function.update st.depth m (st.depth m - 1) }
    else some { st with todo := Function.update st.todo i rest }
  | _ :: rest => some { st with todo := Function.update st.todo i rest }

/-- An execution: the threads take steps in the order of the schedule; `none`
when the schedule asks a thread for a step it cannot take. -/
def Threads.run (st : Threads) : List Nat → Option Threads
  | [] => some st
  | i :: schedule =>
    match st.step i with
    | none => none
    | some st1 => st1.run schedule

/-- How often a thread holds each of the three mutexes. -/
structure Held where
  msgLock : Nat
  streamerLock : Nat
  queueLock : Nat
  deriving DecidableEq, Repr

/-- How often mutex `m` is held. -/
def Held.get (h : Held) : Mutex → Nat
  | .m_msgLock => h.msgLock
  | .m_streamerLock => h.streamerLock
  | .m_queueLock => h.queueLock

/-- The record with the count of mutex `m` replaced. -/
def Held.set (h : Held) (m : Mutex) (v : Nat) : Held :=
  match m with
  | .m_msgLock => { h with msgLock := v }
  | .m_streamerLock => { h with streamerLock := v }
  | .m_queueLock => { h with queueLock := v }

/-- The counts after an operation of the thread. -/
def Held.after (h : Held) : Op → Held
  | Op.lock m => h.set m (h.get m + 1)
  | Op.unlock m => h.set m (h.get m - 1)
  | Op.read _ => h
  | Op.write _ => h

/-- How often thread `i` holds mutex `m`. -/
def Threads.heldBy (st : Threads) (i : Nat) (m : Mutex) : Nat :=
  if st.owner m = some i then st.depth m else 0

/-- The mutexes that thread `i` holds. -/
def Threads.held (st : Threads) (i : Nat) : Held :=
  { msgLock := st.heldBy i Mutex.m_msgLock, streamerLock := st.heldBy i Mutex.m_streamerLock,
    queueLock := st.heldBy i Mutex.m_queueLock }

/-- The next operation of thread `i`. -/
def Threads.next (st : Threads) (i : Nat) : Option Op := (st.todo i).head?

/-- Two threads race on a shared object when both are about to access it and
one of the accesses is a write. -/
def Threads.race (st : Threads) (x : Shared) (i j : Nat) : Prop :=
  i ≠ j ∧ st.next i = some (Op.write x) ∧
    (st.next j = some (Op.read x) ∨ st.next j = some (Op.write x))

/-- The mutex that guards a shared object. -/
def Shared.guard : Shared → Mutex
  | .m_Streamer => Mutex.m_streamerLock
  | .m_queue => Mutex.m_queueLock

/-- The lock discipline along a sequence of operations that starts with the
mutexes held as `held` says: every write of a shared object, every access of
the queue and, when `strict`, every read of the slot happens while the mutex
that guards the object is held. -/
def guardedFrom (strict : Bool) : Held → List Op → Bool
  | _, [] => true
  | held, Op.lock m :: rest => guardedFrom strict (held.set m (held.get m + 1)) rest
  | held, Op.unlock m :: rest => guardedFrom strict (held.set m (held.get m - 1)) rest
  | held, Op.write x :: rest => decide (0 < held.get x.guard) && guardedFrom strict held rest
  | held, Op.read x :: rest =>
    (decide (0 < held.get x.guard) || (!strict && decide (x = Shared.m_Streamer)))
      && guardedFrom strict held rest

/-- A sequence of operations that keeps the lock discipline from every state
of the mutexes and leaves them as it found them. -/
def Balanced (strict : Bool) (ops : List Op) : Prop :=
  ∀ (held : Held) (rest : List Op),
    guardedFrom strict held (ops ++ rest) = guardedFrom strict held rest

/-- The discipline of all threads at a point of an execution: the session
thread (thread 0) may read the slot without the mutex, the callback threads
may not, and no callback thread has a write of the slot ahead. -/
def Threads.disciplined (st : Threads) : Prop :=
  (∀ i, guardedFrom (decide (i ≠ 0)) (st.held i) (st.todo i) = true) ∧
  (∀ i, i ≠ 0 → Op.write Shared.m_Streamer ∉ st.todo i)

/-! ## Specification-side definitions -/

/-- The conditional-access ids of a channel in the words of the specification:
the entries `Ca(0)`, `Ca(1)`, ... below index MAXCAIDS and before the first
zero entry. -/
def caIdsBeforeZero (env : Env) (c : Channel) : List Int :=
  ((List.range env.MAXCAIDS).map (fun j => c.Ca j)).takeWhile (fun x => decide (x ≠ 0))

/-- The names of the groups in catalog `isRadio` of the session. -/
def Session.groupNames (s : Session) (isRadio : Bool) : List String :=
  (s.groups isRadio).map Prod.fst

/-- The group key of a non-separator channel `c` that follows the entries `pre`
of the catalog, when the loop over the catalog started with `groupname`: the
provider name of `c` in automatic mode, else the name of the last separator
in `pre`, or `groupname` when `pre` holds no separator. -/
def groupKeyFrom (automatic : Bool) (groupname : String) (pre : List Channel) (c : Channel) :
    String :=
  if automatic = true then c.Provider
  else
    match pre.reverse.find? (fun x => x.GroupSep) with
    | some sep => sep.Name
    | none => groupname

/-- The group key in the words of the specification: the provider name of the
channel in automatic mode, and in non-automatic mode the name of the most
recent separator entry preceding the channel in the catalog (empty when there
is none). -/
def specGroupKey (automatic : Bool) (pre : List Channel) (c : Channel) : String :=
  if automatic = true then c.Provider
  else
    match pre.reverse.find? (fun x => x.GroupSep) with
    | some sep => sep.Name
    | none => ""

/-- The filter settings of two sessions agree. -/
def sameFilter (s t : Session) : Prop :=
  s.m_wantfta = t.m_wantfta ∧ s.m_filterlanguage = t.m_filterlanguage ∧
  s.m_LanguageIndex = t.m_LanguageIndex ∧ s.m_caids = t.m_caids

/-- Catalog `rest`, scanned from the group name `groupname`, holds a source for
group `n` of catalog `r`: a non-separator channel that classifies as `r`, is
wanted under that classification and has the non-empty key `n`. -/
def groupSource (env : Env) (s : Session) (automatic : Bool) (groupname : String)
    (rest : List Channel) (r : Bool) (n : String) : Prop :=
  ∃ pre c post, rest = pre ++ c :: post ∧ c.GroupSep = false ∧ IsRadio c = r ∧
    IsChannelWanted env s (some c) (boolToInt r) = true ∧
    groupKeyFrom automatic groupname pre c = n ∧ n ≠ ""

/-- Modelled from the spec: `PacketPlayer::getBlock` is not part of the sources.
On a recording with the given content, `getBlock(offset, amount)` returns up to
`amount` bytes at `offset`, fewer at the end of the file. -/
def specGetBlock (content : List Nat) (offset amount : Nat) : List Nat :=
  (content.drop offset).take amount

/-- The fields of a member list in the words of the specification: for each
member, in order, its channel uid and its index, the indices counting on from
`k + 1`. -/
def memberFields (env : Env) : Nat → List Channel → List Field
  | _, [] => []
  | k, c :: rest =>
    Field.U32 (env.CreateChannelUID c % 2 ^ 32) :: Field.U32 (k + 1) :: memberFields env (k + 1) rest

/-! ## Concrete data used to evaluate the definitions -/

/-- An environment with an empty channel catalog and no recordings; the
protocol constants are those of a server supporting versions 4 to 7. -/
def sampleEnv : Env :=
  { ROBOTV_PROTOCOLVERSION := 7, ROBOTV_VERSION := "0.9.0", ROBOTV_RET_OK := 0,
    ROBOTV_RET_RECRUNNING := 1, ROBOTV_RET_NOTSUPPORTED := 995,
    ROBOTV_RET_DATAUNKNOWN := 996, ROBOTV_RET_DATALOCKED := 997,
    ROBOTV_RET_DATAINVALID := 998, ROBOTV_RET_ERROR := 999,
    MAXAPIDS := 32, MAXDPIDS := 16, MAXCAIDS := 12,
    timeNow := 1700000000, tm_gmtoff := 3600,
    I18nLanguageIndex := fun l => if l = "deu" then 1 else if l = "eng" then 0 else -1,
    stream_timeout := 10, channels := [],
    FindChannelByUID := fun _ => none, GetByNumber := fun _ => none,
    CreateChannelUID := fun _ => 0, Lookup := fun _ => none, playerLength := fun _ => 0,
    backendFields := fun _ _ => ([], false),
    Timers := { timers := [], BeingEdited := false, modified := false, skipped := [] },
    parseTimerAdd := fun _ => none, parseTimerUpdate := fun _ _ => none,
    sameTimer := fun a b => decide (a.settings = b.settings), trVDR := fun x => x,
    streamerChannelChange := fun st _ => st,
    channelsLock := true, CreateServiceReference := fun _ => "", CreateLogoURL := fun _ => "",
    toUTF8 := fun x => x, playerGetBlock := fun _ _ _ => [], playerGetPacket := fun _ => none,
    playerSeek := fun _ _ => 0, playerUpdate := fun p => p.lengthBytes, scannerStatus := none,
    VideoDiskSpace := (50, 200000), Recordings := [], Register := fun _ => 0,
    GetPlayCount := fun _ => 0, GetPosterUrl := fun _ => "", GetBackgroundUrl := fun _ => "",
    isempty := fun t =>
      match t with
      | none => true
      | some text => text.data.all isSpaceC,
    FOLDERDELIMCHAR := '~', Schedules := none, artworkGet := fun _ _ => none }

/-- The session as the constructor `RoboTVClient::RoboTVClient` leaves it
(robotvclient.cpp:171), with protocol version 0 and an empty client name. -/
def freshSession : Session :=
  { m_Id := 1, m_loggedIn := false, m_Streamer := none, orphanedStreamers := [],
    m_StatusInterfaceEnabled := false, m_RecPlayer := none, m_compressionLevel := 0,
    m_LanguageIndex := -1, m_LangStreamType := 0, m_channelCount := 0, m_timeout := 3000,
    m_scanSupported := false, m_wantfta := true, m_filterlanguage := false, m_caids := [],
    m_protocolVersion := 0, m_clientName := "", m_channelgroups := ([], []), m_queue := [] }

/-- A request packet with the given id, protocol version and payload. -/
def request (id : MsgID) (version : Nat) (payload : List Field) : MsgPacket :=
  { msgID := id, type := MsgType.REQUEST_RESPONSE, uid := 1, protocolVersion := version,
    payload := payload, compression := 0 }

/-- A login request declaring protocol version 6. -/
def sampleLogin : MsgPacket := request MsgID.LOGIN 6 [Field.U8 0, Field.Str "kodi"]

/-- The fresh session after `sampleLogin` was accepted. -/
def loggedInSession : Session :=
  { freshSession with
    m_loggedIn := true, m_protocolVersion := 6, m_clientName := "kodi",
    m_queue :=
      [{ msgID := MsgID.LOGIN, type := MsgType.REQUEST_RESPONSE, uid := 1, protocolVersion := 6,
         payload := [Field.U32 1700000000, Field.S32 3600, Field.Str "VDR-RoboTV Server",
                     Field.Str "0.9.0"],
         compression := 0 }] }

/-- Two requests that follow the login: a time request and a channel filter
admitting the CA ids 0x1702 and 0x1833. -/
def sampleLater : List (Env × MsgPacket) :=
  [(sampleEnv, request MsgID.GETTIME 6 []),
   (sampleEnv, request MsgID.CHANNELFILTER 6
      [Field.U32 1, Field.U32 0, Field.U32 2, Field.U32 0x1702, Field.U32 0x1833])]

/-- A free-to-air MPEG-2 television channel. -/
def sampleChannel : Channel :=
  { Number := 1, Name := "One", ShortName := "One", Provider := "ARD", GroupSep := false,
    Vpid := 101, Vtype := 2, apids := [102], Sid := 28106, Tid := 1101, Nid := 1, Source := 0,
    caids := [], alangs := ["deu"], dlangs := [] }

/-- An encrypted H.264 channel whose video pid is the placeholder 1: it
classifies as radio and carries video type 27. -/
def radioHdChannel : Channel :=
  { Number := 7, Name := "Seven", ShortName := "Seven", Provider := "SKY", GroupSep := false,
    Vpid := 1, Vtype := 27, apids := [711], Sid := 131, Tid := 4, Nid := 133, Source := 0,
    caids := [0x1702, 0x1833], alangs := ["deu"], dlangs := ["eng"] }

/-- A separator entry of the catalog as VDR parses it: only its name is set. -/
def sampleSeparator : Channel :=
  { Number := 0, Name := "News", ShortName := "", Provider := "", GroupSep := true,
    Vpid := 0, Vtype := 0, apids := [], Sid := 0, Tid := 0, Nid := 0, Source := 0,
    caids := [], alangs := [], dlangs := [] }

/-- An environment whose catalog is a separator followed by a television
channel and an encrypted radio channel. -/
def groupsEnv : Env :=
  { sampleEnv with channels := [sampleSeparator, sampleChannel, radioHdChannel] }

/-- A live streamer on the sample channel. -/
def sampleStreamer : LiveStreamer :=
  { channel := sampleChannel, priority := 50, rawPTS := false, languageIndex := -1,
    langStreamType := 0, timeout := 10, protocolVersion := 6, waitForKeyFrame := false,
    paused := false, packetRequests := 0, signalRequests := 0 }

/-- The logged-in session while it streams the sample channel. -/
def streamingSession : Session := { loggedInSession with m_Streamer := some sampleStreamer }

/-- An environment in which channel uid 7 resolves to the encrypted radio
channel. -/
def lookupEnv : Env :=
  { sampleEnv with FindChannelByUID := fun uid => if uid = 7 then some radioHdChannel else none }

/-- A recording of one hour in TS format. -/
def sampleRecording : Recording :=
  { FileName := "/video/Movie/2015-01-01.20.15.1-0.rec", Name := "Movie",
    IsPesRecording := false, LengthInSeconds := 3600 }

/-- An environment whose recordings cache resolves uid 42 to the sample
recording, 1000000 bytes long. -/
def recordingsEnv : Env :=
  { sampleEnv with
    Lookup := fun uid => if uid = 42 then some sampleRecording else none,
    playerLength := fun _ => 1000000 }


/-- The logged-in session with a playback sub-session open on the sample
recording. -/
def playbackSession : Session :=
  { loggedInSession with
    m_RecPlayer := some { recording := sampleRecording, lengthBytes := 5 } }

/-- An environment whose recording reader serves the five bytes 10, 20, 30,
40, 50 as the specification describes `getBlock`. -/
def readerEnv : Env :=
  { sampleEnv with
    playerGetBlock := fun _ position amount => specGetBlock [10, 20, 30, 40, 50] position amount }

/-- An environment whose scanner reports a status. -/
def scanEnv : Env :=
  { sampleEnv with
    scannerStatus := some { status := 1, progress := 40, strength := 70, numChannels := 12,
                            newChannels := 3, curr_device := "DVB-S", transponder := "11836H" } }

/-- A timer that is recording. -/
def recordingTimer : Timer := { uid := 5, Recording := true, settings := "1:S19.2E:news" }

/-- A timer that is not recording. -/
def idleTimer : Timer := { uid := 9, Recording := false, settings := "1:S19.2E:film" }

/-- An environment whose timer catalog holds the two sample timers and is not
under edit. -/
def timersEnv : Env :=
  { sampleEnv with
    Timers := { timers := [recordingTimer, idleTimer], BeingEdited := false, modified := false,
                skipped := [] } }

/-- An environment whose timer catalog holds the two sample timers and is
under edit; every update request parses to new settings for its timer. -/
def lockedTimersEnv : Env :=
  { sampleEnv with
    Timers := { timers := [recordingTimer, idleTimer], BeingEdited := true, modified := false,
                skipped := [] },
    parseTimerUpdate := fun t _ => some { t with settings := "0:S19.2E:film" } }

/-- The logged-in session after it opted into the status interface. -/
def statusSession : Session := { loggedInSession with m_StatusInterfaceEnabled := true }

/-- A channel without video pid and without audio pid. -/
def noPidChannel : Channel := { sampleChannel with Vpid := 0, apids := [] }

/-- A stream packet as the recording reader hands it out. -/
def streamPacket : MsgPacket :=
  { msgID := MsgID.other, type := MsgType.STREAM, uid := 0, protocolVersion := 7,
    payload := [Field.U16 256, Field.S32 90000, Field.Blob [0, 0, 1, 224]], compression := 0 }

/-- An environment whose recording reader has a packet at hand. -/
def packetEnv : Env := { sampleEnv with playerGetPacket := fun _ => some streamPacket }

/-- An environment whose video directory is full: 100 percent in use, nothing
free. -/
def fullDiskEnv : Env := { sampleEnv with VideoDiskSpace := (100, 0) }

/-- The logged-in session had it negotiated protocol version 5. -/
def olderSession : Session := { loggedInSession with m_protocolVersion := 5 }

/-- A recording in the folder Movies, with an event. -/
def listedMovie : ListedRecording :=
  { event := some { StartTime := 1420139700, Duration := 5400, Contents := 16 },
    recordControl := none, Start := 1420139700, Priority := 50, Lifetime := 99,
    ChannelName := some "One", Name := "Movies~Night_Train", ShortText := some "Thriller",
    Description := none }

/-- An environment whose recordings are the one sample entry, registered under
uid 42 with a poster and a background URL. -/
def libraryEnv : Env :=
  { sampleEnv with
    Recordings := [listedMovie], Register := fun _ => 42, GetPlayCount := fun _ => 3,
    GetPosterUrl := fun _ => "http://art/p42.jpg",
    GetBackgroundUrl := fun _ => "http://art/b42.jpg" }

/-- An event that starts after the clock of the sample environment. -/
def sampleEvent : EpgEvent :=
  { EventID := 811, Title := some "News", ShortText := none, Description := some "Daily news",
    StartTime := 1700003600, Duration := 900, Contents := 32, ParentalRating := 0 }

/-- An environment in which channel uid 1 resolves to the sample channel, whose
schedule holds the sample event; no artwork is known. -/
def epgEnv : Env :=
  { sampleEnv with
    FindChannelByUID := fun uid => if uid = 1 then some sampleChannel else none,
    Schedules := some (fun _ => some [sampleEvent]) }

end RoboTV

/-! # Properties -/

namespace RoboTV

/-! ## Login and dispatch -/

/-- The response packet that `processRequest` hands to a handler. -/
theorem freshResponse_payload (env : Env) (req : MsgPacket) :
    (freshResponse env req).payload = [] := rfl

/-- The login handler stores the declared protocol version whatever else
happens. -/
theorem process_Login_version (env : Env) (s : Session) (req resp : MsgPacket) :
    (process_Login env s req resp).s.m_protocolVersion = req.protocolVersion := by
  unfold process_Login
  by_cases hv : req.protocolVersion > env.ROBOTV_PROTOCOLVERSION ∨ req.protocolVersion < 4 <;>
    by_cases he : eop (get_String (get_U8 req.payload).2).2 = true <;>
    simp [hv, he, SetLoggedIn]

/-- An accepted login: the handler returns true, the session is logged in with
the declared version, and exactly one response with the four login fields is
queued. -/
theorem processRequest_login_accepted (env : Env) (s : Session) (req : MsgPacket)
    (hlogin : req.msgID = MsgID.LOGIN)
    (hv : 4 ≤ req.protocolVersion ∧ req.protocolVersion ≤ env.ROBOTV_PROTOCOLVERSION) :
    ∃ s1, processRequest env s req = some (s1, true) ∧ s1.m_loggedIn = true ∧
      s1.m_protocolVersion = req.protocolVersion ∧
      s1.m_queue = s.m_queue ++
        [{ msgID := MsgID.LOGIN, type := MsgType.REQUEST_RESPONSE, uid := req.uid,
           protocolVersion := req.protocolVersion,
           payload := [Field.U32 (toU32 env.timeNow), Field.S32 (toS32 env.tm_gmtoff),
                       Field.Str "VDR-RoboTV Server", Field.Str env.ROBOTV_VERSION],
           compression := 0 }] := by
  have hv2 : ¬ (req.protocolVersion > env.ROBOTV_PROTOCOLVERSION ∨ req.protocolVersion < 4) := by
    omega
  by_cases he : eop (get_String (get_U8 req.payload).2).2 = true <;>
    simp [processRequest, dispatch, hlogin, process_Login, hv2, he, SetLoggedIn, QueueMessage,
      freshResponse, MsgPacket.new, MsgPacket.setProtocolVersion, MsgPacket.put_U32, MsgPacket.put_S32,
      MsgPacket.put_String]

/-- A rejected login: the handler returns false, nothing is queued and the
logged-in flag is not written. -/
theorem processRequest_login_rejected (env : Env) (s : Session) (req : MsgPacket)
    (hlogin : req.msgID = MsgID.LOGIN)
    (hv : ¬ (4 ≤ req.protocolVersion ∧ req.protocolVersion ≤ env.ROBOTV_PROTOCOLVERSION)) :
    ∃ s1, processRequest env s req = some (s1, false) ∧ s1.m_loggedIn = s.m_loggedIn ∧
      s1.m_queue = s.m_queue := by
  have hv2 : req.protocolVersion > env.ROBOTV_PROTOCOLVERSION ∨ req.protocolVersion < 4 := by
    omega
  by_cases he : eop (get_String (get_U8 req.payload).2).2 = true <;>
    simp [processRequest, dispatch, hlogin, process_Login, hv2, he]

/-- C1: for a login request declaring protocol version v, if
4 <= v <= ROBOTV_PROTOCOLVERSION then `process_Login` returns true, marks the
session logged in, and the response queued by `processRequest` carries exactly
the fields current time (u32), UTC offset (s32), server name and server
version, in this order; if v is outside that range the handler returns false,
no response is queued and the logged-in flag is left as it was. -/
theorem C1_login_accepts_supported_versions (env : Env) (s : Session) (req : MsgPacket)
    (hlogin : req.msgID = MsgID.LOGIN) :
    ((4 ≤ req.protocolVersion ∧ req.protocolVersion ≤ env.ROBOTV_PROTOCOLVERSION) →
      ∃ s1, processRequest env s req = some (s1, true) ∧ s1.m_loggedIn = true ∧
        s1.m_queue = s.m_queue ++
          [{ msgID := MsgID.LOGIN, type := MsgType.REQUEST_RESPONSE, uid := req.uid,
             protocolVersion := req.protocolVersion,
             payload := [Field.U32 (toU32 env.timeNow), Field.S32 (toS32 env.tm_gmtoff),
                         Field.Str "VDR-RoboTV Server", Field.Str env.ROBOTV_VERSION],
             compression := 0 }]) ∧
    (¬ (4 ≤ req.protocolVersion ∧ req.protocolVersion ≤ env.ROBOTV_PROTOCOLVERSION) →
      ∃ s1, processRequest env s req = some (s1, false) ∧ s1.m_loggedIn = s.m_loggedIn ∧
        s1.m_queue = s.m_queue) := by
  constructor
  · intro hv
    obtain ⟨s1, h1, h2, _, h4⟩ := processRequest_login_accepted env s req hlogin hv
    exact ⟨s1, h1, h2, h4⟩
  · intro hv
    exact processRequest_login_rejected env s req hlogin hv

/-- Witness for C1: a login declaring version 5 is accepted by a server
supporting versions up to 7, and a login declaring version 3 is rejected. -/
theorem C1_login_accepts_supported_versions_witness :
    (∃ s1, processRequest sampleEnv freshSession (request MsgID.LOGIN 5 [Field.U8 0, Field.Str "kodi"])
        = some (s1, true) ∧ s1.m_loggedIn = true ∧
        s1.m_queue = freshSession.m_queue ++
          [{ msgID := MsgID.LOGIN, type := MsgType.REQUEST_RESPONSE, uid := 1,
             protocolVersion := 5,
             payload := [Field.U32 (toU32 sampleEnv.timeNow), Field.S32 (toS32 sampleEnv.tm_gmtoff),
                         Field.Str "VDR-RoboTV Server", Field.Str sampleEnv.ROBOTV_VERSION],
             compression := 0 }]) ∧
    (∃ s1, processRequest sampleEnv freshSession (request MsgID.LOGIN 3 [Field.U8 0, Field.Str "kodi"])
        = some (s1, false) ∧ s1.m_loggedIn = freshSession.m_loggedIn ∧
        s1.m_queue = freshSession.m_queue) :=
  ⟨(C1_login_accepts_supported_versions sampleEnv freshSession
      (request MsgID.LOGIN 5 [Field.U8 0, Field.Str "kodi"]) rfl).1 (by decide),
   (C1_login_accepts_supported_versions sampleEnv freshSession
      (request MsgID.LOGIN 3 [Field.U8 0, Field.Str "kodi"]) rfl).2 (by decide)⟩

/-- Assigning one catalog changes no other field of the session. -/
theorem setGroups_eq (s : Session) (r : Bool) (m : GroupMap) :
    ∃ gm, s.setGroups r m = { s with m_channelgroups := gm } := by
  unfold Session.setGroups
  cases r
  · exact ⟨_, rfl⟩
  · exact ⟨_, rfl⟩

/-- The grouping loop changes no field of the session but the catalogs. -/
theorem createGroupsLoop_eq (env : Env) (automatic : Bool) (cs : List Channel) :
    ∀ (g : String) (s : Session),
      ∃ gm, createGroupsLoop env automatic cs g s = { s with m_channelgroups := gm } := by
  induction cs with
  | nil => intro g s; exact ⟨s.m_channelgroups, rfl⟩
  | cons c rest ih =>
    intro g s
    simp only [createGroupsLoop]
    by_cases h1 : nextGroupName automatic c g = ""
    · simp only [h1, if_true]; exact ih _ _
    · simp only [h1, if_false]
      by_cases h2 : ¬ IsChannelWanted env s (some c) (boolToInt (IsRadio c)) = true
      · simp only [h2, if_true]; exact ih _ _
      · simp only [h2, if_false]
        by_cases h3 : (s.groups (IsRadio c)).find (nextGroupName automatic c g) = none
        · simp only [h3, if_true]
          obtain ⟨gm1, h1⟩ := setGroups_eq s (IsRadio c)
            ((s.groups (IsRadio c)).assign (nextGroupName automatic c g)
              { name := nextGroupName automatic c g, radio := IsRadio c, automatic := automatic })
          rw [h1]
          obtain ⟨gm2, h2⟩ := ih (nextGroupName automatic c g) { s with m_channelgroups := gm1 }
          exact ⟨gm2, by rw [h2]⟩
        · simp only [h3, if_false]; exact ih _ _

/-- The stored protocol version is not written by `process_ChannelFilter`. -/
theorem process_ChannelFilter_version (env : Env) (s : Session) (req resp : MsgPacket) :
    (process_ChannelFilter env s req resp).s.m_protocolVersion = s.m_protocolVersion := by
  unfold process_ChannelFilter
  simp only
  split <;> rfl

/-- The stored protocol version is not written by `processChannelStream_Open`. -/
theorem processChannelStream_Open_version (env : Env) (s : Session) (req resp : MsgPacket) :
    (processChannelStream_Open env s req resp).s.m_protocolVersion = s.m_protocolVersion := by
  unfold processChannelStream_Open
  simp only
  split <;> rfl

/-- The stored protocol version is not written by `processChannelStream_Request`. -/
theorem processChannelStream_Request_version (s : Session) (resp : MsgPacket) :
    (processChannelStream_Request s resp).s.m_protocolVersion = s.m_protocolVersion := by
  unfold processChannelStream_Request
  split <;> rfl

/-- The stored protocol version is not written by `processChannelStream_Pause`. -/
theorem processChannelStream_Pause_version (s : Session) (req resp : MsgPacket) (out : HandlerOut)
    (h : processChannelStream_Pause s req resp = some out) :
    out.s.m_protocolVersion = s.m_protocolVersion := by
  unfold processChannelStream_Pause at h
  simp only at h
  split at h
  · simp only [Option.some.injEq] at h; subst h; rfl
  · exact absurd h (by simp)

/-- The stored protocol version is not written by `processChannelStream_Signal`. -/
theorem processChannelStream_Signal_version (s : Session) (resp : MsgPacket) :
    (processChannelStream_Signal s resp).s.m_protocolVersion = s.m_protocolVersion := by
  unfold processChannelStream_Signal
  split <;> rfl

/-- The stored protocol version is not written by `processRecStream_Open`. -/
theorem processRecStream_Open_version (env : Env) (s : Session) (req resp : MsgPacket) :
    (processRecStream_Open env s req resp).s.m_protocolVersion = s.m_protocolVersion := by
  unfold processRecStream_Open
  simp only
  split <;> rfl

/-- The stored protocol version is not written by `processRecStream_Close`. -/
theorem processRecStream_Close_version (env : Env) (s : Session) (resp : MsgPacket) :
    (processRecStream_Close env s resp).s.m_protocolVersion = s.m_protocolVersion := by
  unfold processRecStream_Close
  simp only
  split <;> rfl

/-- The stored protocol version is not written by `processRecStream_Update`. -/
theorem processRecStream_Update_version (env : Env) (s : Session) (resp : MsgPacket) :
    (processRecStream_Update env s resp).s.m_protocolVersion = s.m_protocolVersion := by
  unfold processRecStream_Update
  split <;> rfl

/-- The stored protocol version is not written by `processRecStream_GetBlock`. -/
theorem processRecStream_GetBlock_version (env : Env) (s : Session) (req resp : MsgPacket) :
    (processRecStream_GetBlock env s req resp).s.m_protocolVersion = s.m_protocolVersion := by
  unfold processRecStream_GetBlock
  split <;> rfl

/-- The stored protocol version is not written by `processRecStream_GetPacket`. -/
theorem processRecStream_GetPacket_version (env : Env) (s : Session) (resp : MsgPacket) :
    (processRecStream_GetPacket env s resp).s.m_protocolVersion = s.m_protocolVersion := by
  unfold processRecStream_GetPacket
  split
  · rfl
  · split <;> rfl

/-- The stored protocol version is not written by `processRecStream_Seek`. -/
theorem processRecStream_Seek_version (env : Env) (s : Session) (req resp : MsgPacket) :
    (processRecStream_Seek env s req resp).s.m_protocolVersion = s.m_protocolVersion := by
  unfold processRecStream_Seek
  split <;> rfl

/-- The stored protocol version is not written by `processCHANNELS_GetChannels`. -/
theorem processCHANNELS_GetChannels_version (env : Env) (s : Session) (req resp : MsgPacket) :
    (processCHANNELS_GetChannels env s req resp).s.m_protocolVersion = s.m_protocolVersion := by
  unfold processCHANNELS_GetChannels
  simp only
  split <;> rfl

/-- The stored protocol version is not written by `processCHANNELS_GroupsCount`. -/
theorem processCHANNELS_GroupsCount_version (env : Env) (s : Session) (req resp : MsgPacket) :
    (processCHANNELS_GroupsCount env s req resp).s.m_protocolVersion = s.m_protocolVersion := by
  unfold processCHANNELS_GroupsCount CreateChannelGroups
  simp only
  split
  · obtain ⟨gm, h⟩ := createGroupsLoop_eq env true env.channels ""
      { s with m_channelgroups := ([], []) }
    rw [h]
  · obtain ⟨gm, h⟩ := createGroupsLoop_eq env false env.channels ""
      { s with m_channelgroups := ([], []) }
    rw [h]

/-- The stored protocol version is not written by `processCHANNELS_GroupList`. -/
theorem processCHANNELS_GroupList_version (s : Session) (req resp : MsgPacket) (out : HandlerOut)
    (h : processCHANNELS_GroupList s req resp = some out) :
    out.s.m_protocolVersion = s.m_protocolVersion := by
  unfold processCHANNELS_GroupList at h
  simp only at h
  split at h
  · exact absurd h (by simp)
  · simp only [Option.some.injEq] at h; subst h; rfl

/-- The stored protocol version is not written by `processCHANNELS_GetGroupMembers`. -/
theorem processCHANNELS_GetGroupMembers_version (env : Env) (s : Session) (req resp : MsgPacket)
    (out : HandlerOut) (h : processCHANNELS_GetGroupMembers env s req resp = some out) :
    out.s.m_protocolVersion = s.m_protocolVersion := by
  unfold processCHANNELS_GetGroupMembers at h
  simp only at h
  split at h
  · exact absurd h (by simp)
  · split at h
    · simp only [Option.some.injEq] at h; subst h; rfl
    · simp only [Option.some.injEq] at h; subst h; rfl

/-- The stored protocol version is not written by `processTIMER_Add`. -/
theorem processTIMER_Add_version (env : Env) (s : Session) (req resp : MsgPacket) :
    (processTIMER_Add env s req resp).out.s.m_protocolVersion = s.m_protocolVersion := by
  unfold processTIMER_Add
  split
  · rfl
  · split
    · split <;> rfl
    · rfl

/-- The stored protocol version is not written by `processTIMER_Delete`. -/
theorem processTIMER_Delete_version (env : Env) (s : Session) (req resp : MsgPacket) :
    (processTIMER_Delete env s req resp).out.s.m_protocolVersion = s.m_protocolVersion := by
  unfold processTIMER_Delete
  simp only
  split
  · rfl
  · split
    · rfl
    · split <;> rfl

/-- The stored protocol version is not written by `processTIMER_Update`. -/
theorem processTIMER_Update_version (env : Env) (s : Session) (req resp : MsgPacket) :
    (processTIMER_Update env s req resp).out.s.m_protocolVersion = s.m_protocolVersion := by
  unfold processTIMER_Update TimerChange QueueMessage
  simp only
  split
  · rfl
  · split
    · rfl
    · split
      · rfl
      · split <;> rfl

/-- The disk-space handler leaves the session alone. -/
theorem processRECORDINGS_GetDiskSpace_version (env : Env) (s : Session) (resp : MsgPacket)
    (out : HandlerOut) (h : processRECORDINGS_GetDiskSpace env s resp = some out) :
    out.s.m_protocolVersion = s.m_protocolVersion := by
  unfold processRECORDINGS_GetDiskSpace at h
  simp only at h
  split at h
  · exact absurd h (by simp)
  · simp only [Option.some.injEq] at h
    rw [← h]

/-- The EPG handler leaves the session alone. -/
theorem processEPG_GetForChannel_version (env : Env) (s : Session) (req resp : MsgPacket) :
    (processEPG_GetForChannel env s req resp).s.m_protocolVersion = s.m_protocolVersion := by
  unfold processEPG_GetForChannel
  simp only
  split
  · rfl
  · split
    · rfl
    · split <;> rfl

/-- No handler but the login handler writes the stored protocol version. -/
theorem dispatch_version (env : Env) (s : Session) (req resp : MsgPacket) (out : HandlerOut)
    (hne : req.msgID ≠ MsgID.LOGIN) (h : dispatch env s req resp = some out) :
    out.s.m_protocolVersion = s.m_protocolVersion := by
  obtain ⟨id, ty, uid, pv, pl, cp⟩ := req
  cases id
  case LOGIN => exact absurd rfl hne
  case CHANNELSTREAM_PAUSE => exact processChannelStream_Pause_version s _ resp out h
  case CHANNELGROUP_LIST => exact processCHANNELS_GroupList_version s _ resp out h
  case CHANNELGROUP_MEMBERS => exact processCHANNELS_GetGroupMembers_version env s _ resp out h
  case RECORDINGS_DISKSIZE => exact processRECORDINGS_GetDiskSpace_version env s resp out h
  all_goals
    simp only [dispatch, Option.some.injEq] at h
    subst h
    first
      | rfl
      | exact process_ChannelFilter_version env s _ resp
      | exact processChannelStream_Open_version env s _ resp
      | exact processChannelStream_Request_version s resp
      | exact processChannelStream_Signal_version s resp
      | exact processRecStream_Open_version env s _ resp
      | exact processRecStream_Close_version env s resp
      | exact processRecStream_Update_version env s resp
      | exact processRecStream_GetBlock_version env s _ resp
      | exact processRecStream_GetPacket_version env s resp
      | exact processRecStream_Seek_version env s _ resp
      | exact processCHANNELS_GetChannels_version env s _ resp
      | exact processCHANNELS_GroupsCount_version env s _ resp
      | exact processTIMER_Add_version env s _ resp
      | exact processTIMER_Delete_version env s _ resp
      | exact processTIMER_Update_version env s _ resp
      | exact processEPG_GetForChannel_version env s _ resp
      | (unfold process_UpdateChannels; simp only; split <;> rfl)


/-- Function `processRequest` keeps the stored protocol version on every request that
is not a login request. -/
theorem processRequest_version (env : Env) (s s1 : Session) (req : MsgPacket) (b : Bool)
    (hne : req.msgID ≠ MsgID.LOGIN) (h : processRequest env s req = some (s1, b)) :
    s1.m_protocolVersion = s.m_protocolVersion := by
  unfold processRequest at h
  simp only at h
  split at h
  · exact absurd h (by simp)
  · rename_i out hd
    have hv := dispatch_version env s req _ out hne hd
    split at h
    · simp only [Option.some.injEq, Prod.mk.injEq] at h
      rw [← h.1]; exact hv
    · simp only [Option.some.injEq, Prod.mk.injEq] at h
      rw [← h.1]; exact hv

/-- A sequence of requests none of which is a login request keeps the stored
protocol version. -/
theorem processRequests_version (later : List (Env × MsgPacket)) :
    ∀ (s s2 : Session), (∀ er ∈ later, er.2.msgID ≠ MsgID.LOGIN) →
      processRequests later s = some s2 → s2.m_protocolVersion = s.m_protocolVersion := by
  induction later with
  | nil =>
    intro s s2 _ h
    simp only [processRequests, Option.some.injEq] at h
    rw [h]
  | cons er rest ih =>
    intro s s2 hall h
    simp only [processRequests] at h
    split at h
    · exact absurd h (by simp)
    · rename_i r hr
      have h1 := processRequest_version er.1 s r.1 er.2 r.2
        (hall er (List.mem_cons_self _ _)) hr
      have h2 := ih r.1 s2 (fun e he => hall e (List.mem_cons_of_mem _ he)) h
      rw [h2, h1]

/-- C2, the code at the failing inputs: a session that never logged in runs
the CHANNELFILTER handler (the want-FTA flag changes from true to false) and
queues its response; and after a login declaring version 3 was rejected the
loop of `Action` still processes the next message, on a session that is not
logged in and stores protocol version 3. -/
theorem C2_requests_run_without_login :
    freshSession.m_loggedIn = false ∧ freshSession.m_wantfta = true ∧
    (processRequest sampleEnv freshSession
        (request MsgID.CHANNELFILTER 0 [Field.U32 0, Field.U32 0, Field.U32 0])).map
      (fun r => (r.2, r.1.m_loggedIn, r.1.m_wantfta, r.1.m_queue.map (fun p => p.payload)))
      = some (true, false, false, [[Field.U32 0]]) ∧
    (Action
        [{ env := sampleEnv, sendOk := fun _ => true,
           read := ReadResult.message (request MsgID.LOGIN 3 [Field.U8 0, Field.Str "kodi"]),
           scanning := false },
         { env := sampleEnv, sendOk := fun _ => true,
           read := ReadResult.message
             (request MsgID.CHANNELFILTER 3 [Field.U32 0, Field.U32 0, Field.U32 0]),
           scanning := false }]
        freshSession).map
      (fun s => (s.m_loggedIn, s.m_protocolVersion, s.m_wantfta,
        s.m_queue.map (fun p => (p.msgID, p.payload))))
      = some (false, 3, false, [(MsgID.CHANNELFILTER, [Field.U32 0])]) := by
  refine ⟨by decide, by decide, by decide, rfl⟩

/-- C3 fails as stated: after a login accepted with version 6, a further login
request declaring version 5 leaves the session with stored version 5. -/
theorem C3_relogin_overwrites_version :
    (processRequest sampleEnv freshSession
        (request MsgID.LOGIN 6 [Field.U8 0, Field.Str "kodi"])).map
      (fun r => (r.2, r.1.m_loggedIn, r.1.m_protocolVersion)) = some (true, true, 6) ∧
    (processRequests
        [(sampleEnv, request MsgID.LOGIN 6 [Field.U8 0, Field.Str "kodi"]),
         (sampleEnv, request MsgID.LOGIN 5 [Field.U8 0, Field.Str "kodi"])]
        freshSession).map (fun s => s.m_protocolVersion) = some 5 := by
  decide

/-- C3 as amended: when a login declaring version v (4 <= v <=
ROBOTV_PROTOCOLVERSION) has been processed, the session is logged in with
stored version v, and after any later sequence of requests none of which is a
login request the stored version is still v; a later accepted login request
replaces the stored version by the version it declares. -/
theorem C3_version_kept_until_next_login (env : Env) (s0 s1 s2 : Session) (login : MsgPacket)
    (b1 : Bool) (later : List (Env × MsgPacket))
    (hlogin : login.msgID = MsgID.LOGIN)
    (hacc : 4 ≤ login.protocolVersion ∧ login.protocolVersion ≤ env.ROBOTV_PROTOCOLVERSION)
    (h1 : processRequest env s0 login = some (s1, b1))
    (hlater : ∀ er ∈ later, er.2.msgID ≠ MsgID.LOGIN)
    (h2 : processRequests later s1 = some s2) :
    s1.m_loggedIn = true ∧ s1.m_protocolVersion = login.protocolVersion ∧
    s2.m_protocolVersion = login.protocolVersion ∧
    (∀ (env3 : Env) (relogin : MsgPacket) (s3 : Session) (b3 : Bool),
      relogin.msgID = MsgID.LOGIN →
      (4 ≤ relogin.protocolVersion ∧ relogin.protocolVersion ≤ env3.ROBOTV_PROTOCOLVERSION) →
      processRequest env3 s2 relogin = some (s3, b3) →
      s3.m_protocolVersion = relogin.protocolVersion) := by
  have key : ∀ (e : Env) (s t : Session) (r : MsgPacket) (b : Bool),
      r.msgID = MsgID.LOGIN →
      (4 ≤ r.protocolVersion ∧ r.protocolVersion ≤ e.ROBOTV_PROTOCOLVERSION) →
      processRequest e s r = some (t, b) →
      t.m_loggedIn = true ∧ t.m_protocolVersion = r.protocolVersion := by
    intro e s t r b hr ha hp
    obtain ⟨t1, ht1, hlog, hver, _⟩ := processRequest_login_accepted e s r hr ha
    rw [ht1] at hp
    simp only [Option.some.injEq, Prod.mk.injEq] at hp
    rw [← hp.1]
    exact ⟨hlog, hver⟩
  obtain ⟨hl, hv1⟩ := key env s0 s1 login b1 hlogin hacc h1
  refine ⟨hl, hv1, ?_, ?_⟩
  · rw [processRequests_version later s1 s2 hlater h2, hv1]
  · intro env3 relogin s3 b3 hr ha hp
    exact (key env3 s2 s3 relogin b3 hr ha hp).2

/-- Witness for C3: a login with version 6 on a fresh session, followed by a
time request and a channel-filter request, leaves the stored version at 6. -/
theorem C3_version_kept_until_next_login_witness :
    processRequest sampleEnv freshSession sampleLogin = some (loggedInSession, true) ∧
    loggedInSession.m_loggedIn = true ∧
    ((processRequests sampleLater loggedInSession).getD freshSession).m_protocolVersion = 6 :=
  have h := C3_version_kept_until_next_login sampleEnv freshSession loggedInSession
    ((processRequests sampleLater loggedInSession).getD freshSession) sampleLogin true sampleLater
    rfl (by decide) (by decide)
    (by intro er her; simp [sampleLater, request] at her; rcases her with h | h <;> rw [h] <;> decide)
    rfl
  ⟨by decide, h.1, h.2.2.1⟩

/-! ## Channel filter -/

/-- The audio-language loop finds a match exactly when one of the tags at
positions i, ..., i + n - 1 maps to the preferred index. -/
theorem alangLoop_eq (env : Env) (idx : Int) (c : Channel) :
    ∀ (n i : Nat), alangLoop env idx c i n
      = ((c.alangs.drop i).take n).any (fun l => decide (idx = env.I18nLanguageIndex l)) := by
  intro n
  induction n with
  | zero => intro i; simp [alangLoop]
  | succ n ih =>
    intro i
    have hh := List.head?_drop c.alangs i
    have ht := List.tail_drop c.alangs i
    simp only [alangLoop, Channel.Alang, List.get?_eq_getElem?]
    cases hd : c.alangs.drop i with
    | nil =>
      rw [hd] at hh
      simp only [List.head?_nil] at hh
      rw [← hh]
      simp
    | cons x r =>
      rw [hd] at hh ht
      simp only [List.head?_cons, List.tail_cons] at hh ht
      rw [← hh]
      simp only [List.take_succ_cons, List.any_cons]
      rw [ih (i + 1), ← ht]
      by_cases hx : idx = env.I18nLanguageIndex x <;> simp [hx]

/-- The digital-audio-language loop finds a match exactly when one of the tags
at positions i, ..., i + n - 1 maps to the preferred index. -/
theorem dlangLoop_eq (env : Env) (idx : Int) (c : Channel) :
    ∀ (n i : Nat), dlangLoop env idx c i n
      = ((c.dlangs.drop i).take n).any (fun l => decide (idx = env.I18nLanguageIndex l)) := by
  intro n
  induction n with
  | zero => intro i; simp [dlangLoop]
  | succ n ih =>
    intro i
    have hh := List.head?_drop c.dlangs i
    have ht := List.tail_drop c.dlangs i
    simp only [dlangLoop, Channel.Dlang, List.get?_eq_getElem?]
    cases hd : c.dlangs.drop i with
    | nil =>
      rw [hd] at hh
      simp only [List.head?_nil] at hh
      rw [← hh]
      simp
    | cons x r =>
      rw [hd] at hh ht
      simp only [List.head?_cons, List.tail_cons] at hh ht
      rw [← hh]
      simp only [List.take_succ_cons, List.any_cons]
      rw [ih (i + 1), ← ht]
      by_cases hx : idx = env.I18nLanguageIndex x <;> simp [hx]

/-- Both language loops together: a language is found exactly when one of the
first MAXAPIDS audio tags or of the first MAXDPIDS digital-audio tags maps to
the preferred index. -/
theorem languageFound_iff (env : Env) (idx : Int) (c : Channel) :
    languageFound env idx c = true ↔
      ∃ tag ∈ c.alangs.take env.MAXAPIDS ++ c.dlangs.take env.MAXDPIDS,
        env.I18nLanguageIndex tag = idx := by
  unfold languageFound
  rw [alangLoop_eq, dlangLoop_eq]
  simp only [List.drop_zero, Bool.or_eq_true, List.any_eq_true, decide_eq_true_eq,
    List.mem_append]
  constructor
  · rintro (⟨t, ht, h⟩ | ⟨t, ht, h⟩)
    · exact ⟨t, Or.inl ht, h.symm⟩
    · exact ⟨t, Or.inr ht, h.symm⟩
  · rintro ⟨t, ht | ht, h⟩
    · exact Or.inl ⟨t, ht, h.symm⟩
    · exact Or.inr ⟨t, ht, h.symm⟩

/-- When no tag of the channel maps to the preferred index, no language is
found. -/
theorem languageFound_false_of_no_tag (env : Env) (idx : Int) (c : Channel)
    (h : ∀ tag ∈ c.alangs ++ c.dlangs, env.I18nLanguageIndex tag ≠ idx) :
    languageFound env idx c = false := by
  cases hf : languageFound env idx c with
  | false => rfl
  | true =>
    obtain ⟨t, ht, hidx⟩ := (languageFound_iff env idx c).1 hf
    rw [List.mem_append] at ht
    rcases ht with ht | ht
    · exact absurd hidx (h t (List.mem_append_left _ (List.mem_of_mem_take ht)))
    · exact absurd hidx (h t (List.mem_append_right _ (List.mem_of_mem_take ht)))


/-- C4: `IsChannelWanted` is false, whatever the filter configuration, when the
channel is null, has service id 0, is named ".", fails the radio test under
kind 1, has a video type other than 27 and 36 under kind 2, or when language
filtering is enabled with a preferred index set and no audio or digital-audio
tag of the channel maps to that index. Under kind 2 a channel with video type
27 passes the kind test (the result is that of kind 0, where no kind test is
made), and a channel with video type 2 is rejected. -/
theorem C4_unwanted_channels (env : Env) (s : Session) (channel : Option Channel) (type : Int) :
    ((channel = none ∨ ∃ c, channel = some c ∧
        (c.Sid = 0 ∨ c.Name = "." ∨ (type = 1 ∧ IsRadio c = false)
          ∨ (type = 2 ∧ c.Vtype ≠ 27 ∧ c.Vtype ≠ 36)
          ∨ (s.m_filterlanguage = true ∧ s.m_LanguageIndex ≠ -1 ∧
              ∀ tag ∈ c.alangs ++ c.dlangs, env.I18nLanguageIndex tag ≠ s.m_LanguageIndex)))
      → IsChannelWanted env s channel type = false) ∧
    (∀ c : Channel, c.Vtype = 27 →
      IsChannelWanted env s (some c) 2 = IsChannelWanted env s (some c) 0) ∧
    (∀ c : Channel, c.Vtype = 2 → IsChannelWanted env s (some c) 2 = false) := by
  refine ⟨?_, ?_, ?_⟩
  · rintro (h | ⟨c, hc, h⟩)
    · subst h; rfl
    · subst hc
      unfold IsChannelWanted
      simp only
      rcases h with h | h | h | h | h
      · simp [h]
      · simp [h]
      · simp [h.1, h.2]
      · simp [h.1, h.2.1, h.2.2]
      · have hf := languageFound_false_of_no_tag env s.m_LanguageIndex c h.2.2
        simp [h.1, h.2.1, hf]
  · intro c hv
    unfold IsChannelWanted
    simp [hv]
  · intro c hv
    unfold IsChannelWanted
    simp [hv]

/-- Witness for C4: the MPEG-2 sample channel (video type 2) is rejected under
kind 2 in a fresh session. -/
theorem C4_unwanted_channels_witness :
    IsChannelWanted sampleEnv freshSession (some sampleChannel) 2 = false :=
  (C4_unwanted_channels sampleEnv freshSession (some sampleChannel) 2).1
    (Or.inr ⟨sampleChannel, rfl, Or.inr (Or.inr (Or.inr (Or.inl (by decide))))⟩)

/-- The inner CaID loop returns true exactly when the allowed id is among the
channel's entries j, ..., j + n - 1 before the first zero entry. -/
theorem caidLoop_eq (c : Channel) (caid : Int) :
    ∀ (n j : Nat), caidLoop c caid j n
      = decide (caid ∈ ((List.range n).map (fun k => c.Ca (j + k))).takeWhile
          (fun x => decide (x ≠ 0))) := by
  intro n
  induction n with
  | zero => intro j; simp [caidLoop]
  | succ n ih =>
    intro j
    have hshift : (fun k => c.Ca (j + 1 + k)) = (fun k => c.Ca (j + k)) ∘ Nat.succ := by
      funext k
      simp only [Function.comp]
      congr 1
      omega
    simp only [caidLoop, List.range_succ_eq_map, List.map_cons, List.map_map, Nat.add_zero,
      List.takeWhile_cons]
    rw [ih (j + 1), hshift]
    by_cases h0 : c.Ca j = 0
    · simp [h0]
    · by_cases h1 : c.Ca j = caid
      · simp [h0, h1]
      · have h2 : ¬ caid = c.Ca j := fun h => h1 h.symm
        simp [h0, h1, h2]

/-- The outer CaID loop returns true exactly when one of the allowed ids is one
of the channel's CA ids. -/
theorem caidsLoop_iff (env : Env) (c : Channel) (caids : List Int) :
    caidsLoop env c caids = true ↔ ∃ id ∈ caids, id ∈ caIdsBeforeZero env c := by
  induction caids with
  | nil => simp [caidsLoop]
  | cons a rest ih =>
    have ha : caidLoop c a 0 env.MAXCAIDS = decide (a ∈ caIdsBeforeZero env c) := by
      rw [caidLoop_eq]
      simp [caIdsBeforeZero]
    simp only [caidsLoop, ha, List.mem_cons, exists_eq_or_imp]
    by_cases hm : a ∈ caIdsBeforeZero env c
    · simp [hm]
    · simp [hm, ih]

/-- C5: for a non-null channel that passes the service-id, name, kind and
language exclusions of `IsChannelWanted` (the language test looks at the first
MAXAPIDS audio tags and the first MAXDPIDS digital-audio tags, the tags
VDR's arrays hold), if its first CA id is 0 the result is the want-FTA flag of
the session, whatever the allowed CA-id list; otherwise the result is true
exactly when the allowed CA-id list is empty or contains one of the channel's
CA ids, the entries before its first zero entry. -/
theorem C5_conditional_access_rule (env : Env) (s : Session) (c : Channel) (type : Int)
    (hradio : ¬ (type = 1 ∧ IsRadio c = false))
    (hhd : ¬ (type = 2 ∧ c.Vtype ≠ 27 ∧ c.Vtype ≠ 36))
    (hsid : c.Sid ≠ 0) (hname : c.Name ≠ ".")
    (hlang : ¬ (s.m_filterlanguage = true ∧ s.m_LanguageIndex ≠ -1 ∧
      ∀ tag ∈ c.alangs.take env.MAXAPIDS ++ c.dlangs.take env.MAXDPIDS,
        env.I18nLanguageIndex tag ≠ s.m_LanguageIndex)) :
    (c.Ca 0 = 0 → IsChannelWanted env s (some c) type = s.m_wantfta) ∧
    (c.Ca 0 ≠ 0 →
      (IsChannelWanted env s (some c) type = true ↔
        (s.m_caids = [] ∨ ∃ id ∈ s.m_caids, id ∈ caIdsBeforeZero env c))) := by
  have h1 : ¬ (type = 1 ∧ ¬ IsRadio c = true) := by
    intro h
    exact hradio ⟨h.1, by simpa using h.2⟩
  have h5 : ¬ (s.m_filterlanguage = true ∧ s.m_LanguageIndex ≠ -1
      ∧ ¬ languageFound env s.m_LanguageIndex c = true) := by
    intro h
    apply hlang
    refine ⟨h.1, h.2.1, ?_⟩
    intro tag htag hidx
    exact h.2.2 ((languageFound_iff env s.m_LanguageIndex c).2 ⟨tag, htag, hidx⟩)
  have hstep : IsChannelWanted env s (some c) type
      = if c.Ca 0 = 0 then s.m_wantfta
        else if s.m_caids.length = 0 then true else caidsLoop env c s.m_caids := by
    unfold IsChannelWanted
    simp only [if_neg h1, if_neg hhd, if_neg hsid, if_neg hname, if_neg h5]
  constructor
  · intro hca
    rw [hstep, if_pos hca]
  · intro hca
    rw [hstep, if_neg hca]
    by_cases hl : s.m_caids.length = 0
    · have : s.m_caids = [] := List.length_eq_zero.1 hl
      simp [this]
    · have hne : s.m_caids ≠ [] := fun h => hl (by rw [h]; rfl)
      rw [if_neg hl, caidsLoop_iff]
      constructor
      · intro h; exact Or.inr h
      · rintro (h | h)
        · exact absurd h hne
        · exact h

/-- Witness for C5: the encrypted sample channel, with CA ids 0x1702 and
0x1833, is wanted under kind 0 by a fresh session, whose allowed CA-id list is
empty. -/
theorem C5_conditional_access_rule_witness :
    radioHdChannel.Ca 0 ≠ 0 ∧
    (IsChannelWanted sampleEnv freshSession (some radioHdChannel) 0 = true ↔
      (freshSession.m_caids = [] ∨
        ∃ id ∈ freshSession.m_caids, id ∈ caIdsBeforeZero sampleEnv radioHdChannel)) :=
  ⟨by decide,
   (C5_conditional_access_rule sampleEnv freshSession radioHdChannel 0 (by decide) (by decide)
      (by decide) (by decide) (by decide)).2 (by decide)⟩

/-- C6 fails as stated: the sample channel with placeholder video pid 1 and
video type 27 is wanted both under kind 1 (radio only) and under kind 2 (HD
only) by a fresh session. -/
theorem C6_radio_and_hd_both_wanted :
    IsRadio radioHdChannel = true ∧ radioHdChannel.Vtype = 27 ∧
    IsChannelWanted sampleEnv freshSession (some radioHdChannel) 1 = true ∧
    IsChannelWanted sampleEnv freshSession (some radioHdChannel) 2 = true := by
  decide

/-- C6 as amended: a channel is wanted under kind 1 and under kind 2 at once
exactly when it classifies as radio, has video type 27 or 36 and is wanted
under kind 0; so the two results are never both true for a channel that does
not classify as radio or whose video type is neither 27 nor 36. -/
theorem C6_radio_hd_overlap (env : Env) (s : Session) (c : Channel) :
    (IsChannelWanted env s (some c) 1 = true ∧ IsChannelWanted env s (some c) 2 = true) ↔
      (IsRadio c = true ∧ (c.Vtype = 27 ∨ c.Vtype = 36) ∧
        IsChannelWanted env s (some c) 0 = true) := by
  unfold IsChannelWanted
  by_cases hr : IsRadio c = true
  · by_cases hv : c.Vtype = 27
    · simp [hr, hv]
    · by_cases hv2 : c.Vtype = 36
      · simp [hr, hv2]
      · simp [hr, hv, hv2]
  · simp [hr]

/-! ## Channel groups -/

/-- Lookup `find` fails exactly on the keys that are not in the catalog. -/
theorem GroupMap.find_eq_none_iff (m : GroupMap) (key : String) :
    GroupMap.find m key = none ↔ key ∉ m.map Prod.fst := by
  induction m with
  | nil => simp [GroupMap.find]
  | cons e rest ih =>
    obtain ⟨k, g⟩ := e
    simp only [GroupMap.find, List.map_cons, List.mem_cons, not_or]
    by_cases hk : k = key
    · simp [hk]
    · have hk2 : ¬ key = k := fun h => hk h.symm
      simp [hk, hk2, ih]

/-- Assigning a key that is not in the catalog adds one entry and keeps the
others. -/
theorem GroupMap.assign_perm (m : GroupMap) (key : String) (g : ChannelGroup)
    (h : key ∉ m.map Prod.fst) : (GroupMap.assign m key g).Perm ((key, g) :: m) := by
  induction m with
  | nil => simp [GroupMap.assign]
  | cons e rest ih =>
    obtain ⟨k, g0⟩ := e
    simp only [List.map_cons, List.mem_cons, not_or] at h
    simp only [GroupMap.assign, if_neg h.1]
    by_cases hl : keyLess key k = true
    · simp [hl]
    · simp only [hl]
      exact ((ih h.2).cons (k, g0)).trans (List.Perm.swap _ _ _)

/-- Reading a catalog after one catalog was assigned. -/
theorem groups_setGroups (s : Session) (r r2 : Bool) (m : GroupMap) :
    (s.setGroups r m).groups r2 = if r2 = r then m else s.groups r2 := by
  cases r <;> cases r2 <;> simp [Session.setGroups, Session.groups]

/-- The channel filter reads only the filter settings of the session. -/
theorem IsChannelWanted_congr (env : Env) (s t : Session) (h : sameFilter s t)
    (channel : Option Channel) (type : Int) :
    IsChannelWanted env s channel type = IsChannelWanted env t channel type := by
  obtain ⟨h1, h2, h3, h4⟩ := h
  unfold IsChannelWanted
  rw [h1, h2, h3, h4]

/-- A channel without service id is not wanted. -/
theorem IsChannelWanted_of_sid_zero (env : Env) (s : Session) (c : Channel) (type : Int)
    (h : c.Sid = 0) : IsChannelWanted env s (some c) type = false := by
  unfold IsChannelWanted
  simp only [h]
  split_ifs <;> rfl

/-- Assigning a catalog leaves the filter settings alone. -/
theorem sameFilter_setGroups (s : Session) (r : Bool) (m : GroupMap) :
    sameFilter (s.setGroups r m) s := by
  cases r <;> exact ⟨rfl, rfl, rfl, rfl⟩

/-- Unfolding of the group loop on a separator entry or any other entry that
is not wanted, or whose group name is empty: the session is left alone. -/
theorem createGroupsLoop_skip (env : Env) (automatic : Bool) (c : Channel) (rest : List Channel)
    (g : String) (s : Session)
    (h : nextGroupName automatic c g = "" ∨
      IsChannelWanted env s (some c) (boolToInt (IsRadio c)) = false) :
    createGroupsLoop env automatic (c :: rest) g s
      = createGroupsLoop env automatic rest (nextGroupName automatic c g) s := by
  simp only [createGroupsLoop]
  by_cases h1 : nextGroupName automatic c g = ""
  · simp [h1]
  · rcases h with h | h
    · exact absurd h h1
    · simp [h1, h]

/-- Unfolding of the group loop on a wanted entry with a non-empty group
name. -/
theorem createGroupsLoop_keep (env : Env) (automatic : Bool) (c : Channel) (rest : List Channel)
    (g : String) (s : Session)
    (h1 : nextGroupName automatic c g ≠ "")
    (h2 : IsChannelWanted env s (some c) (boolToInt (IsRadio c)) = true) :
    createGroupsLoop env automatic (c :: rest) g s
      = if nextGroupName automatic c g ∈ s.groupNames (IsRadio c) then
          createGroupsLoop env automatic rest (nextGroupName automatic c g) s
        else
          createGroupsLoop env automatic rest (nextGroupName automatic c g)
            (s.setGroups (IsRadio c) ((s.groups (IsRadio c)).assign (nextGroupName automatic c g)
              { name := nextGroupName automatic c g, radio := IsRadio c,
                automatic := automatic })) := by
  simp only [createGroupsLoop, if_neg h1, h2, not_true_eq_false, if_false]
  by_cases h3 : nextGroupName automatic c g ∈ s.groupNames (IsRadio c)
  · have : ¬ GroupMap.find (s.groups (IsRadio c)) (nextGroupName automatic c g) = none := by
      rw [GroupMap.find_eq_none_iff]
      exact fun hn => hn h3
    simp [h3, this]
  · have : GroupMap.find (s.groups (IsRadio c)) (nextGroupName automatic c g) = none := by
      rw [GroupMap.find_eq_none_iff]
      exact h3
    simp [h3, this]

/-- The key of a channel behind `c :: pre` is its key behind `pre` when the
loop continues with the group name that `c` leaves. -/
theorem groupKeyFrom_cons (automatic : Bool) (g : String) (c : Channel) (pre : List Channel)
    (c2 : Channel) :
    groupKeyFrom automatic g (c :: pre) c2
      = groupKeyFrom automatic (if c.GroupSep = true then c.Name else g) pre c2 := by
  unfold groupKeyFrom
  cases automatic
  · simp only [Bool.false_eq_true, if_false, List.reverse_cons, List.find?_append]
    cases hf : List.find? (fun x => x.GroupSep) pre.reverse with
    | some sep => simp
    | none =>
      by_cases hc : c.GroupSep = true
      · simp [hc]
      · simp [hc]
  · simp

/-- A source of a group reads only the filter settings of the session. -/
theorem groupSource_congr (env : Env) (s t : Session) (h : sameFilter s t) (automatic : Bool)
    (g : String) (rest : List Channel) (r : Bool) (n : String) :
    groupSource env s automatic g rest r n ↔ groupSource env t automatic g rest r n := by
  unfold groupSource
  simp only [IsChannelWanted_congr env s t h]

/-- The sources in `c :: rest` are `c` itself, when it is a wanted
non-separator channel with a non-empty key, and the sources in `rest` scanned
from the group name that `c` leaves. -/
theorem groupSource_cons (env : Env) (s : Session) (automatic : Bool) (g : String) (c : Channel)
    (rest : List Channel) (r : Bool) (n : String) :
    groupSource env s automatic g (c :: rest) r n ↔
      (c.GroupSep = false ∧ IsRadio c = r ∧
        IsChannelWanted env s (some c) (boolToInt r) = true ∧
        nextGroupName automatic c g = n ∧ n ≠ "") ∨
      groupSource env s automatic (nextGroupName automatic c g) rest r n := by
  have hhead : c.GroupSep = false → groupKeyFrom automatic g [] c = nextGroupName automatic c g := by
    intro hs
    cases automatic <;> simp [groupKeyFrom, nextGroupName, hs]
  have htail : ∀ pre c2, groupKeyFrom automatic g (c :: pre) c2
      = groupKeyFrom automatic (nextGroupName automatic c g) pre c2 := by
    intro pre c2
    rw [groupKeyFrom_cons]
    cases automatic
    · simp [nextGroupName]
    · simp [groupKeyFrom]
  unfold groupSource
  constructor
  · rintro ⟨pre, c2, post, hcat, hs, hr, hw, hk, hn⟩
    cases pre with
    | nil =>
      simp only [List.nil_append, List.cons.injEq] at hcat
      obtain ⟨rfl, -⟩ := hcat
      exact Or.inl ⟨hs, hr, hw, by rw [← hhead hs]; exact hk, hn⟩
    | cons x pre2 =>
      simp only [List.cons_append, List.cons.injEq] at hcat
      obtain ⟨rfl, hrest⟩ := hcat
      exact Or.inr ⟨pre2, c2, post, hrest, hs, hr, hw, by rw [← htail]; exact hk, hn⟩
  · rintro (⟨hs, hr, hw, hk, hn⟩ | ⟨pre, c2, post, hcat, hs, hr, hw, hk, hn⟩)
    · exact ⟨[], c, rest, rfl, hs, hr, hw, by rw [hhead hs]; exact hk, hn⟩
    · exact ⟨c :: pre, c2, post, by rw [hcat]; rfl, hs, hr, hw, by rw [htail]; exact hk, hn⟩

/-- The group names after the loop are the names held before together with the
keys of the sources in the scanned part of the catalog, provided no separator
entry of that part is wanted. -/
theorem createGroupsLoop_names (env : Env) (automatic : Bool) (rest : List Channel) :
    ∀ (g : String) (s : Session),
      (∀ c ∈ rest, c.GroupSep = true →
        IsChannelWanted env s (some c) (boolToInt (IsRadio c)) = false) →
      ∀ (r : Bool) (n : String),
        n ∈ (createGroupsLoop env automatic rest g s).groupNames r ↔
          n ∈ s.groupNames r ∨ groupSource env s automatic g rest r n := by
  induction rest with
  | nil =>
    intro g s _ r n
    simp [createGroupsLoop, groupSource]
  | cons c rest ih =>
    intro g s hsep r n
    have hsep2 : ∀ c2 ∈ rest, c2.GroupSep = true →
        IsChannelWanted env s (some c2) (boolToInt (IsRadio c2)) = false :=
      fun c2 h2 => hsep c2 (List.mem_cons_of_mem _ h2)
    rw [groupSource_cons]
    by_cases hskip : nextGroupName automatic c g = "" ∨
        IsChannelWanted env s (some c) (boolToInt (IsRadio c)) = false
    · rw [createGroupsLoop_skip env automatic c rest g s hskip, ih _ s hsep2]
      have hno : ¬ (c.GroupSep = false ∧ IsRadio c = r ∧
          IsChannelWanted env s (some c) (boolToInt r) = true ∧
          nextGroupName automatic c g = n ∧ n ≠ "") := by
        rintro ⟨_, hr, hw, hk, hn⟩
        subst hr
        rcases hskip with h | h
        · exact hn (by rw [← hk]; exact h)
        · rw [h] at hw; exact absurd hw (by simp)
      simp [hno]
    · have h1 : nextGroupName automatic c g ≠ "" := fun h => hskip (Or.inl h)
      have h2 : IsChannelWanted env s (some c) (boolToInt (IsRadio c)) = true := by
        cases hw : IsChannelWanted env s (some c) (boolToInt (IsRadio c)) with
        | true => rfl
        | false => exact absurd (Or.inr hw) hskip
      have hns : c.GroupSep = false := by
        cases hs : c.GroupSep with
        | false => rfl
        | true => rw [hsep c (List.mem_cons_self _ _) hs] at h2; exact absurd h2 (by simp)
      have hhead : (c.GroupSep = false ∧ IsRadio c = r ∧
          IsChannelWanted env s (some c) (boolToInt r) = true ∧
          nextGroupName automatic c g = n ∧ n ≠ "") ↔
          (IsRadio c = r ∧ nextGroupName automatic c g = n) := by
        constructor
        · rintro ⟨_, hr, _, hk, _⟩; exact ⟨hr, hk⟩
        · rintro ⟨hr, hk⟩
          subst hr
          exact ⟨hns, rfl, h2, hk, by rw [← hk]; exact h1⟩
      rw [createGroupsLoop_keep env automatic c rest g s h1 h2, hhead]
      by_cases hin : nextGroupName automatic c g ∈ s.groupNames (IsRadio c)
      · rw [if_pos hin, ih _ s hsep2]
        constructor
        · rintro (h | h)
          · exact Or.inl h
          · exact Or.inr (Or.inr h)
        · rintro (h | ⟨hr, hk⟩ | h)
          · exact Or.inl h
          · subst hr; subst hk; exact Or.inl hin
          · exact Or.inr h
      · rw [if_neg hin]
        have hsf := sameFilter_setGroups s (IsRadio c)
          ((s.groups (IsRadio c)).assign (nextGroupName automatic c g)
            { name := nextGroupName automatic c g, radio := IsRadio c, automatic := automatic })
        have hsep3 : ∀ c2 ∈ rest, c2.GroupSep = true →
            IsChannelWanted env (s.setGroups (IsRadio c)
              ((s.groups (IsRadio c)).assign (nextGroupName automatic c g)
                { name := nextGroupName automatic c g, radio := IsRadio c,
                  automatic := automatic }))
              (some c2) (boolToInt (IsRadio c2)) = false := by
          intro c2 hc2 hs2
          rw [IsChannelWanted_congr env _ s hsf]
          exact hsep2 c2 hc2 hs2
        rw [ih _ _ hsep3, groupSource_congr env _ s hsf]
        have hnames : n ∈ (s.setGroups (IsRadio c)
              ((s.groups (IsRadio c)).assign (nextGroupName automatic c g)
                { name := nextGroupName automatic c g, radio := IsRadio c,
                  automatic := automatic })).groupNames r ↔
            (IsRadio c = r ∧ nextGroupName automatic c g = n) ∨ n ∈ s.groupNames r := by
          unfold Session.groupNames
          rw [groups_setGroups]
          by_cases hr : r = IsRadio c
          · subst hr
            have hp := (GroupMap.assign_perm (s.groups (IsRadio c)) (nextGroupName automatic c g)
              { name := nextGroupName automatic c g, radio := IsRadio c, automatic := automatic }
              hin).map Prod.fst
            rw [if_pos rfl, hp.mem_iff]
            simp only [List.map_cons, List.mem_cons, true_and]
            constructor
            · rintro (h | h)
              · exact Or.inl h.symm
              · exact Or.inr h
            · rintro (h | h)
              · exact Or.inl h.symm
              · exact Or.inr h
          · have hr2 : ¬ IsRadio c = r := fun h => hr h.symm
            simp [hr, hr2]
        rw [hnames]
        constructor
        · rintro ((h | h) | h)
          · exact Or.inr (Or.inl h)
          · exact Or.inl h
          · exact Or.inr (Or.inr h)
        · rintro (h | h | h)
          · exact Or.inl (Or.inr h)
          · exact Or.inl (Or.inl h)
          · exact Or.inr h

/-- Induction principle for the group loop: a property of the session, indexed
by a step count, that survives the insertion of an absent non-empty group name
holds after the loop. -/
theorem createGroupsLoop_induction (env : Env) (automatic : Bool) (P : Nat → Session → Prop)
    (hmono : ∀ k s, P k s → P (k + 1) s)
    (hstep : ∀ k s (r : Bool) (key : String), P k s → key ≠ "" → key ∉ s.groupNames r →
      P (k + 1) (s.setGroups r ((s.groups r).assign key
        { name := key, radio := r, automatic := automatic }))) :
    ∀ (rest : List Channel) (g : String) (k : Nat) (s : Session),
      P k s → P (k + rest.length) (createGroupsLoop env automatic rest g s) := by
  intro rest
  induction rest with
  | nil => intro g k s h; simpa [createGroupsLoop] using h
  | cons c rest ih =>
    intro g k s h
    have hlen : k + (c :: rest).length = (k + 1) + rest.length := by
      simp only [List.length_cons]; omega
    rw [hlen]
    by_cases hskip : nextGroupName automatic c g = "" ∨
        IsChannelWanted env s (some c) (boolToInt (IsRadio c)) = false
    · rw [createGroupsLoop_skip env automatic c rest g s hskip]
      exact ih _ _ _ (hmono k s h)
    · have h1 : nextGroupName automatic c g ≠ "" := fun h => hskip (Or.inl h)
      have h2 : IsChannelWanted env s (some c) (boolToInt (IsRadio c)) = true := by
        cases hw : IsChannelWanted env s (some c) (boolToInt (IsRadio c)) with
        | true => rfl
        | false => exact absurd (Or.inr hw) hskip
      rw [createGroupsLoop_keep env automatic c rest g s h1 h2]
      by_cases hin : nextGroupName automatic c g ∈ s.groupNames (IsRadio c)
      · rw [if_pos hin]; exact ih _ _ _ (hmono k s h)
      · rw [if_neg hin]; exact ih _ _ _ (hstep k s _ _ h h1 hin)

/-- Membership in the catalogs after one catalog was assigned an absent key. -/
theorem mem_groups_setGroups_assign (s : Session) (r r2 : Bool) (key : String) (g : ChannelGroup)
    (hin : key ∉ s.groupNames r) (e : String × ChannelGroup) :
    e ∈ (s.setGroups r ((s.groups r).assign key g)).groups r2 ↔
      (r2 = r ∧ e = (key, g)) ∨ e ∈ s.groups r2 := by
  rw [groups_setGroups]
  by_cases hr : r2 = r
  · subst hr
    rw [if_pos rfl, (GroupMap.assign_perm (s.groups r2) key g hin).mem_iff]
    simp
  · simp [hr]

/-- Each group name occurs once per catalog after the loop when it did
before. -/
theorem createGroupsLoop_nodup (env : Env) (automatic : Bool) (rest : List Channel) (g : String)
    (s : Session) (h : ∀ r, (s.groupNames r).Nodup) :
    ∀ r, ((createGroupsLoop env automatic rest g s).groupNames r).Nodup := by
  have := createGroupsLoop_induction env automatic (fun _ t => ∀ r, (t.groupNames r).Nodup)
    (fun _ _ h => h)
    (by
      intro k t r key ht _ hin r2
      unfold Session.groupNames
      rw [groups_setGroups]
      by_cases hr : r2 = r
      · subst hr
        rw [if_pos rfl]
        have hp := (GroupMap.assign_perm (t.groups r2) key
          { name := key, radio := r2, automatic := automatic } hin).map Prod.fst
        rw [hp.nodup_iff]
        simp only [List.map_cons, List.nodup_cons]
        exact ⟨hin, ht r2⟩
      · rw [if_neg hr]; exact ht r2)
    rest g 0 s h
  exact this

/-- Every entry the loop adds to catalog r is named by its key and carries the
radio flag r and the automatic flag of the run. -/
theorem createGroupsLoop_entries (env : Env) (automatic : Bool) (rest : List Channel) (g : String)
    (s : Session)
    (h : ∀ r n e, (n, e) ∈ s.groups r → e = { name := n, radio := r, automatic := automatic }) :
    ∀ r n e, (n, e) ∈ (createGroupsLoop env automatic rest g s).groups r →
      e = { name := n, radio := r, automatic := automatic } := by
  have := createGroupsLoop_induction env automatic
    (fun _ t => ∀ r n e, (n, e) ∈ t.groups r →
      e = { name := n, radio := r, automatic := automatic })
    (fun _ _ h => h)
    (by
      intro k t r key ht _ hin r2 n e hmem
      rw [mem_groups_setGroups_assign t r r2 key _ hin] at hmem
      rcases hmem with ⟨hr, he⟩ | hmem
      · simp only [Prod.mk.injEq] at he
        obtain ⟨rfl, rfl⟩ := he
        rw [hr]
      · exact ht r2 n e hmem)
    rest g 0 s h
  exact this

/-- The loop adds at most one group per scanned channel. -/
theorem createGroupsLoop_length (env : Env) (automatic : Bool) (rest : List Channel) (g : String)
    (s : Session) :
    ((createGroupsLoop env automatic rest g s).groups false).length
        + ((createGroupsLoop env automatic rest g s).groups true).length
      ≤ (s.groups false).length + (s.groups true).length + rest.length := by
  have := createGroupsLoop_induction env automatic
    (fun k t => (t.groups false).length + (t.groups true).length
      ≤ (s.groups false).length + (s.groups true).length + k)
    (fun k t h => by omega)
    (by
      intro k t r key ht _ hin
      have hl := (GroupMap.assign_perm (t.groups r) key
        { name := key, radio := r, automatic := automatic } hin).length_eq
      simp only [List.length_cons] at hl
      simp only [groups_setGroups]
      cases r
      · simp only [if_true, Bool.true_eq_false, if_false]
        omega
      · simp only [if_true, Bool.false_eq_true, if_false]
        omega)
    rest g 0 s (by omega)
  simpa using this

/-- The catalogs the loop builds are determined by the scanned channels, the
filter settings and the catalogs it starts from. -/
theorem createGroupsLoop_deterministic (env : Env) (automatic : Bool) (rest : List Channel) :
    ∀ (g : String) (s t : Session), sameFilter s t → s.m_channelgroups = t.m_channelgroups →
      (createGroupsLoop env automatic rest g s).m_channelgroups
        = (createGroupsLoop env automatic rest g t).m_channelgroups := by
  induction rest with
  | nil => intro g s t _ h; simpa [createGroupsLoop] using h
  | cons c rest ih =>
    intro g s t hf hg
    have hgr : ∀ r, s.groups r = t.groups r := by
      intro r; unfold Session.groups; rw [hg]
    have hnm : ∀ r, s.groupNames r = t.groupNames r := by
      intro r; unfold Session.groupNames; rw [hgr]
    have hw := IsChannelWanted_congr env s t hf (some c) (boolToInt (IsRadio c))
    by_cases hskip : nextGroupName automatic c g = "" ∨
        IsChannelWanted env s (some c) (boolToInt (IsRadio c)) = false
    · rw [createGroupsLoop_skip env automatic c rest g s hskip,
        createGroupsLoop_skip env automatic c rest g t (by rw [← hw]; exact hskip)]
      exact ih _ s t hf hg
    · have h1 : nextGroupName automatic c g ≠ "" := fun h => hskip (Or.inl h)
      have h2 : IsChannelWanted env s (some c) (boolToInt (IsRadio c)) = true := by
        cases hw2 : IsChannelWanted env s (some c) (boolToInt (IsRadio c)) with
        | true => rfl
        | false => exact absurd (Or.inr hw2) hskip
      rw [createGroupsLoop_keep env automatic c rest g s h1 h2,
        createGroupsLoop_keep env automatic c rest g t h1 (by rw [← hw]; exact h2), hnm, hgr]
      by_cases hin : nextGroupName automatic c g ∈ t.groupNames (IsRadio c)
      · rw [if_pos hin, if_pos hin]; exact ih _ s t hf hg
      · rw [if_neg hin, if_neg hin]
        apply ih
        · obtain ⟨a1, a2, a3, a4⟩ := sameFilter_setGroups s (IsRadio c)
            ((t.groups (IsRadio c)).assign (nextGroupName automatic c g)
              { name := nextGroupName automatic c g, radio := IsRadio c, automatic := automatic })
          obtain ⟨b1, b2, b3, b4⟩ := sameFilter_setGroups t (IsRadio c)
            ((t.groups (IsRadio c)).assign (nextGroupName automatic c g)
              { name := nextGroupName automatic c g, radio := IsRadio c, automatic := automatic })
          obtain ⟨c1, c2, c3, c4⟩ := hf
          exact ⟨by rw [a1, b1, c1], by rw [a2, b2, c2], by rw [a3, b3, c3], by rw [a4, b4, c4]⟩
        · unfold Session.setGroups
          cases IsRadio c <;> simp [hg]

/-- C7: after a group-count request over a channel catalog, whatever the two
group catalogs held before: catalog r holds a group named n exactly when some
non-separator channel of the catalog classifies as r, is wanted under that
classification and has the non-empty key n (its provider name in automatic
mode, the name of the most recent separator preceding it otherwise); each name
occurs once per catalog; every group is named by its key and carries the radio
flag r and the automatic flag of the request; the handler returns true and the
count written is the sum of both catalog sizes (the count is a 32-bit field,
so this is said of a catalog of fewer than 2^32 channels); and a recomputation
from any session with the same filter settings and the same mode yields the
same two catalogs. The catalog is one that VDR holds: a separator entry has
its name only, so its service id is 0. -/
theorem C7_group_catalogs_rebuilt (env : Env) (s : Session) (req resp : MsgPacket)
    (hsid : ∀ c ∈ env.channels, c.GroupSep = true → c.Sid = 0) :
    (∀ (r : Bool) (n : String),
      n ∈ (processCHANNELS_GroupsCount env s req resp).s.groupNames r ↔
        ∃ pre c post, env.channels = pre ++ c :: post ∧ c.GroupSep = false ∧ IsRadio c = r ∧
          IsChannelWanted env s (some c) (boolToInt r) = true ∧
          specGroupKey (decide ((get_U32 req.payload).1 = 1)) pre c = n ∧ n ≠ "") ∧
    (∀ r : Bool, ((processCHANNELS_GroupsCount env s req resp).s.groupNames r).Nodup) ∧
    (∀ (r : Bool) (n : String) (g : ChannelGroup),
      (n, g) ∈ (processCHANNELS_GroupsCount env s req resp).s.groups r →
        g = { name := n, radio := r, automatic := decide ((get_U32 req.payload).1 = 1) }) ∧
    (processCHANNELS_GroupsCount env s req resp).result = true ∧
    (env.channels.length < 2 ^ 32 →
      (processCHANNELS_GroupsCount env s req resp).resp.payload = resp.payload ++
        [Field.U32
          (((processCHANNELS_GroupsCount env s req resp).s.groups false).length
            + ((processCHANNELS_GroupsCount env s req resp).s.groups true).length)]) ∧
    (∀ (t : Session) (req2 resp2 : MsgPacket), sameFilter t s →
      decide ((get_U32 req2.payload).1 = 1) = decide ((get_U32 req.payload).1 = 1) →
      (processCHANNELS_GroupsCount env t req2 resp2).s.m_channelgroups
        = (processCHANNELS_GroupsCount env s req resp).s.m_channelgroups) := by
  have hsep : ∀ c ∈ env.channels, c.GroupSep = true →
      IsChannelWanted env s (some c) (boolToInt (IsRadio c)) = false :=
    fun c hc hs => IsChannelWanted_of_sid_zero env s c _ (hsid c hc hs)
  -- the session after both catalogs were cleared
  have hform : ∀ (t : Session) (rq rs : MsgPacket),
      (processCHANNELS_GroupsCount env t rq rs).s
        = createGroupsLoop env (decide ((get_U32 rq.payload).1 = 1)) env.channels ""
            { t with m_channelgroups := ([], []) } := by
    intro t rq rs
    unfold processCHANNELS_GroupsCount CreateChannelGroups
    by_cases ht : (get_U32 rq.payload).1 = 1 <;> simp [ht]
  have hsf : sameFilter { s with m_channelgroups := ([], []) } s := ⟨rfl, rfl, rfl, rfl⟩
  have hsep0 : ∀ c ∈ env.channels, c.GroupSep = true →
      IsChannelWanted env { s with m_channelgroups := ([], []) } (some c)
        (boolToInt (IsRadio c)) = false := by
    intro c hc hs
    rw [IsChannelWanted_congr env _ s hsf]
    exact hsep c hc hs
  have hempty : ∀ r, ({ s with m_channelgroups := ([], []) } : Session).groups r = [] := by
    intro r; cases r <;> rfl
  refine ⟨?_, ?_, ?_, ?_, ?_, ?_⟩
  · intro r n
    rw [hform, createGroupsLoop_names env _ env.channels "" _ hsep0 r n,
      groupSource_congr env _ s hsf]
    have hnone : n ∉ ({ s with m_channelgroups := ([], []) } : Session).groupNames r := by
      unfold Session.groupNames; rw [hempty]; simp
    have hkey : ∀ pre c, groupKeyFrom (decide ((get_U32 req.payload).1 = 1)) "" pre c
        = specGroupKey (decide ((get_U32 req.payload).1 = 1)) pre c := fun _ _ => rfl
    simp only [hnone, false_or, groupSource, hkey]
  · intro r
    rw [hform]
    apply createGroupsLoop_nodup
    intro r2
    unfold Session.groupNames; rw [hempty]; exact List.nodup_nil
  · intro r n g hmem
    rw [hform] at hmem
    refine createGroupsLoop_entries env _ env.channels "" _ ?_ r n g hmem
    intro r2 n2 e he
    rw [hempty] at he
    exact absurd he (List.not_mem_nil _)
  · unfold processCHANNELS_GroupsCount; rfl
  · intro hlen
    have hmod : (((processCHANNELS_GroupsCount env s req resp).s.groups false).length
          + ((processCHANNELS_GroupsCount env s req resp).s.groups true).length) % 2 ^ 32
        = ((processCHANNELS_GroupsCount env s req resp).s.groups false).length
          + ((processCHANNELS_GroupsCount env s req resp).s.groups true).length := by
      apply Nat.mod_eq_of_lt
      have hb := createGroupsLoop_length env (decide ((get_U32 req.payload).1 = 1))
        env.channels "" { s with m_channelgroups := ([], []) }
      rw [← hform s req resp] at hb
      rw [hempty, hempty] at hb
      simp only [List.length_nil] at hb
      omega
    have hp : (processCHANNELS_GroupsCount env s req resp).resp.payload = resp.payload ++
        [Field.U32 (toU32 (((processCHANNELS_GroupsCount env s req resp).s.m_channelgroups.1.length
          + (processCHANNELS_GroupsCount env s req resp).s.m_channelgroups.2.length : Nat) : Int))]
        := by
      unfold processCHANNELS_GroupsCount; rfl
    rw [hp, ← hmod]
    simp only [Session.groups, Bool.false_eq_true, if_false, if_true, toU32]
    congr 3
  · intro t req2 resp2 hts hmode
    rw [hform t req2 resp2, hform s req resp, hmode]
    apply createGroupsLoop_deterministic
    · obtain ⟨a, b, c, d⟩ := hts
      exact ⟨a, b, c, d⟩
    · rfl

/-- Witness for C7: over a catalog made of a separator, a television channel
and an encrypted radio channel, an automatic group-count request puts the
group "ARD" into the television catalog exactly because the television channel
is a source for it; the two catalogs hold one group each and the count written
is 2. -/
theorem C7_group_catalogs_rebuilt_witness :
    ("ARD" ∈ (processCHANNELS_GroupsCount groupsEnv freshSession
          (request MsgID.CHANNELGROUP_GETCOUNT 6 [Field.U32 1])
          (freshResponse groupsEnv (request MsgID.CHANNELGROUP_GETCOUNT 6 [Field.U32 1]))
        ).s.groupNames false ↔
      ∃ pre c post, groupsEnv.channels = pre ++ c :: post ∧ c.GroupSep = false ∧
        IsRadio c = false ∧
        IsChannelWanted groupsEnv freshSession (some c) (boolToInt false) = true ∧
        specGroupKey (decide ((get_U32 [Field.U32 1]).1 = 1)) pre c = "ARD" ∧ "ARD" ≠ "") ∧
    (processCHANNELS_GroupsCount groupsEnv freshSession
        (request MsgID.CHANNELGROUP_GETCOUNT 6 [Field.U32 1])
        (freshResponse groupsEnv (request MsgID.CHANNELGROUP_GETCOUNT 6 [Field.U32 1]))
      ).s.m_channelgroups
      = ([("ARD", { name := "ARD", radio := false, automatic := true })],
         [("SKY", { name := "SKY", radio := true, automatic := true })]) ∧
    (processCHANNELS_GroupsCount groupsEnv freshSession
        (request MsgID.CHANNELGROUP_GETCOUNT 6 [Field.U32 1])
        (freshResponse groupsEnv (request MsgID.CHANNELGROUP_GETCOUNT 6 [Field.U32 1]))
      ).resp.payload = [Field.U32 2] :=
  ⟨(C7_group_catalogs_rebuilt groupsEnv freshSession
      (request MsgID.CHANNELGROUP_GETCOUNT 6 [Field.U32 1])
      (freshResponse groupsEnv (request MsgID.CHANNELGROUP_GETCOUNT 6 [Field.U32 1]))
      (by decide)).1 false "ARD",
   by decide,
   ((C7_group_catalogs_rebuilt groupsEnv freshSession
      (request MsgID.CHANNELGROUP_GETCOUNT 6 [Field.U32 1])
      (freshResponse groupsEnv (request MsgID.CHANNELGROUP_GETCOUNT 6 [Field.U32 1]))
      (by decide)).2.2.2.2.1 (by decide)).trans (by decide)⟩

/-! ## Live-stream and playback sub-sessions -/

/-- How `processRequest` finishes when the handler returned true. -/
theorem processRequest_of_dispatch_true (env : Env) (s : Session) (req : MsgPacket)
    (out : HandlerOut) (hd : dispatch env s req (freshResponse env req) = some out)
    (hr : out.result = true) :
    processRequest env s req = some (QueueMessage out.s out.resp, true) := by
  simp only [processRequest, hd, hr, if_true]

/-- The open handler when the requested uid resolves to a channel. -/
theorem processChannelStream_Open_found (env : Env) (s : Session) (req resp : MsgPacket)
    (c : Channel) (h : resolveChannel env (get_U32 req.payload).1 = some c) :
    (processChannelStream_Open env s req resp).result = true ∧
    (processChannelStream_Open env s req resp).resp = resp.put_U32 env.ROBOTV_RET_OK ∧
    (processChannelStream_Open env s req resp).s.orphanedStreamers = s.orphanedStreamers ∧
    (processChannelStream_Open env s req resp).s.m_queue = s.m_queue ∧
    ∃ st, (processChannelStream_Open env s req resp).s.m_Streamer = some st ∧ st.channel = c ∧
      st.protocolVersion = s.m_protocolVersion ∧ st.timeout = env.stream_timeout := by
  simp [processChannelStream_Open, h, StartChannelStreaming, StopChannelStreaming]

/-- The open handler when the requested uid resolves to no channel. -/
theorem processChannelStream_Open_missing (env : Env) (s : Session) (req resp : MsgPacket)
    (h : resolveChannel env (get_U32 req.payload).1 = none) :
    processChannelStream_Open env s req resp
      = { s := StopChannelStreaming s, resp := resp.put_U32 env.ROBOTV_RET_DATAINVALID,
          result := true } := by
  simp only [processChannelStream_Open, h]

/-- C8 fails as stated: a CHANNELSTREAM_OPEN request for a uid that resolves to
no channel, processed on a session with one active live stream, closes that
stream and starts none, so that no live stream is active afterwards; the
response status is DataInvalid. -/
theorem C8_open_unknown_channel_leaves_no_stream :
    streamingSession.activeStreamers = [sampleStreamer] ∧
    (processRequest sampleEnv streamingSession
        (request MsgID.CHANNELSTREAM_OPEN 6 [Field.U32 99])).map
      (fun r => (r.2, r.1.activeStreamers, r.1.m_queue.getLast?.map (fun p => p.payload)))
      = some (true, [], some [Field.U32 998]) := by
  refine ⟨by decide, by decide⟩

/-- C8 as amended: a CHANNELSTREAM_OPEN request processed on a session whose
only live stream is the one in the slot always queues a response; when the
requested uid resolves to a channel (by channel uid, else by channel number)
exactly one live stream is active afterwards, a new one on that channel with
the session's protocol version and the configured timeout, and the status is
OK; when the uid resolves to no channel the previous stream is closed, no live
stream is active afterwards and the status is DataInvalid. -/
theorem C8_open_replaces_live_stream (env : Env) (s : Session) (req : MsgPacket)
    (old : LiveStreamer) (hop : req.msgID = MsgID.CHANNELSTREAM_OPEN)
    (hslot : s.m_Streamer = some old) (horph : s.orphanedStreamers = []) :
    s.activeStreamers = [old] ∧
    ∃ s1 status, processRequest env s req = some (s1, true) ∧
      s1.m_queue = s.m_queue ++
        [{ msgID := MsgID.CHANNELSTREAM_OPEN, type := MsgType.REQUEST_RESPONSE, uid := req.uid,
           protocolVersion := env.ROBOTV_PROTOCOLVERSION,
           payload := [Field.U32 (toU32 status)], compression := 0 }] ∧
      (∀ c, resolveChannel env (get_U32 req.payload).1 = some c →
          status = env.ROBOTV_RET_OK ∧
          ∃ st, s1.activeStreamers = [st] ∧ s1.m_Streamer = some st ∧ st.channel = c ∧
            st.protocolVersion = s.m_protocolVersion ∧ st.timeout = env.stream_timeout) ∧
      (resolveChannel env (get_U32 req.payload).1 = none →
          status = env.ROBOTV_RET_DATAINVALID ∧ s1.activeStreamers = [] ∧
            s1.m_Streamer = none) := by
  have hd : dispatch env s req (freshResponse env req)
      = some (processChannelStream_Open env s req (freshResponse env req)) := by
    simp only [dispatch, hop]
  have hfresh : freshResponse env req
      = { msgID := MsgID.CHANNELSTREAM_OPEN, type := MsgType.REQUEST_RESPONSE, uid := req.uid,
          protocolVersion := env.ROBOTV_PROTOCOLVERSION, payload := [], compression := 0 } := by
    simp [freshResponse, MsgPacket.new, MsgPacket.setProtocolVersion, hop]
  refine ⟨by simp [Session.activeStreamers, hslot, horph], ?_⟩
  cases hres : resolveChannel env (get_U32 req.payload).1 with
  | some c =>
    obtain ⟨h1, h2, h3, h4, st, h5, h6, h7, h8⟩ :=
      processChannelStream_Open_found env s req (freshResponse env req) c hres
    refine ⟨_, env.ROBOTV_RET_OK, processRequest_of_dispatch_true env s req _ hd h1, ?_, ?_, ?_⟩
    · show (processChannelStream_Open env s req (freshResponse env req)).s.m_queue
          ++ [(processChannelStream_Open env s req (freshResponse env req)).resp] = _
      rw [h4, h2, hfresh]
      rfl
    · intro c2 hc2
      simp only [Option.some.injEq] at hc2
      subst hc2
      refine ⟨rfl, st, ?_, ?_, h6, h7, h8⟩
      · simp only [Session.activeStreamers, QueueMessage, h3, h5, horph, List.nil_append,
          Option.toList]
      · simp only [QueueMessage, h5]
    · intro h
      exact absurd h (by simp)
  | none =>
    have hout := processChannelStream_Open_missing env s req (freshResponse env req) hres
    refine ⟨_, env.ROBOTV_RET_DATAINVALID,
      processRequest_of_dispatch_true env s req _ hd (by rw [hout]), ?_, ?_, ?_⟩
    · rw [hout]
      simp only [QueueMessage, StopChannelStreaming, hfresh, MsgPacket.put_U32, List.nil_append]
    · intro c2 hc2
      exact absurd hc2 (by simp)
    · intro _
      rw [hout]
      simp [Session.activeStreamers, QueueMessage, StopChannelStreaming, horph]

/-- Witness for C8: on the streaming sample session a CHANNELSTREAM_OPEN
request for uid 7, which resolves to the encrypted radio channel, leaves that
channel's stream as the only active one. -/
theorem C8_open_replaces_live_stream_witness :
    streamingSession.activeStreamers = [sampleStreamer] ∧
    ∃ s1 status, processRequest lookupEnv streamingSession
        (request MsgID.CHANNELSTREAM_OPEN 6 [Field.U32 7]) = some (s1, true) ∧
      (status = lookupEnv.ROBOTV_RET_OK ∧
        ∃ st, s1.activeStreamers = [st] ∧ s1.m_Streamer = some st ∧
          st.channel = radioHdChannel) :=
  have h := C8_open_replaces_live_stream lookupEnv streamingSession
    (request MsgID.CHANNELSTREAM_OPEN 6 [Field.U32 7]) sampleStreamer rfl rfl rfl
  ⟨h.1,
   match h.2 with
   | ⟨s1, status, hp, _, hfound, _⟩ =>
     ⟨s1, status, hp,
      (hfound radioHdChannel (by decide)).1,
      match (hfound radioHdChannel (by decide)).2 with
      | ⟨st, ha, hs, hc, _⟩ => ⟨st, ha, hs, hc⟩⟩⟩

/-- C9: closing is idempotent for both sub-sessions. On a session without
live stream `StopChannelStreaming` changes nothing, and a CHANNELSTREAM_CLOSE
request changes nothing but the outbound queue, to which it appends a
response without any status field; on a session without playback
sub-session a RECSTREAM_CLOSE request changes nothing but the outbound queue,
to which it appends a response whose only field is the status OK. For every
session, closing twice leaves the same sub-session state as closing once, and
RECSTREAM_CLOSE answers OK both times. -/
theorem C9_close_is_idempotent (env : Env) (s : Session) (req : MsgPacket) :
    (s.m_Streamer = none → StopChannelStreaming s = s) ∧
    StopChannelStreaming (StopChannelStreaming s) = StopChannelStreaming s ∧
    (s.m_Streamer = none → req.msgID = MsgID.CHANNELSTREAM_CLOSE →
      processRequest env s req
        = some ({ s with m_queue := s.m_queue ++
            [{ msgID := MsgID.CHANNELSTREAM_CLOSE, type := MsgType.REQUEST_RESPONSE,
               uid := req.uid, protocolVersion := env.ROBOTV_PROTOCOLVERSION, payload := [],
               compression := 0 }] }, true)) ∧
    (s.m_RecPlayer = none → req.msgID = MsgID.RECSTREAM_CLOSE →
      processRequest env s req
        = some ({ s with m_queue := s.m_queue ++
            [{ msgID := MsgID.RECSTREAM_CLOSE, type := MsgType.REQUEST_RESPONSE,
               uid := req.uid, protocolVersion := env.ROBOTV_PROTOCOLVERSION,
               payload := [Field.U32 (toU32 env.ROBOTV_RET_OK)], compression := 0 }] }, true)) ∧
    (∀ resp resp2 : MsgPacket,
      (processRecStream_Close env s resp).s.m_RecPlayer = none ∧
      (processRecStream_Close env (processRecStream_Close env s resp).s resp2).s
        = (processRecStream_Close env s resp).s ∧
      (processRecStream_Close env s resp).resp = resp.put_U32 env.ROBOTV_RET_OK ∧
      (processRecStream_Close env (processRecStream_Close env s resp).s resp2).resp
        = resp2.put_U32 env.ROBOTV_RET_OK ∧
      (processChannelStream_Close (processChannelStream_Close s resp).s resp2).s
        = (processChannelStream_Close s resp).s ∧
      (processChannelStream_Close (processChannelStream_Close s resp).s resp2).resp = resp2) := by
  refine ⟨?_, rfl, ?_, ?_, ?_⟩
  · intro h
    unfold StopChannelStreaming
    rw [← h]
  · intro h hop
    have hs : StopChannelStreaming s = s := by
      unfold StopChannelStreaming
      rw [← h]
    simp [processRequest, dispatch, hop, processChannelStream_Close, hs, QueueMessage,
      freshResponse, MsgPacket.new, MsgPacket.setProtocolVersion]
  · intro h hop
    simp [processRequest, dispatch, hop, processRecStream_Close, h, QueueMessage,
      freshResponse, MsgPacket.new, MsgPacket.setProtocolVersion, MsgPacket.put_U32]
  · intro resp resp2
    cases hp : s.m_RecPlayer with
    | none => simp [processRecStream_Close, hp, processChannelStream_Close, StopChannelStreaming]
    | some p => simp [processRecStream_Close, hp, processChannelStream_Close, StopChannelStreaming]

/-- Witness for C9: on the logged-in sample session, which has neither a live
stream nor a playback sub-session, both close requests only queue their
response. -/
theorem C9_close_is_idempotent_witness :
    StopChannelStreaming loggedInSession = loggedInSession ∧
    processRequest sampleEnv loggedInSession (request MsgID.RECSTREAM_CLOSE 6 [])
      = some ({ loggedInSession with m_queue := loggedInSession.m_queue ++
          [{ msgID := MsgID.RECSTREAM_CLOSE, type := MsgType.REQUEST_RESPONSE,
             uid := 1, protocolVersion := sampleEnv.ROBOTV_PROTOCOLVERSION,
             payload := [Field.U32 (toU32 sampleEnv.ROBOTV_RET_OK)], compression := 0 }] },
          true) :=
  ⟨(C9_close_is_idempotent sampleEnv loggedInSession (request MsgID.RECSTREAM_CLOSE 6 [])).1 rfl,
   (C9_close_is_idempotent sampleEnv loggedInSession
      (request MsgID.RECSTREAM_CLOSE 6 [])).2.2.2.1 rfl rfl⟩

/-- C10 fails as stated: when the recording id resolves and no sub-session is
open, the status OK is not followed by the length in bytes but by a zero u32
word; the response carries five fields, not the four the claim lists. -/
theorem C10_open_response_has_zero_word :
    (processRequest recordingsEnv loggedInSession
        (request MsgID.RECSTREAM_OPEN 6 [Field.Str "0000002a"])).map
      (fun r => r.1.m_queue.getLast?.map (fun p => p.payload))
      = some (some [Field.U32 0, Field.U32 0, Field.U64 1000000, Field.U8 0, Field.U32 3600]) ∧
    (processRequest recordingsEnv loggedInSession
        (request MsgID.RECSTREAM_OPEN 6 [Field.Str "0000002a"])).map
      (fun r => r.1.m_queue.getLast?.map (fun p => p.payload))
      ≠ some (some [Field.U32 0, Field.U64 1000000, Field.U8 0, Field.U32 3600]) := by
  refine ⟨by decide, by decide⟩

/-- C10 as amended: a RECSTREAM_OPEN request always queues a response. When the
session already has an open playback sub-session, the session is left as it
was apart from the queue (the open sub-session is untouched) and the response
carries the single field DataUnknown; when the recording id resolves to no
recording the same holds and no sub-session is created; when the id resolves
and no sub-session is open, a sub-session on that recording is created and the
response carries OK, a zero u32 word, the length in bytes (u64), the container
flag (u8) and the duration in seconds (u32). With DataUnknown and OK distinct
as 32-bit codes, the response starts with OK only in the last case. -/
theorem C10_recstream_open (env : Env) (s : Session) (req : MsgPacket)
    (hop : req.msgID = MsgID.RECSTREAM_OPEN) :
    ((s.m_RecPlayer ≠ none ∨ env.Lookup (recid2uid (get_String req.payload).1) = none) →
      processRequest env s req
        = some ({ s with m_queue := s.m_queue ++
            [{ msgID := MsgID.RECSTREAM_OPEN, type := MsgType.REQUEST_RESPONSE,
               uid := req.uid, protocolVersion := env.ROBOTV_PROTOCOLVERSION,
               payload := [Field.U32 (toU32 env.ROBOTV_RET_DATAUNKNOWN)],
               compression := 0 }] }, true)) ∧
    (∀ rec, s.m_RecPlayer = none →
      env.Lookup (recid2uid (get_String req.payload).1) = some rec →
      processRequest env s req
        = some ({ s with
            m_RecPlayer := some { recording := rec, lengthBytes := env.playerLength rec },
            m_queue := s.m_queue ++
              [{ msgID := MsgID.RECSTREAM_OPEN, type := MsgType.REQUEST_RESPONSE,
                 uid := req.uid, protocolVersion := env.ROBOTV_PROTOCOLVERSION,
                 payload := [Field.U32 (toU32 env.ROBOTV_RET_OK), Field.U32 0,
                             Field.U64 (env.playerLength rec % 2 ^ 64),
                             Field.U8 (if rec.IsPesRecording = true then 1 else 0),
                             Field.U32 (toU32 rec.LengthInSeconds)],
                 compression := 0 }] }, true)) ∧
    (toU32 env.ROBOTV_RET_DATAUNKNOWN ≠ toU32 env.ROBOTV_RET_OK →
      ∃ s1, processRequest env s req = some (s1, true) ∧
        ((∃ p, s1.m_queue.getLast? = some p ∧
            p.payload.head? = some (Field.U32 (toU32 env.ROBOTV_RET_OK))) ↔
          (s.m_RecPlayer = none ∧
            ∃ rec, env.Lookup (recid2uid (get_String req.payload).1) = some rec))) := by
  have hfail : (s.m_RecPlayer ≠ none ∨ env.Lookup (recid2uid (get_String req.payload).1) = none) →
      processRequest env s req
        = some ({ s with m_queue := s.m_queue ++
            [{ msgID := MsgID.RECSTREAM_OPEN, type := MsgType.REQUEST_RESPONSE,
               uid := req.uid, protocolVersion := env.ROBOTV_PROTOCOLVERSION,
               payload := [Field.U32 (toU32 env.ROBOTV_RET_DATAUNKNOWN)],
               compression := 0 }] }, true) := by
    intro h
    cases hl : env.Lookup (recid2uid (get_String req.payload).1) with
    | none =>
      simp [processRequest, dispatch, hop, processRecStream_Open, hl, QueueMessage,
        freshResponse, MsgPacket.new, MsgPacket.setProtocolVersion, MsgPacket.put_U32]
    | some rec =>
      cases hp : s.m_RecPlayer with
      | none =>
        rcases h with h | h
        · exact absurd hp h
        · rw [hl] at h; exact absurd h (by simp)
      | some p =>
        simp [processRequest, dispatch, hop, processRecStream_Open, hl, hp, QueueMessage,
          freshResponse, MsgPacket.new, MsgPacket.setProtocolVersion, MsgPacket.put_U32]
  have hok : ∀ rec, s.m_RecPlayer = none →
      env.Lookup (recid2uid (get_String req.payload).1) = some rec →
      processRequest env s req
        = some ({ s with
            m_RecPlayer := some { recording := rec, lengthBytes := env.playerLength rec },
            m_queue := s.m_queue ++
              [{ msgID := MsgID.RECSTREAM_OPEN, type := MsgType.REQUEST_RESPONSE,
                 uid := req.uid, protocolVersion := env.ROBOTV_PROTOCOLVERSION,
                 payload := [Field.U32 (toU32 env.ROBOTV_RET_OK), Field.U32 0,
                             Field.U64 (env.playerLength rec % 2 ^ 64),
                             Field.U8 (if rec.IsPesRecording = true then 1 else 0),
                             Field.U32 (toU32 rec.LengthInSeconds)],
                 compression := 0 }] }, true) := by
    intro rec hp hl
    have h64 : toU64 ((env.playerLength rec : Nat) : Int) = env.playerLength rec % 2 ^ 64 := by
      unfold toU64
      have : ((2 : Int) ^ 64) = ((2 ^ 64 : Nat) : Int) := by norm_num
      rw [this, ← Int.natCast_mod, Int.toNat_natCast]
    have h8 : toU8 (if rec.IsPesRecording = true then 1 else 0)
        = if rec.IsPesRecording = true then 1 else 0 := by
      cases rec.IsPesRecording <;> decide
    have h0 : toU32 0 = 0 := by decide
    simp [processRequest, dispatch, hop, processRecStream_Open, hl, hp, QueueMessage,
      freshResponse, MsgPacket.new, MsgPacket.setProtocolVersion, MsgPacket.put_U32, MsgPacket.put_U64,
      MsgPacket.put_U8, h64, h8, h0]
  refine ⟨hfail, hok, ?_⟩
  intro hcodes
  by_cases hcase : s.m_RecPlayer = none ∧
      ∃ rec, env.Lookup (recid2uid (get_String req.payload).1) = some rec
  · obtain ⟨hp, rec, hl⟩ := hcase
    refine ⟨_, hok rec hp hl, ?_⟩
    simp [hp, hl]
  · have hf : s.m_RecPlayer ≠ none ∨ env.Lookup (recid2uid (get_String req.payload).1) = none := by
      by_cases hp : s.m_RecPlayer = none
      · right
        cases hl : env.Lookup (recid2uid (get_String req.payload).1) with
        | none => rfl
        | some rec => exact absurd ⟨hp, rec, hl⟩ hcase
      · exact Or.inl hp
    refine ⟨_, hfail hf, ?_⟩
    constructor
    · rintro ⟨p, hp, hh⟩
      simp only [List.getLast?_append, List.getLast?_singleton, Option.or,
        Option.some.injEq] at hp
      rw [← hp] at hh
      simp only [List.head?_cons, Option.some.injEq, Field.U32.injEq] at hh
      exact absurd hh hcodes
    · intro h
      exact absurd h hcase

/-- Witness for C10: on the logged-in sample session the recording id
"0000002a" resolves to the sample recording, and the response is OK, 0, the
length 1000000, the container flag 0 and the duration 3600. -/
theorem C10_recstream_open_witness :
    processRequest recordingsEnv loggedInSession
        (request MsgID.RECSTREAM_OPEN 6 [Field.Str "0000002a"])
      = some ({ loggedInSession with
          m_RecPlayer := some { recording := sampleRecording, lengthBytes := 1000000 },
          m_queue := loggedInSession.m_queue ++
            [{ msgID := MsgID.RECSTREAM_OPEN, type := MsgType.REQUEST_RESPONSE,
               uid := 1, protocolVersion := 7,
               payload := [Field.U32 0, Field.U32 0, Field.U64 1000000, Field.U8 0,
                           Field.U32 3600],
               compression := 0 }] }, true) :=
  (C10_recstream_open recordingsEnv loggedInSession
    (request MsgID.RECSTREAM_OPEN 6 [Field.Str "0000002a"]) rfl).2.1 sampleRecording rfl
    (by decide)

/-! ## Playback blocks and recording ids -/

/-- C11: a RECSTREAM_GETBLOCK request on a session with an open playback
sub-session, for which the reader delivers n <= amount bytes, queues a
response whose payload is exactly those n bytes (one block of length n, not
padded to amount) and no status field, and leaves the session otherwise
unchanged. In particular, when the reader serves a recording as the
specification describes it and the request asks for amount bytes at the
offset k bytes before the end of the recording, 0 < k < amount, the block
holds exactly the last k bytes. -/
theorem C11_getblock_returns_delivered_bytes (env : Env) (s : Session) (req : MsgPacket)
    (player : PacketPlayer) (hop : req.msgID = MsgID.RECSTREAM_GETBLOCK)
    (hp : s.m_RecPlayer = some player) :
    ((env.playerGetBlock player (get_U64 req.payload).1
          (get_U32 (get_U64 req.payload).2).1).length ≤ (get_U32 (get_U64 req.payload).2).1 →
      processRequest env s req
        = some ({ s with m_queue := s.m_queue ++
            [{ msgID := MsgID.RECSTREAM_GETBLOCK, type := MsgType.REQUEST_RESPONSE,
               uid := req.uid, protocolVersion := env.ROBOTV_PROTOCOLVERSION,
               payload := [Field.Blob (env.playerGetBlock player (get_U64 req.payload).1
                 (get_U32 (get_U64 req.payload).2).1)],
               compression := 0 }] }, true)) ∧
    (∀ (content : List Nat) (k : Nat),
      env.playerGetBlock player (get_U64 req.payload).1 (get_U32 (get_U64 req.payload).2).1
        = specGetBlock content (get_U64 req.payload).1 (get_U32 (get_U64 req.payload).2).1 →
      (get_U64 req.payload).1 + k = content.length → 0 < k →
      k < (get_U32 (get_U64 req.payload).2).1 →
      ∃ block, block.length = k ∧ block = content.drop (get_U64 req.payload).1 ∧
        processRequest env s req
          = some ({ s with m_queue := s.m_queue ++
              [{ msgID := MsgID.RECSTREAM_GETBLOCK, type := MsgType.REQUEST_RESPONSE,
                 uid := req.uid, protocolVersion := env.ROBOTV_PROTOCOLVERSION,
                 payload := [Field.Blob block], compression := 0 }] }, true)) := by
  have hmain : ∀ bytes : List Nat,
      env.playerGetBlock player (get_U64 req.payload).1 (get_U32 (get_U64 req.payload).2).1
        = bytes →
      bytes.length ≤ (get_U32 (get_U64 req.payload).2).1 →
      processRequest env s req
        = some ({ s with m_queue := s.m_queue ++
            [{ msgID := MsgID.RECSTREAM_GETBLOCK, type := MsgType.REQUEST_RESPONSE,
               uid := req.uid, protocolVersion := env.ROBOTV_PROTOCOLVERSION,
               payload := [Field.Blob bytes], compression := 0 }] }, true) := by
    intro bytes hb hlen
    simp [processRequest, dispatch, hop, processRecStream_GetBlock, hp, hb,
      List.take_of_length_le hlen, QueueMessage, freshResponse, MsgPacket.new,
      MsgPacket.setProtocolVersion]
  refine ⟨fun hlen => hmain _ rfl hlen, ?_⟩
  intro content k hread hk hpos hlt
  have hdrop : (content.drop (get_U64 req.payload).1).length = k := by
    rw [List.length_drop]; omega
  have hblock : specGetBlock content (get_U64 req.payload).1 (get_U32 (get_U64 req.payload).2).1
      = content.drop (get_U64 req.payload).1 := by
    unfold specGetBlock
    exact List.take_of_length_le (by omega)
  refine ⟨content.drop (get_U64 req.payload).1, hdrop, rfl, ?_⟩
  exact hmain _ (by rw [hread, hblock]) (by omega)

/-- Witness for C11: with five bytes recorded, a request for 4 bytes at offset
3 is answered with the 2 bytes that are left. -/
theorem C11_getblock_returns_delivered_bytes_witness :
    processRequest readerEnv playbackSession
        (request MsgID.RECSTREAM_GETBLOCK 6 [Field.U64 3, Field.U32 4])
      = some ({ playbackSession with m_queue := playbackSession.m_queue ++
          [{ msgID := MsgID.RECSTREAM_GETBLOCK, type := MsgType.REQUEST_RESPONSE,
             uid := 1, protocolVersion := 7, payload := [Field.Blob [40, 50]],
             compression := 0 }] }, true) :=
  (C11_getblock_returns_delivered_bytes readerEnv playbackSession
    (request MsgID.RECSTREAM_GETBLOCK 6 [Field.U64 3, Field.U32 4])
    { recording := sampleRecording, lengthBytes := 5 } rfl rfl).1
    (show ([40, 50] : List Nat).length ≤ 4 by decide)

/-- Reading back a lower-case hexadecimal digit: it is a digit of the same
value, no white space, no sign and not the letter of the prefix `0x`. -/
theorem hexDigit_hexChar (d : Nat) (h : d < 16) :
    hexDigit (hexChar d) = some d ∧ isSpaceC (hexChar d) = false ∧ hexChar d ≠ '-' ∧
      hexChar d ≠ '+' ∧ hexChar d ≠ 'x' ∧ hexChar d ≠ 'X' := by
  interval_cases d <;> decide

/-- A field that does not start with a sign has no sign. -/
theorem scanSign_of_no_sign (c : Char) (r : List Char) (hm : c ≠ '-') (hp : c ≠ '+') :
    scanSign (c :: r) = (false, c :: r) := by
  unfold scanSign
  split
  · rename_i heq
    simp only [List.cons.injEq] at heq
    exact absurd heq.1 hm
  · rename_i heq
    simp only [List.cons.injEq] at heq
    exact absurd heq.1 hp
  · rfl

/-- A field whose second character is not an x has no prefix. -/
theorem scanHexPrefix_of_no_x (c x : Char) (r : List Char) (hx : x ≠ 'x') (hX : x ≠ 'X') :
    scanHexPrefix (c :: x :: r) = c :: x :: r := by
  unfold scanHexPrefix
  split
  · rename_i heq
    simp only [List.cons.injEq] at heq
    obtain ⟨h1, h2, h3⟩ := heq
    subst h2
    simp [hx, hX, h1, h3]
  · rfl

/-- Parsing eight hexadecimal digits. -/
theorem recid2uid_hex8 (c0 c1 c2 c3 c4 c5 c6 c7 : Char) (d0 d1 d2 d3 d4 d5 d6 d7 : Nat)
    (h0 : hexDigit c0 = some d0) (h1 : hexDigit c1 = some d1) (h2 : hexDigit c2 = some d2)
    (h3 : hexDigit c3 = some d3) (h4 : hexDigit c4 = some d4) (h5 : hexDigit c5 = some d5)
    (h6 : hexDigit c6 = some d6) (h7 : hexDigit c7 = some d7)
    (hs : isSpaceC c0 = false) (hm : c0 ≠ '-') (hp : c0 ≠ '+') (hx : c1 ≠ 'x') (hX : c1 ≠ 'X') :
    recid2uid (String.mk [c0, c1, c2, c3, c4, c5, c6, c7])
      = ((((((d0 * 16 + d1) * 16 + d2) * 16 + d3) * 16 + d4) * 16 + d5) * 16 + d6) * 16 + d7 := by
  unfold recid2uid
  simp only [List.dropWhile, hs, List.take, scanSign_of_no_sign _ _ hm hp,
    scanHexPrefix_of_no_x _ _ _ hx hX, hexValue, h0, h1, h2, h3, h4, h5, h6, h7]
  simp

/-- Parsing the printed id of a 32-bit uid gives the uid back. -/
theorem recid2uid_recidOfUid (u : Nat) (hu : u < 2 ^ 32) : recid2uid (recidOfUid u) = u := by
  have hmod : u % 2 ^ 32 = u := Nat.mod_eq_of_lt hu
  unfold recidOfUid
  simp only [hmod]
  obtain ⟨a0, b0, c0, e0, -, -⟩ := hexDigit_hexChar (u / 16 ^ 7 % 16) (Nat.mod_lt _ (by norm_num))
  obtain ⟨a1, -, -, -, c1, e1⟩ := hexDigit_hexChar (u / 16 ^ 6 % 16) (Nat.mod_lt _ (by norm_num))
  obtain ⟨a2, -⟩ := hexDigit_hexChar (u / 16 ^ 5 % 16) (Nat.mod_lt _ (by norm_num))
  obtain ⟨a3, -⟩ := hexDigit_hexChar (u / 16 ^ 4 % 16) (Nat.mod_lt _ (by norm_num))
  obtain ⟨a4, -⟩ := hexDigit_hexChar (u / 16 ^ 3 % 16) (Nat.mod_lt _ (by norm_num))
  obtain ⟨a5, -⟩ := hexDigit_hexChar (u / 16 ^ 2 % 16) (Nat.mod_lt _ (by norm_num))
  obtain ⟨a6, -⟩ := hexDigit_hexChar (u / 16 % 16) (Nat.mod_lt _ (by norm_num))
  obtain ⟨a7, -⟩ := hexDigit_hexChar (u % 16) (Nat.mod_lt _ (by norm_num))
  rw [recid2uid_hex8 _ _ _ _ _ _ _ _ _ _ _ _ _ _ _ _ a0 a1 a2 a3 a4 a5 a6 a7 b0 c0 e0 c1 e1]
  norm_num at hu ⊢
  omega

/-- C12: for every 32-bit uid u, the recording id printed for u is exactly 8
characters long, each a lower-case hexadecimal digit; recid2uid reads it back
to u (so a handler that resolves the id looks up the recording registered
under u); and the printing is injective on 32-bit uids. -/
theorem C12_recid_round_trip (env : Env) (u : Nat) (hu : u < 2 ^ 32) :
    (recidOfUid u).data.length = 8 ∧
    (∀ c ∈ (recidOfUid u).data, c ∈ "0123456789abcdef".data) ∧
    recid2uid (recidOfUid u) = u ∧
    env.Lookup (recid2uid (recidOfUid u)) = env.Lookup u ∧
    (∀ v : Nat, v < 2 ^ 32 → recidOfUid u = recidOfUid v → u = v) := by
  have hchar : ∀ d : Nat, d < 16 → hexChar d ∈ "0123456789abcdef".data := by
    intro d hd
    interval_cases d <;> decide
  refine ⟨rfl, ?_, recid2uid_recidOfUid u hu, by rw [recid2uid_recidOfUid u hu], ?_⟩
  · intro c hc
    unfold recidOfUid at hc
    simp only [List.mem_cons, List.mem_nil_iff, or_false] at hc
    rcases hc with h | h | h | h | h | h | h | h <;> rw [h] <;>
      exact hchar _ (Nat.mod_lt _ (by norm_num))
  · intro v hv h
    rw [← recid2uid_recidOfUid u hu, ← recid2uid_recidOfUid v hv, h]

/-- Witness for C12: uid 42 is printed as 0000002a and read back as 42. -/
theorem C12_recid_round_trip_witness :
    recidOfUid 42 = "0000002a" ∧ recid2uid "0000002a" = 42 ∧
      (recidOfUid 42).data.length = 8 :=
  ⟨by decide, (C12_recid_round_trip sampleEnv 42 (by norm_num)).2.2.1,
    (C12_recid_round_trip sampleEnv 42 (by norm_num)).1⟩

/-! ## Requests that are not answered, and the outgoing queue -/

/-- C13: a request whose opcode is not in the dispatch table (a number no
handler is registered for, or one of the status opcodes, which only the server
sends) leaves every field of the session unchanged and queues no response; a
CHANNELSTREAM_REQUEST or CHANNELSTREAM_SIGNAL request queues no response
either. In each case `processRequest` returns, with result false. -/
theorem C13_no_response_queued (env : Env) (s : Session) (req : MsgPacket) :
    (req.msgID ∈ [MsgID.other, MsgID.STATUS_CHANNELCHANGED, MsgID.STATUS_TIMERCHANGE,
        MsgID.STATUS_CHANNELCHANGE, MsgID.STATUS_RECORDINGSCHANGE, MsgID.STATUS_RECORDING,
        MsgID.STATUS_MESSAGE, MsgID.STATUS_CHANNELSCAN] →
      processRequest env s req = some (s, false)) ∧
    (req.msgID = MsgID.CHANNELSTREAM_REQUEST ∨ req.msgID = MsgID.CHANNELSTREAM_SIGNAL →
      ∃ s1 : Session, processRequest env s req = some (s1, false) ∧ s1.m_queue = s.m_queue) := by
  constructor
  · intro h
    simp only [List.mem_cons, List.mem_nil_iff, or_false] at h
    rcases h with h | h | h | h | h | h | h | h <;> simp [processRequest, dispatch, h]
  · intro h
    rcases h with h | h
    · refine ⟨(processChannelStream_Request s (freshResponse env req)).s, ?_, ?_⟩
      · simp only [processRequest, dispatch, h]
        cases hs : s.m_Streamer <;> simp [processChannelStream_Request, hs]
      · cases hs : s.m_Streamer <;> simp [processChannelStream_Request, hs]
    · refine ⟨(processChannelStream_Signal s (freshResponse env req)).s, ?_, ?_⟩
      · simp only [processRequest, dispatch, h]
        cases hs : s.m_Streamer <;> simp [processChannelStream_Signal, hs]
      · cases hs : s.m_Streamer <;> simp [processChannelStream_Signal, hs]

/-- Witness for C13: a request with an unregistered opcode on the logged-in
session, and a packet request on the streaming session. -/
theorem C13_no_response_queued_witness :
    processRequest sampleEnv loggedInSession (request MsgID.other 6 [Field.U32 1])
        = some (loggedInSession, false) ∧
      ∃ s1 : Session,
        processRequest sampleEnv streamingSession (request MsgID.CHANNELSTREAM_REQUEST 6 [])
          = some (s1, false) ∧ s1.m_queue = streamingSession.m_queue :=
  ⟨(C13_no_response_queued sampleEnv loggedInSession
      (request MsgID.other 6 [Field.U32 1])).1 (by decide),
    (C13_no_response_queued sampleEnv streamingSession
      (request MsgID.CHANNELSTREAM_REQUEST 6 [])).2 (Or.inl rfl)⟩

/-- The drain step, from the k-th `write` on: some number n of leading messages
are written successfully, in queue order, and leave the queue; the message after
them, if there is one, is the one whose `write` failed, and it stays first. -/
theorem drain_split (sendOk : Nat → Bool) (queue : List MsgPacket) (k : Nat) :
    ∃ n : Nat, n ≤ queue.length ∧ (∀ i : Nat, i < n → sendOk (k + i) = true) ∧
      (n < queue.length → sendOk (k + n) = false) ∧
      drainQueue sendOk queue k = queue.drop n ∧
      drainTrace sendOk queue k
        = (queue.take n).map (fun p => (p, true))
            ++ ((queue.drop n).head?.map (fun p => (p, false))).toList := by
  induction queue generalizing k with
  | nil => exact ⟨0, le_refl _, fun i hi => absurd hi (Nat.not_lt_zero i),
      fun h => absurd h (Nat.lt_irrefl _), rfl, rfl⟩
  | cons p rest ih =>
    by_cases hk : sendOk k = true
    · obtain ⟨n, hn, hall, hfail, hq, ht⟩ := ih (k + 1)
      refine ⟨n + 1, Nat.succ_le_succ hn, ?_, ?_, ?_, ?_⟩
      · intro i hi
        cases i with
        | zero => exact hk
        | succ j =>
          have := hall j (by omega)
          rw [show k + (j + 1) = k + 1 + j by omega]
          exact this
      · intro hlt
        have := hfail (by simpa using hlt)
        rw [show k + (n + 1) = k + 1 + n by omega]
        exact this
      · simp only [drainQueue, hk, not_true_eq_false, if_false, List.drop_succ_cons]
        exact hq
      · simp only [drainTrace, hk, not_true_eq_false, if_false, List.drop_succ_cons,
          List.take_succ_cons, List.map_cons, List.cons_append]
        rw [ht]
    · refine ⟨0, Nat.zero_le _, fun i hi => absurd hi (Nat.not_lt_zero i), ?_, ?_, ?_⟩
      · intro _
        simpa using hk
      · simp [drainQueue, hk]
      · simp [drainTrace, hk]

/-- C14: in one pass of the drain step over an outgoing queue, there is a
number n such that exactly the first n messages are written successfully, in
queue order, and are removed; when messages are left, the first of them is the
one whose write failed, it is the last write of the pass, and it stays at the
head of the queue with the rest behind it in order. QueueMessage appends at the
tail and changes nothing else of the session. -/
theorem C14_drain_is_fifo (sendOk : Nat → Bool) (s : Session) (p : MsgPacket) :
    (∃ n : Nat, n ≤ s.m_queue.length ∧ (∀ i : Nat, i < n → sendOk i = true) ∧
      (n < s.m_queue.length → sendOk n = false) ∧
      drainQueue sendOk s.m_queue 0 = s.m_queue.drop n ∧
      drainTrace sendOk s.m_queue 0
        = (s.m_queue.take n).map (fun q => (q, true))
            ++ ((s.m_queue.drop n).head?.map (fun q => (q, false))).toList ∧
      ((drainTrace sendOk s.m_queue 0).filter (fun w => w.2)).map (fun w => w.1)
          ++ drainQueue sendOk s.m_queue 0 = s.m_queue) ∧
    QueueMessage s p = { s with m_queue := s.m_queue ++ [p] } := by
  refine ⟨?_, rfl⟩
  obtain ⟨n, hn, hall, hfail, hq, ht⟩ := drain_split sendOk s.m_queue 0
  refine ⟨n, hn, ?_, ?_, hq, ht, ?_⟩
  · intro i hi
    simpa using hall i hi
  · intro h
    simpa using hfail h
  · rw [ht, hq]
    have h1 : (List.map (fun q => (q, true)) (List.take n s.m_queue)).filter (fun w => w.2)
        = List.map (fun q => (q, true)) (List.take n s.m_queue) := by
      rw [List.filter_eq_self]
      intro a ha
      simp only [List.mem_map] at ha
      obtain ⟨q, -, rfl⟩ := ha
      rfl
    have h2 : ((Option.map (fun q => (q, false)) (List.drop n s.m_queue).head?).toList).filter
        (fun w => w.2) = ([] : List (MsgPacket × Bool)) := by
      cases (List.drop n s.m_queue).head? <;> rfl
    rw [List.filter_append, h1, h2, List.append_nil, List.map_map]
    have h3 : ((fun w : MsgPacket × Bool => w.1) ∘ fun q => (q, true)) = id := rfl
    rw [h3, List.map_id, List.take_append_drop]

/-! ## Status notifications -/

/-- C15: while the status interface is not enabled, none of the callbacks
TimerChange (both overloads), ChannelChange, ChannelsChanged, RecordingsChange,
Recording and OsdStatusMessage appends a message to the outgoing queue,
whatever its arguments and whatever the protocol version of the session; all
of them but ChannelChange, which forwards the channel to the live streamer,
leave the whole session unchanged. -/
theorem C15_no_push_without_opt_in (env : Env) (s : Session)
    (h : s.m_StatusInterfaceEnabled = false) :
    TimerChange s = s ∧
    (∀ timer : Option Timer, TimerChangeOf s timer = s) ∧
    (∀ c : Channel, (ChannelChange env s c).m_queue = s.m_queue) ∧
    ChannelsChanged env s = s ∧
    RecordingsChange s = s ∧
    (∀ (CardIndex : Int) (Name FileName : Option String) (On : Bool),
      Recording_ s CardIndex Name FileName On = s) ∧
    (∀ Message : Option String, OsdStatusMessage env s Message = s) := by
  have ht : TimerChange s = s := by simp [TimerChange, h]
  refine ⟨ht, ?_, ?_, ?_, ?_, ?_, ?_⟩
  · intro timer
    cases timer with
    | none => rfl
    | some t => exact ht
  · intro c
    cases hs : s.m_Streamer <;> simp [ChannelChange, hs, h]
  · simp [ChannelsChanged, h]
  · simp [RecordingsChange, h]
  · intro CardIndex Name FileName On
    simp [Recording_, h]
  · intro Message
    cases Message with
    | none => rfl
    | some msg => simp [OsdStatusMessage, h]

/-- Witness for C15: the logged-in session has not opted in; a timer change
and a channel change leave its queue as it is. -/
theorem C15_no_push_without_opt_in_witness :
    loggedInSession.m_StatusInterfaceEnabled = false ∧
      TimerChange loggedInSession = loggedInSession ∧
      (ChannelChange sampleEnv loggedInSession sampleChannel).m_queue
        = loggedInSession.m_queue :=
  ⟨rfl, (C15_no_push_without_opt_in sampleEnv loggedInSession rfl).1,
    (C15_no_push_without_opt_in sampleEnv loggedInSession rfl).2.2.1 sampleChannel⟩

/-- The scan-status push does not read the opt-in flag: whenever the scanner
reports a status, `SendScannerStatus` appends one STATUS_CHANNELSCAN message. -/
theorem SendScannerStatus_queues (env : Env) (s : Session) (st : WirbelscanStatus)
    (h : env.scannerStatus = some st) :
    ∃ msg : MsgPacket, msg.msgID = MsgID.STATUS_CHANNELSCAN ∧ msg.type = MsgType.STATUS ∧
      SendScannerStatus env s = { s with m_queue := s.m_queue ++ [msg] } := by
  simp only [SendScannerStatus, h, QueueMessage]
  exact ⟨_, rfl, rfl, rfl⟩

/-- C16: on the logged-in session, which has not enabled the status
interface, one iteration of the loop of Action in which nothing is read while
a scan is in progress appends a STATUS_CHANNELSCAN message to the outgoing
queue. -/
theorem C16_scan_status_pushed_without_opt_in :
    loggedInSession.m_StatusInterfaceEnabled = false ∧
      (actionLoop [{ env := scanEnv, sendOk := fun _ => true, read := ReadResult.nothing,
                     scanning := true }] loggedInSession).map (fun s => s.m_queue)
        = some [{ msgID := MsgID.STATUS_CHANNELSCAN, type := MsgType.STATUS, uid := 0,
                  protocolVersion := 7,
                  payload := [Field.U8 1, Field.U16 40, Field.U16 70, Field.U16 12, Field.U16 3,
                              Field.Str "DVB-S", Field.Str "11836H"],
                  compression := 0 }] := by
  constructor
  · rfl
  · rfl

/-- C17: ChannelChange on channel c appends exactly one message to the outgoing
queue when the status interface is enabled and the negotiated protocol version
is at least 6, and leaves the queue unchanged otherwise. The message is a
STATUS_CHANNELCHANGED status packet whose payload is the record of c: number,
name, channel uid, first CA id, logo URL and service reference; it is the
record that the loop of CHANNELS_GETCHANNELS appends for c, in the same
session, when c is wanted under the requested type. -/
theorem C17_channel_change_push (env : Env) (s : Session) (c : Channel) :
    (s.m_StatusInterfaceEnabled = true ∧ s.m_protocolVersion ≥ 6 →
      ∃ msg : MsgPacket,
        (ChannelChange env s c).m_queue = s.m_queue ++ [msg] ∧
        msg.msgID = MsgID.STATUS_CHANNELCHANGED ∧ msg.type = MsgType.STATUS ∧
        msg.payload = [Field.U32 (toU32 c.Number), Field.Str (env.toUTF8 c.Name),
          Field.U32 (toU32 (env.CreateChannelUID c)), Field.U32 (toU32 (c.Ca 0)),
          Field.Str (env.CreateLogoURL c), Field.Str (env.CreateServiceReference c)] ∧
        ∀ (type : Int) (resp : MsgPacket), IsChannelWanted env s (some c) type = true →
          (getChannelsLoop env s type [c] resp).payload = resp.payload ++ msg.payload) ∧
    (¬ (s.m_StatusInterfaceEnabled = true ∧ s.m_protocolVersion ≥ 6) →
      (ChannelChange env s c).m_queue = s.m_queue) := by
  constructor
  · intro h
    have hv : s.m_protocolVersion > 4 := by omega
    refine ⟨addChannelToPacket env s c
      (MsgPacket.new MsgID.STATUS_CHANNELCHANGED MsgType.STATUS 0), ?_, ?_, ?_, ?_, ?_⟩
    · cases hs : s.m_Streamer <;>
        simp [ChannelChange, hs, h.1, h.2, QueueMessage, addChannelToPacket]
    · simp [addChannelToPacket, hv, MsgPacket.new, MsgPacket.put_U32, MsgPacket.put_String]
    · simp [addChannelToPacket, hv, MsgPacket.new, MsgPacket.put_U32, MsgPacket.put_String]
    · simp [addChannelToPacket, hv, MsgPacket.new, MsgPacket.put_U32, MsgPacket.put_String]
    · intro type resp hw
      simp [getChannelsLoop, hw, addChannelToPacket, hv, MsgPacket.new, MsgPacket.put_U32,
        MsgPacket.put_String]
  · intro h
    cases hs : s.m_Streamer <;> simp [ChannelChange, hs, h]

/-- Witness for C17: the session that opted in, at version 6, gets one message
for a change of the sample channel. -/
theorem C17_channel_change_push_witness :
    ∃ msg : MsgPacket,
      (ChannelChange sampleEnv statusSession sampleChannel).m_queue
        = statusSession.m_queue ++ [msg] ∧ msg.msgID = MsgID.STATUS_CHANNELCHANGED :=
  match (C17_channel_change_push sampleEnv statusSession sampleChannel).1
      ⟨rfl, by decide⟩ with
  | ⟨msg, hq, hid, _⟩ => ⟨msg, hq, hid⟩

/-- C18: with the status interface enabled, ChannelsChanged leaves the session,
and so the outgoing queue, unchanged when the cached channel count equals the
count computed now, and otherwise appends exactly one STATUS_CHANNELCHANGE
message and changes nothing else. -/
theorem C18_channels_changed_dedup (env : Env) (s : Session)
    (h : s.m_StatusInterfaceEnabled = true) :
    (s.m_channelCount = ChannelsCount env s → ChannelsChanged env s = s) ∧
    (s.m_channelCount ≠ ChannelsCount env s →
      ChannelsChanged env s
        = { s with m_queue := s.m_queue ++
            [{ msgID := MsgID.STATUS_CHANNELCHANGE, type := MsgType.STATUS, uid := 0,
               protocolVersion := 0, payload := [], compression := 0 }] }) := by
  constructor
  · intro hc
    simp [ChannelsChanged, h, hc]
  · intro hc
    simp [ChannelsChanged, h, hc, QueueMessage, MsgPacket.new]

/-- Witness for C18: the session that opted in caches the count 0; with no
channel in the catalog nothing is queued, with one wanted channel in the
catalog one message is. -/
theorem C18_channels_changed_dedup_witness :
    ChannelsChanged sampleEnv statusSession = statusSession ∧
      (ChannelsChanged groupsEnv statusSession).m_queue.length
        = statusSession.m_queue.length + 1 :=
  ⟨(C18_channels_changed_dedup sampleEnv statusSession rfl).1 (by decide),
    by
      rw [(C18_channels_changed_dedup groupsEnv statusSession rfl).2 (by decide)]
      simp⟩

/-! ## Timers -/

/-- C19: TIMER_DELETE naming an existing timer that is recording, while the
timer catalog is not under edit, returns true with the session unchanged and
(a) with force = 0 answers ROBOTV_RET_RECRUNNING and leaves the catalog as it
was; (b) with force other than 0 answers ROBOTV_RET_OK, and in the catalog it
leaves the timer has been skipped and deleted (one entry less) and the catalog
is marked modified. The answer is the only field of the response that
processRequest queues. -/
theorem C19_delete_recording_timer (env : Env) (s : Session) (req resp : MsgPacket)
    (timer : Timer) (hf : FindTimerByUID env.Timers (get_U32 req.payload).1 = some timer)
    (hr : timer.Recording = true) (he : env.Timers.BeingEdited = false) :
    ((get_U32 (get_U32 req.payload).2).1 = 0 →
      processTIMER_Delete env s req resp
        = { out := { s := s, resp := resp.put_U32 env.ROBOTV_RET_RECRUNNING, result := true },
            Timers := env.Timers } ∧
      (req.msgID = MsgID.TIMER_DELETE →
        processRequest env s req
          = some (QueueMessage s ((freshResponse env req).put_U32 env.ROBOTV_RET_RECRUNNING),
              true))) ∧
    ((get_U32 (get_U32 req.payload).2).1 ≠ 0 →
      processTIMER_Delete env s req resp
        = { out := { s := s, resp := resp.put_U32 env.ROBOTV_RET_OK, result := true },
            Timers := { timers := env.Timers.timers.erase timer, BeingEdited := false,
                        modified := true, skipped := env.Timers.skipped ++ [timer] } } ∧
      (env.Timers.timers.erase timer).length + 1 = env.Timers.timers.length ∧
      (req.msgID = MsgID.TIMER_DELETE →
        processRequest env s req
          = some (QueueMessage s ((freshResponse env req).put_U32 env.ROBOTV_RET_OK),
              true))) := by
  have hmem : timer ∈ env.Timers.timers := by
    unfold FindTimerByUID at hf
    exact List.mem_of_find?_eq_some hf
  constructor
  · intro h0
    have hd : processTIMER_Delete env s req resp
        = { out := { s := s, resp := resp.put_U32 env.ROBOTV_RET_RECRUNNING, result := true },
            Timers := env.Timers } := by
      simp [processTIMER_Delete, hf, he, hr, h0]
    refine ⟨hd, ?_⟩
    intro hop
    simp [processRequest, dispatch, hop, processTIMER_Delete, hf, he, hr, h0]
  · intro h1
    refine ⟨?_, ?_, ?_⟩
    · simp [processTIMER_Delete, hf, he, hr, h1]
    · rw [List.length_erase_of_mem hmem]
      have : 0 < env.Timers.timers.length := List.length_pos_of_mem hmem
      omega
    · intro hop
      simp [processRequest, dispatch, hop, processTIMER_Delete, hf, he, hr, h1]

/-- Witness for C19: timer 5 of the sample catalog is recording; deleting it
with force = 1 leaves the other timer only. -/
theorem C19_delete_recording_timer_witness :
    (processTIMER_Delete timersEnv loggedInSession
        (request MsgID.TIMER_DELETE 6 [Field.U32 5, Field.U32 1])
        (freshResponse timersEnv (request MsgID.TIMER_DELETE 6 [Field.U32 5, Field.U32 1])))
      = { out := { s := loggedInSession,
                   resp := (freshResponse timersEnv
                     (request MsgID.TIMER_DELETE 6 [Field.U32 5, Field.U32 1])).put_U32
                       timersEnv.ROBOTV_RET_OK,
                   result := true },
          Timers := { timers := timersEnv.Timers.timers.erase recordingTimer,
                      BeingEdited := false, modified := true,
                      skipped := timersEnv.Timers.skipped ++ [recordingTimer] } } :=
  ((C19_delete_recording_timer timersEnv loggedInSession
    (request MsgID.TIMER_DELETE 6 [Field.U32 5, Field.U32 1])
    (freshResponse timersEnv (request MsgID.TIMER_DELETE 6 [Field.U32 5, Field.U32 1]))
    recordingTimer rfl rfl rfl).2 (by decide)).1

/-- C20, counterexample: while the sample catalog is under edit, a TIMER_DELETE
naming no timer answers ROBOTV_RET_DATAINVALID, not ROBOTV_RET_DATALOCKED, and
a TIMER_UPDATE of the idle timer 9 answers ROBOTV_RET_OK and stores the new
settings in the catalog. -/
theorem C20_not_every_request_is_locked :
    lockedTimersEnv.Timers.BeingEdited = true ∧
    lockedTimersEnv.ROBOTV_RET_DATAINVALID ≠ lockedTimersEnv.ROBOTV_RET_DATALOCKED ∧
    lockedTimersEnv.ROBOTV_RET_OK ≠ lockedTimersEnv.ROBOTV_RET_DATALOCKED ∧
    (processRequest lockedTimersEnv loggedInSession
        (request MsgID.TIMER_DELETE 6 [Field.U32 77, Field.U32 0])).map
          (fun r => r.1.m_queue.getLast?.map (fun p => p.payload))
      = some (some [Field.U32 (toU32 lockedTimersEnv.ROBOTV_RET_DATAINVALID)]) ∧
    (processRequest lockedTimersEnv loggedInSession
        (request MsgID.TIMER_UPDATE 6 [Field.U32 9, Field.U32 1])).map
          (fun r => r.1.m_queue.getLast?.map (fun p => p.payload))
      = some (some [Field.U32 (toU32 lockedTimersEnv.ROBOTV_RET_OK)]) ∧
    (processTIMER_Update lockedTimersEnv loggedInSession
        (request MsgID.TIMER_UPDATE 6 [Field.U32 9, Field.U32 1])
        (freshResponse lockedTimersEnv
          (request MsgID.TIMER_UPDATE 6 [Field.U32 9, Field.U32 1]))).Timers.timers
      = [recordingTimer, { idleTimer with settings := "0:S19.2E:film" }] := by
  refine ⟨rfl, by decide, by decide, rfl, rfl, rfl⟩

/-- C20, amended: while the timer catalog is under edit, TIMER_ADD, whatever
its payload, and TIMER_DELETE naming an existing timer return true, answer
ROBOTV_RET_DATALOCKED and leave the session and the catalog unchanged;
TIMER_DELETE naming no timer answers ROBOTV_RET_DATAINVALID and leaves them
unchanged too. -/
theorem C20_locked_catalog_rejects_add_and_delete (env : Env) (s : Session)
    (req resp : MsgPacket) (h : env.Timers.BeingEdited = true) :
    processTIMER_Add env s req resp
      = { out := { s := s, resp := resp.put_U32 env.ROBOTV_RET_DATALOCKED, result := true },
          Timers := env.Timers } ∧
    (∀ timer : Timer, FindTimerByUID env.Timers (get_U32 req.payload).1 = some timer →
      processTIMER_Delete env s req resp
        = { out := { s := s, resp := resp.put_U32 env.ROBOTV_RET_DATALOCKED, result := true },
            Timers := env.Timers }) ∧
    (FindTimerByUID env.Timers (get_U32 req.payload).1 = none →
      processTIMER_Delete env s req resp
        = { out := { s := s, resp := resp.put_U32 env.ROBOTV_RET_DATAINVALID, result := true },
            Timers := env.Timers }) := by
  refine ⟨?_, ?_, ?_⟩
  · simp [processTIMER_Add, h]
  · intro timer hf
    simp [processTIMER_Delete, hf, h]
  · intro hf
    simp [processTIMER_Delete, hf]

/-- Witness for C20, amended: on the sample catalog under edit, deleting the
existing timer 5 with force set is answered with ROBOTV_RET_DATALOCKED and
the catalog stays as it is. -/
theorem C20_locked_catalog_rejects_add_and_delete_witness :
    lockedTimersEnv.Timers.BeingEdited = true ∧
    processTIMER_Delete lockedTimersEnv loggedInSession
        (request MsgID.TIMER_DELETE 6 [Field.U32 5, Field.U32 1])
        (freshResponse lockedTimersEnv (request MsgID.TIMER_DELETE 6 [Field.U32 5, Field.U32 1]))
      = { out := { s := loggedInSession,
                   resp := (freshResponse lockedTimersEnv
                     (request MsgID.TIMER_DELETE 6 [Field.U32 5, Field.U32 1])).put_U32
                       lockedTimersEnv.ROBOTV_RET_DATALOCKED,
                   result := true },
          Timers := lockedTimersEnv.Timers } :=
  ⟨rfl, (C20_locked_catalog_rejects_add_and_delete lockedTimersEnv loggedInSession
    (request MsgID.TIMER_DELETE 6 [Field.U32 5, Field.U32 1])
    (freshResponse lockedTimersEnv (request MsgID.TIMER_DELETE 6 [Field.U32 5, Field.U32 1]))
    rfl).2.1 recordingTimer rfl⟩

/-! ## Handlers on every session state -/

/-- C22: on the logged-in session, which has no live stream, a
CHANNELSTREAM_PAUSE request has no defined outcome: the handler calls
`m_Streamer->pause(on)` through the empty slot, so `processRequest` neither
produces a response nor signals that there is none. -/
theorem C22_pause_without_stream_faults :
    loggedInSession.m_Streamer = none ∧
    processChannelStream_Pause loggedInSession (request MsgID.CHANNELSTREAM_PAUSE 6 [Field.U32 1])
        (freshResponse sampleEnv (request MsgID.CHANNELSTREAM_PAUSE 6 [Field.U32 1])) = none ∧
    processRequest sampleEnv loggedInSession
        (request MsgID.CHANNELSTREAM_PAUSE 6 [Field.U32 1]) = none ∧
    (∃ r, processRequest sampleEnv loggedInSession
        (request MsgID.CHANNELSTREAM_REQUEST 6 []) = some r) ∧
    (∃ r, processRequest sampleEnv loggedInSession
        (request MsgID.CHANNELSTREAM_SIGNAL 6 []) = some r) := by
  refine ⟨rfl, rfl, rfl, ⟨_, rfl⟩, ⟨_, rfl⟩⟩

/-! ## Radio classification -/

/-- C24 fails as stated: a channel with video pid 0 and no audio pid does not
classify as radio. -/
theorem C24_no_pids_is_not_radio :
    noPidChannel.Vpid = 0 ∧ noPidChannel.Apid 0 = 0 ∧ IsRadio noPidChannel = false := by
  decide

/-- C24 as amended: a channel classifies as radio exactly when its video pid is
0 and its first audio pid is not 0, or its video pid is the placeholder 1. -/
theorem C24_radio_classification (c : Channel) :
    IsRadio c = true ↔ (c.Vpid = 0 ∧ c.Apid 0 ≠ 0) ∨ c.Vpid = 1 := by
  unfold IsRadio
  by_cases hv : c.Vpid = 0
  · by_cases ha : c.Apid 0 = 0
    · simp [hv, ha]
    · simp [hv, ha]
  · by_cases h1 : c.Vpid = 1
    · simp [h1]
    · simp [hv, h1]

/-! ## Playback packets -/

/-- C25 fails as stated: when the reader has a packet, a RECSTREAM_GETPACKET
request on the playback session appends two messages to the outgoing queue,
the packet and after it the response to the request. -/
theorem C25_getpacket_queues_two_messages :
    (processRequest packetEnv playbackSession (request MsgID.RECSTREAM_GETPACKET 6 [])).map
        (fun r => r.1.m_queue)
      = some (playbackSession.m_queue ++
          [streamPacket,
           { msgID := MsgID.RECSTREAM_GETPACKET, type := MsgType.REQUEST_RESPONSE, uid := 1,
             protocolVersion := 7, payload := [], compression := 0 }]) := by
  rfl

/-- C25 as amended: for a RECSTREAM_GETPACKET request on a session with an open
playback sub-session, `processRequest` returns true; when the reader yields a
packet, exactly two messages are appended to the outgoing queue, that packet
and after it the response to the request, which has no field; when the reader
yields none, only that empty response is appended, so no packet and no error
status. Nothing else of the session changes. -/
theorem C25_getpacket (env : Env) (s : Session) (req : MsgPacket) (player : PacketPlayer)
    (hop : req.msgID = MsgID.RECSTREAM_GETPACKET) (hp : s.m_RecPlayer = some player) :
    (∀ p : MsgPacket, env.playerGetPacket player = some p →
      processRequest env s req
        = some ({ s with m_queue := s.m_queue ++ [p, freshResponse env req] }, true)) ∧
    (env.playerGetPacket player = none →
      processRequest env s req
        = some ({ s with m_queue := s.m_queue ++ [freshResponse env req] }, true)) ∧
    (freshResponse env req).payload = [] := by
  refine ⟨?_, ?_, rfl⟩
  · intro p hg
    simp [processRequest, dispatch, hop, processRecStream_GetPacket, hp, hg, QueueMessage]
  · intro hg
    simp [processRequest, dispatch, hop, processRecStream_GetPacket, hp, hg, QueueMessage]

/-- Witness for C25 as amended: the reader of the sample environment has no
packet; the playback session gets the empty response only. -/
theorem C25_getpacket_witness :
    processRequest sampleEnv playbackSession (request MsgID.RECSTREAM_GETPACKET 6 [])
      = some ({ playbackSession with m_queue := playbackSession.m_queue ++
          [freshResponse sampleEnv (request MsgID.RECSTREAM_GETPACKET 6 [])] }, true) :=
  (C25_getpacket sampleEnv playbackSession (request MsgID.RECSTREAM_GETPACKET 6 [])
    { recording := sampleRecording, lengthBytes := 5 } rfl rfl).2.1 rfl

/-! ## Channel filter request -/

/-- Reading `n` 32-bit fields as CA ids: each is converted to `int` and
appended, in order. -/
theorem readCaids_map (ids : List Nat) :
    ∀ (rest : List Field) (acc : List Int), (∀ v ∈ ids, v < 2 ^ 32) →
      readCaids ids.length (ids.map Field.U32 ++ rest) acc
        = acc ++ ids.map (fun v : Nat => toS32 (v : Int)) := by
  induction ids with
  | nil => intro rest acc _; simp [readCaids]
  | cons v ids ih =>
    intro rest acc hb
    have hv : v < 2 ^ 32 := hb v (List.mem_cons_self _ _)
    have hrest : ∀ w ∈ ids, w < 2 ^ 32 := fun w hw => hb w (List.mem_cons_of_mem _ hw)
    simp only [List.length_cons, List.map_cons, List.cons_append, readCaids, get_U32,
      Field.toNat, Nat.mod_eq_of_lt hv]
    rw [ih rest _ hrest]
    simp

/-- C26: a channel-filter request whose payload starts with the fields wantfta,
filterlanguage and count returns true and answers ROBOTV_RET_OK in every
case; it sets the want-FTA flag to whether wantfta is non-zero and the
native-language flag to whether filterlanguage is non-zero; when count < 20 and
the request carries count ids after the three fields, the allowed CA-id list
becomes exactly those ids, in order (each converted to `int`, which leaves ids
below 2^31 as they are); when count >= 20 the list becomes empty, and then
every encrypted channel that passes the kind, service-id, name and language
tests is wanted. -/
theorem C26_channel_filter (env : Env) (s : Session) (req resp : MsgPacket)
    (wantfta filterlanguage count : Nat) (tail : List Field)
    (hp : req.payload
      = Field.U32 wantfta :: Field.U32 filterlanguage :: Field.U32 count :: tail)
    (hw : wantfta < 2 ^ 32) (hf : filterlanguage < 2 ^ 32) (hc : count < 2 ^ 32) :
    (process_ChannelFilter env s req resp).result = true ∧
    (process_ChannelFilter env s req resp).resp = resp.put_U32 env.ROBOTV_RET_OK ∧
    (process_ChannelFilter env s req resp).s.m_wantfta = decide (wantfta ≠ 0) ∧
    (process_ChannelFilter env s req resp).s.m_filterlanguage = decide (filterlanguage ≠ 0) ∧
    (count < 20 → ∀ (ids : List Nat) (rest : List Field),
      tail = ids.map Field.U32 ++ rest → ids.length = count → (∀ v ∈ ids, v < 2 ^ 32) →
      (process_ChannelFilter env s req resp).s.m_caids = ids.map (fun v : Nat => toS32 (v : Int)) ∧
      ((∀ v ∈ ids, v < 2 ^ 31) →
        (process_ChannelFilter env s req resp).s.m_caids = ids.map (fun v : Nat => (v : Int)))) ∧
    (20 ≤ count →
      (process_ChannelFilter env s req resp).s.m_caids = [] ∧
      ∀ (c : Channel) (type : Int),
        ¬ (type = 1 ∧ IsRadio c = false) → ¬ (type = 2 ∧ c.Vtype ≠ 27 ∧ c.Vtype ≠ 36) →
        c.Sid ≠ 0 → c.Name ≠ "." →
        ¬ ((process_ChannelFilter env s req resp).s.m_filterlanguage = true ∧
            s.m_LanguageIndex ≠ -1 ∧ languageFound env s.m_LanguageIndex c = false) →
        c.Ca 0 ≠ 0 →
        IsChannelWanted env (process_ChannelFilter env s req resp).s (some c) type = true) := by
  have h1 : (get_U32 req.payload) = (wantfta, Field.U32 filterlanguage :: Field.U32 count :: tail) := by
    rw [hp]; simp only [get_U32, Field.toNat, Nat.mod_eq_of_lt hw]
  have h2 : get_U32 (Field.U32 filterlanguage :: Field.U32 count :: tail)
      = (filterlanguage, Field.U32 count :: tail) := by
    simp only [get_U32, Field.toNat, Nat.mod_eq_of_lt hf]
  have h3 : get_U32 (Field.U32 count :: tail) = (count, tail) := by
    simp only [get_U32, Field.toNat, Nat.mod_eq_of_lt hc]
  refine ⟨rfl, rfl, ?_, ?_, ?_, ?_⟩
  · simp only [process_ChannelFilter, h1, h2, h3]
    split <;> rfl
  · simp only [process_ChannelFilter, h1, h2, h3]
    split <;> rfl
  · intro hlt ids rest htail hlen hb
    have hc1 : (process_ChannelFilter env s req resp).s.m_caids
        = ids.map (fun v : Nat => toS32 (v : Int)) := by
      simp only [process_ChannelFilter, h1, h2, h3, if_pos hlt]
      rw [htail, ← hlen, readCaids_map ids rest [] hb]
      simp
    refine ⟨hc1, ?_⟩
    intro hsmall
    rw [hc1]
    have hconv : ∀ v ∈ ids, toS32 ((v : Nat) : Int) = ((v : Nat) : Int) := by
      intro v hv
      have := hsmall v hv
      unfold toS32
      norm_num at this ⊢
      omega
    exact List.map_congr_left hconv
  · intro hge
    have hnot : ¬ count < 20 := by omega
    have hc0 : (process_ChannelFilter env s req resp).s.m_caids = [] := by
      simp only [process_ChannelFilter, h1, h2, h3, if_neg hnot]
    have hli : (process_ChannelFilter env s req resp).s.m_LanguageIndex = s.m_LanguageIndex := by
      simp only [process_ChannelFilter, h1, h2, h3, if_neg hnot]
    refine ⟨hc0, ?_⟩
    intro c type hr hhd hsid hname hlang hca
    have hr1 : ¬ (type = 1 ∧ ¬ IsRadio c = true) := by
      intro h
      exact hr ⟨h.1, by simpa using h.2⟩
    have hl1 : ¬ ((process_ChannelFilter env s req resp).s.m_filterlanguage = true ∧
        (process_ChannelFilter env s req resp).s.m_LanguageIndex ≠ -1 ∧
        ¬ languageFound env (process_ChannelFilter env s req resp).s.m_LanguageIndex c = true) := by
      rw [hli]
      intro h
      exact hlang ⟨h.1, h.2.1, by simpa using h.2.2⟩
    unfold IsChannelWanted
    simp only [if_neg hr1, if_neg hhd, if_neg hsid, if_neg hname, if_neg hl1, if_neg hca, hc0]
    rfl

/-- Witness for C26: the filter request of the sample sequence announces the
two CA ids 0x1702 and 0x1833. -/
theorem C26_channel_filter_witness :
    (process_ChannelFilter sampleEnv loggedInSession
        (request MsgID.CHANNELFILTER 6
          [Field.U32 1, Field.U32 0, Field.U32 2, Field.U32 0x1702, Field.U32 0x1833])
        (freshResponse sampleEnv (request MsgID.CHANNELFILTER 6 []))).s.m_caids
      = [0x1702, 0x1833] :=
  ((C26_channel_filter sampleEnv loggedInSession
      (request MsgID.CHANNELFILTER 6
        [Field.U32 1, Field.U32 0, Field.U32 2, Field.U32 0x1702, Field.U32 0x1833])
      (freshResponse sampleEnv (request MsgID.CHANNELFILTER 6 []))
      1 0 2 [Field.U32 0x1702, Field.U32 0x1833] rfl (by norm_num) (by norm_num)
      (by norm_num)).2.2.2.2.1 (by norm_num) [0x1702, 0x1833] [] rfl rfl
      (by decide)).2 (by decide)

/-! ## Disk space -/

/-- The disk-space handler is defined exactly when the percentage in use is not
100, and then writes the three fields total, free MB and percent. -/
theorem processRECORDINGS_GetDiskSpace_defined (env : Env) (s : Session) (resp : MsgPacket) :
    (env.VideoDiskSpace.1 = 100 → processRECORDINGS_GetDiskSpace env s resp = none) ∧
    (env.VideoDiskSpace.1 ≠ 100 →
      processRECORDINGS_GetDiskSpace env s resp
        = some { s := s,
                 resp := { resp with payload := resp.payload ++
                   [Field.U32 (toU32 (env.VideoDiskSpace.2.tdiv (100 - env.VideoDiskSpace.1) * 100)),
                    Field.U32 (toU32 env.VideoDiskSpace.2),
                    Field.U32 (toU32 env.VideoDiskSpace.1)] },
                 result := true }) := by
  constructor
  · intro h
    simp [processRECORDINGS_GetDiskSpace, h]
  · intro h
    have h2 : ¬ (100 - env.VideoDiskSpace.1 = 0) := by omega
    simp [processRECORDINGS_GetDiskSpace, h2, MsgPacket.put_U32]

/-- C27: when the backend reports 100 percent in use (here with 0 MB free),
RECORDINGS_DISKSIZE divides by `100 - Percent = 0`: the handler has no defined
outcome and `processRequest` produces no answer. At 50 percent in use with
200000 MB free the answer is total 400000, free 200000, percent 50. -/
theorem C27_disk_size_divides_by_zero :
    fullDiskEnv.VideoDiskSpace = (100, 0) ∧
    processRECORDINGS_GetDiskSpace fullDiskEnv loggedInSession
        (freshResponse fullDiskEnv (request MsgID.RECORDINGS_DISKSIZE 6 [])) = none ∧
    processRequest fullDiskEnv loggedInSession (request MsgID.RECORDINGS_DISKSIZE 6 []) = none ∧
    (processRequest sampleEnv loggedInSession (request MsgID.RECORDINGS_DISKSIZE 6 [])).map
        (fun r => r.1.m_queue.getLast?.map (fun p => p.payload))
      = some (some [Field.U32 400000, Field.U32 200000, Field.U32 50]) := by
  refine ⟨rfl, rfl, rfl, ?_⟩
  decide

/-! ## Group catalog index -/

/-- C28: with radio byte 2 a CHANNELGROUP_LIST request and a
CHANNELGROUP_MEMBERS request index `m_channelgroups[2]`, a slot outside the
pair of catalogs: the handlers have no defined outcome. With radio byte 0 or 1
they run. -/
theorem C28_radio_byte_out_of_bounds :
    loggedInSession.groupsAt 2 = none ∧
    processRequest sampleEnv loggedInSession
        (request MsgID.CHANNELGROUP_LIST 6 [Field.U8 2]) = none ∧
    processRequest sampleEnv loggedInSession
        (request MsgID.CHANNELGROUP_MEMBERS 6 [Field.Str "ARD", Field.U8 2]) = none ∧
    (∃ r, processRequest sampleEnv loggedInSession
        (request MsgID.CHANNELGROUP_LIST 6 [Field.U8 1]) = some r) ∧
    (∃ r, processRequest sampleEnv loggedInSession
        (request MsgID.CHANNELGROUP_MEMBERS 6 [Field.Str "ARD", Field.U8 0]) = some r) := by
  refine ⟨rfl, rfl, rfl, ⟨_, rfl⟩, ⟨_, rfl⟩⟩

/-- The catalog index of the two group handlers is in bounds exactly for the
radio bytes 0 and 1. -/
theorem groupsAt_defined (s : Session) (radio : Nat) :
    (s.groupsAt radio ≠ none ↔ radio = 0 ∨ radio = 1) := by
  unfold Session.groupsAt
  by_cases h0 : radio = 0
  · simp [h0]
  · by_cases h1 : radio = 1
    · simp [h1]
    · simp [h0, h1]

/-! ## Channel count -/

/-- The count of `ChannelsCount` from an initial value: one for every channel
wanted under kind 0 and one more for every channel wanted under kind 1. -/
theorem channelsCountLoop_eq (env : Env) (s : Session) (cs : List Channel) :
    ∀ count : Int, channelsCountLoop env s cs count
      = count + ((cs.filter (fun c => IsChannelWanted env s (some c) 0)).length : Int)
          + ((cs.filter (fun c => IsChannelWanted env s (some c) 1)).length : Int) := by
  induction cs with
  | nil => intro count; simp [channelsCountLoop]
  | cons c rest ih =>
    intro count
    simp only [channelsCountLoop]
    rw [ih]
    by_cases h0 : IsChannelWanted env s (some c) 0 = true <;>
      by_cases h1 : IsChannelWanted env s (some c) 1 = true <;>
      simp [h0, h1, List.filter_cons] <;> omega

/-- The records that the loop of `processCHANNELS_GetChannels` appends: one
record of `addChannelToPacket` for every wanted channel, in catalog order. -/
theorem getChannelsLoop_eq (env : Env) (s : Session) (type : Int) (cs : List Channel) :
    ∀ resp : MsgPacket, getChannelsLoop env s type cs resp
      = (cs.filter (fun c => IsChannelWanted env s (some c) type)).foldl
          (fun p c => addChannelToPacket env s c p) resp := by
  induction cs with
  | nil => intro resp; rfl
  | cons c rest ih =>
    intro resp
    simp only [getChannelsLoop]
    by_cases h : IsChannelWanted env s (some c) type = true
    · simp only [h, not_true_eq_false, if_false, List.filter_cons, if_true, List.foldl_cons]
      rw [ih]
      rfl
    · simp only [h, not_false_eq_true, if_true, List.filter_cons, if_false]
      rw [ih]
      simp [h]

/-- C30: the count of CHANNELS_GETCOUNT is the number of channels wanted under
kind 0, which is the number of records of CHANNELS_GETCHANNELS with kind 0,
plus the number of channels wanted under kind 1 (radio): a wanted radio
channel is counted twice. Over the catalog of a separator, a television
channel and a radio channel the count written and cached is 3, while
CHANNELS_GETCHANNELS with kind 0 returns 2 records (12 fields). -/
theorem C30_count_counts_radio_twice :
    (∀ (env : Env) (s : Session),
      ChannelsCount env s
        = ((env.channels.filter (fun c => IsChannelWanted env s (some c) 0)).length : Int)
          + ((env.channels.filter (fun c => IsChannelWanted env s (some c) 1)).length : Int)) ∧
    (∀ (env : Env) (s : Session) (resp : MsgPacket),
      getChannelsLoop env s 0 env.channels resp
        = (env.channels.filter (fun c => IsChannelWanted env s (some c) 0)).foldl
            (fun p c => addChannelToPacket env s c p) resp) ∧
    (processRequest groupsEnv loggedInSession (request MsgID.CHANNELS_GETCOUNT 6 [])).map
        (fun r => (r.1.m_channelCount, r.1.m_queue.getLast?.map (fun p => p.payload)))
      = some (3, some [Field.U32 3]) ∧
    (groupsEnv.channels.filter
        (fun c => IsChannelWanted groupsEnv loggedInSession (some c) 0)).length = 2 ∧
    (processRequest groupsEnv loggedInSession
        (request MsgID.CHANNELS_GETCHANNELS 6 [Field.U32 0])).map
        (fun r => r.1.m_queue.getLast?.map (fun p => p.payload))
      = some (some
          [Field.U32 1, Field.Str "One", Field.U32 0, Field.U32 0, Field.Str "", Field.Str "",
           Field.U32 7, Field.Str "Seven", Field.U32 0, Field.U32 0x1702, Field.Str "",
           Field.Str ""]) := by
  refine ⟨?_, ?_, ?_, ?_, ?_⟩
  · intro env s
    unfold ChannelsCount
    rw [channelsCountLoop_eq]
    simp
  · intro env s resp
    exact getChannelsLoop_eq env s 0 env.channels resp
  · decide
  · decide
  · decide

/-! ## Version-gated fields -/

/-- C21 fails as stated: in a session that negotiated protocol version 5, the
record that RECORDINGS_GETLIST writes for a recording ends with the poster URL
and the background URL. -/
theorem C21_recording_urls_written_below_version_6 :
    olderSession.m_protocolVersion = 5 ∧
    (processRequest libraryEnv olderSession (request MsgID.RECORDINGS_GETLIST 5 [])).map
        (fun r => r.1.m_queue.getLast?.map (fun p => p.payload))
      = some (some
          [Field.U32 1420139700, Field.U32 5400, Field.U32 50, Field.U32 99, Field.Str "One",
           Field.Str "Night_Train", Field.Str "Thriller", Field.Str "", Field.Str "Movies",
           Field.Str "0000002a", Field.U32 3, Field.U32 16,
           Field.Str "http://art/p42.jpg", Field.Str "http://art/b42.jpg"]) := by
  constructor
  · rfl
  · decide

/-- C21 as amended: with v the negotiated version of the session, (a) the
record of a channel, as `addChannelToPacket` and the loop of
CHANNELS_GETCHANNELS write it, is the five fields number, name, uid, CA id and
logo URL followed by the service reference if and only if v > 4; (b) the
record of an EPG event that passes the time filters is the eight fields id,
start, duration, content, rating, title, subtitle and description followed by
two artwork URL fields (either the URLs found or twice "x") if and only if
v >= 6; (c) the record of a recording in the recording list ends with the
poster URL and the background URL at every version: the handler does not read
the version. -/
theorem C21_version_gated_fields (env : Env) (s : Session) :
    (∀ (c : Channel) (resp : MsgPacket),
      (addChannelToPacket env s c resp).payload
        = resp.payload ++
          [Field.U32 (toU32 c.Number), Field.Str (env.toUTF8 c.Name),
           Field.U32 (toU32 (env.CreateChannelUID c)), Field.U32 (toU32 (c.Ca 0)),
           Field.Str (env.CreateLogoURL c)]
          ++ (if s.m_protocolVersion > 4 then [Field.Str (env.CreateServiceReference c)]
              else []) ∧
      ∀ type : Int, IsChannelWanted env s (some c) type = true →
        getChannelsLoop env s type [c] resp = addChannelToPacket env s c resp) ∧
    (∀ (event : EpgEvent) (startTime duration : Nat) (b : Bool) (resp : MsgPacket),
      ¬ (toU32 event.StartTime + toU32 event.Duration) % 2 ^ 32 < toU32 env.timeNow →
      ¬ (toU32 event.StartTime + toU32 event.Duration) % 2 ^ 32 ≤ startTime →
      ¬ (duration ≠ 0 ∧ toU32 event.StartTime ≥ (startTime + duration) % 2 ^ 32) →
      (epgLoop env s startTime duration [event] b resp).2.payload
        = resp.payload ++
          [Field.U32 (toU32 event.EventID), Field.U32 (toU32 event.StartTime),
           Field.U32 (toU32 event.Duration), Field.U32 (toU32 event.Contents),
           Field.U32 (toU32 event.ParentalRating),
           Field.Str (env.toUTF8 (event.Title.getD "")),
           Field.Str (env.toUTF8 (event.ShortText.getD "")),
           Field.Str (env.toUTF8 (event.Description.getD ""))]
          ++ (if s.m_protocolVersion ≥ 6 then
                [Field.Str ((env.artworkGet (toU32 event.Contents)
                    (env.toUTF8 (event.Title.getD ""))).getD ("x", "x")).1,
                 Field.Str ((env.artworkGet (toU32 event.Contents)
                    (env.toUTF8 (event.Title.getD ""))).getD ("x", "x")).2]
              else [])) ∧
    (∀ (recording : ListedRecording) (resp : MsgPacket),
      ∃ fields : List Field, fields.length = 12 ∧
        (addRecordingToPacket env recording resp).payload
          = resp.payload ++ fields ++
            [Field.Str (env.GetPosterUrl (env.Register recording)),
             Field.Str (env.GetBackgroundUrl (env.Register recording))]) ∧
    (∀ (t : Session) (resp : MsgPacket),
      (processRECORDINGS_GetList env s resp).resp.payload
        = (processRECORDINGS_GetList env t resp).resp.payload) := by
  have htoU32 : ∀ n : Nat, n < 2 ^ 32 → toU32 (n : Int) = n := by
    intro n hn
    unfold toU32
    norm_num at hn ⊢
    omega
  have hlt : ∀ x : Int, toU32 x < 2 ^ 32 := by
    intro x
    unfold toU32
    norm_num
    omega
  refine ⟨?_, ?_, ?_, ?_⟩
  · intro c resp
    constructor
    · unfold addChannelToPacket
      by_cases hv : s.m_protocolVersion > 4
      · simp [hv, MsgPacket.put_U32, MsgPacket.put_String]
      · simp [hv, MsgPacket.put_U32, MsgPacket.put_String]
    · intro type hw
      simp only [getChannelsLoop, hw, not_true_eq_false, if_false, addChannelToPacket]
  · intro event startTime duration b resp h1 h2 h3
    simp only [epgLoop, if_neg h1, if_neg h2, if_neg h3]
    by_cases hv : s.m_protocolVersion ≥ 6
    · cases ha : env.artworkGet (toU32 event.Contents) (env.toUTF8 (event.Title.getD "")) with
      | none =>
        simp [hv, ha, MsgPacket.put_U32, MsgPacket.put_String, htoU32 _ (hlt _)]
      | some urls =>
        simp [hv, ha, MsgPacket.put_U32, MsgPacket.put_String, htoU32 _ (hlt _)]
    · simp [hv, MsgPacket.put_U32, MsgPacket.put_String, htoU32 _ (hlt _)]
  · intro recording resp
    refine ⟨((addRecordingToPacket env recording resp).payload.drop resp.payload.length).take 12,
      ?_, ?_⟩ <;>
    · cases he : recording.event <;>
        by_cases h1 : env.isempty recording.ShortText = true <;>
        by_cases h2 : env.isempty recording.Description = true <;>
        simp [addRecordingToPacket, he, h1, h2, MsgPacket.put_U32, MsgPacket.put_String]
  · intro t resp
    rfl

/-- Witness for C21 as amended: at version 5 the record of the sample event has
the eight fields and no artwork URL. -/
theorem C21_version_gated_fields_witness :
    (epgLoop epgEnv olderSession 0 0 [sampleEvent] false
        (freshResponse epgEnv (request MsgID.EPG_GETFORCHANNEL 5 []))).2.payload
      = [Field.U32 811, Field.U32 1700003600, Field.U32 900, Field.U32 32, Field.U32 0,
         Field.Str "News", Field.Str "", Field.Str "Daily news"] :=
  ((C21_version_gated_fields epgEnv olderSession).2.1 sampleEvent 0 0 false
    (freshResponse epgEnv (request MsgID.EPG_GETFORCHANNEL 5 []))
    (by decide) (by decide) (by decide)).trans (by decide)

/-! ## Group membership -/

/-- Conversion of a natural number to `uint32_t`. -/
theorem toU32_natCast (n : Nat) : toU32 (n : Int) = n % 2 ^ 32 := by
  unfold toU32
  norm_num
  omega

/-- A successful lookup returns an entry of the catalog. -/
theorem GroupMap.mem_of_find (m : GroupMap) (key : String) (g : ChannelGroup)
    (h : GroupMap.find m key = some g) : (key, g) ∈ m := by
  induction m with
  | nil => simp [GroupMap.find] at h
  | cons e rest ih =>
    obtain ⟨k, g0⟩ := e
    simp only [GroupMap.find] at h
    by_cases hk : k = key
    · simp only [hk, if_true, Option.some.injEq] at h
      rw [hk, h]
      exact List.mem_cons_self _ _
    · simp only [hk, if_false] at h
      exact List.mem_cons_of_mem _ (ih h)

/-- The session after a group-count request: the loop of `CreateChannelGroups`
run on the session with both catalogs cleared. -/
theorem processCHANNELS_GroupsCount_session (env : Env) (t : Session) (rq rs : MsgPacket) :
    (processCHANNELS_GroupsCount env t rq rs).s
      = createGroupsLoop env (decide ((get_U32 rq.payload).1 = 1)) env.channels ""
          { t with m_channelgroups := ([], []) } := by
  unfold processCHANNELS_GroupsCount CreateChannelGroups
  by_cases ht : (get_U32 rq.payload).1 = 1 <;> simp [ht]

/-- One step of the loop of `processCHANNELS_GetGroupMembers`: the group name
the channel leaves, and whether the channel is written as a member. -/
theorem groupMembersLoop_cons (env : Env) (s : Session) (automatic : Bool) (groupname : String)
    (radio : Nat) (c : Channel) (rest : List Channel) (g : String) (k : Nat) (resp : MsgPacket)
    (hn : groupname ≠ "") :
    groupMembersLoop env s automatic groupname radio (c :: rest) g k resp
      = if c.GroupSep = false ∧ groupKeyFrom automatic g [] c = groupname ∧
            IsChannelWanted env s (some c) radio = true then
          groupMembersLoop env s automatic groupname radio rest
            (if c.GroupSep = true then c.Name else if automatic = true then c.Provider else g)
            (k + 1)
            ((resp.put_U32 (env.CreateChannelUID c)).put_U32 ((k + 1 : Nat) : Int))
        else
          groupMembersLoop env s automatic groupname radio rest
            (if c.GroupSep = true then c.Name else if automatic = true then c.Provider else g)
            k resp := by
  have hkey : groupKeyFrom automatic g [] c = if automatic = true then c.Provider else g := by
    unfold groupKeyFrom
    simp
  rw [hkey]
  simp only [groupMembersLoop]
  by_cases hs : c.GroupSep = true
  · simp [hs]
  · have hs2 : c.GroupSep = false := by simpa using hs
    cases automatic
    · simp only [Bool.false_eq_true, false_and, if_false, hs, hs2, true_and]
      by_cases he : g = ""
      · subst he
        have : ¬ "" = groupname := fun h => hn h.symm
        simp [this]
      · by_cases hw : IsChannelWanted env s (some c) radio = true
        · by_cases hg : g = groupname
          · subst hg
            simp [hn, hw]
          · simp [he, hw, hg]
        · simp [he, hw]
    · simp only [true_and, hs, not_false_eq_true, if_true, hs2]
      by_cases he : c.Provider = ""
      · have : ¬ "" = groupname := fun h => hn h.symm
        simp [he, this]
      · by_cases hw : IsChannelWanted env s (some c) radio = true
        · by_cases hg : c.Provider = groupname
          · simp [hg, hn, hw]
          · simp [he, hw, hg]
        · simp [he, hw]

/-- The loop of `processCHANNELS_GetGroupMembers` writes, in catalog order and
with consecutive indices, exactly the non-separator channels that are wanted
under the requested kind and whose group key is the requested name. -/
theorem groupMembersLoop_members (env : Env) (s : Session) (automatic : Bool)
    (groupname : String) (radio : Nat) (hn : groupname ≠ "") (rest : List Channel) :
    ∀ (g : String) (k : Nat) (resp : MsgPacket), k + rest.length < 2 ^ 32 →
      ∃ members : List Channel, members.Sublist rest ∧
        (∀ c ∈ members, IsChannelWanted env s (some c) radio = true ∧
          ∃ pre post, rest = pre ++ c :: post ∧ c.GroupSep = false ∧
            groupKeyFrom automatic g pre c = groupname) ∧
        (∀ pre c post, rest = pre ++ c :: post → c.GroupSep = false →
          groupKeyFrom automatic g pre c = groupname →
          IsChannelWanted env s (some c) radio = true → c ∈ members) ∧
        groupMembersLoop env s automatic groupname radio rest g k resp
          = { resp with payload := resp.payload ++ memberFields env k members } := by
  induction rest with
  | nil =>
    intro g k resp _
    refine ⟨[], List.Sublist.slnil, ?_, ?_, ?_⟩
    · intro c hc; exact absurd hc (List.not_mem_nil c)
    · intro pre c post h; exact absurd h (by simp)
    · simp [groupMembersLoop, memberFields]
  | cons c rest ih =>
    intro g k resp hk
    simp only [List.length_cons] at hk
    have hstate : ∀ pre c2, groupKeyFrom automatic g (c :: pre) c2
        = groupKeyFrom automatic
            (if c.GroupSep = true then c.Name else if automatic = true then c.Provider else g)
            pre c2 := by
      intro pre c2
      rw [groupKeyFrom_cons]
      by_cases hs : c.GroupSep = true
      · simp [hs]
      · cases automatic
        · simp [hs]
        · simp [groupKeyFrom]
    rw [groupMembersLoop_cons env s automatic groupname radio c rest g k resp hn]
    by_cases hm : c.GroupSep = false ∧ groupKeyFrom automatic g [] c = groupname ∧
        IsChannelWanted env s (some c) radio = true
    · rw [if_pos hm]
      obtain ⟨members, hsub, hall, hcompl, hloop⟩ :=
        ih (if c.GroupSep = true then c.Name else if automatic = true then c.Provider else g)
          (k + 1) ((resp.put_U32 (env.CreateChannelUID c)).put_U32 ((k + 1 : Nat) : Int))
          (by omega)
      refine ⟨c :: members, hsub.cons₂ c, ?_, ?_, ?_⟩
      · intro c2 hc2
        rcases List.mem_cons.1 hc2 with rfl | hc2
        · exact ⟨hm.2.2, [], rest, rfl, hm.1, hm.2.1⟩
        · obtain ⟨hw, pre, post, hcat, hs, hkey⟩ := hall c2 hc2
          exact ⟨hw, c :: pre, post, by rw [hcat]; rfl, hs, by rw [hstate]; exact hkey⟩
      · intro pre c2 post hcat hs hkey hw
        cases pre with
        | nil =>
          simp only [List.nil_append, List.cons.injEq] at hcat
          rw [← hcat.1]
          exact List.mem_cons_self _ _
        | cons x pre2 =>
          simp only [List.cons_append, List.cons.injEq] at hcat
          obtain ⟨rfl, hrest⟩ := hcat
          exact List.mem_cons_of_mem _ (hcompl pre2 c2 post hrest hs (by rw [← hstate]; exact hkey) hw)
      · rw [hloop]
        have hidx : toU32 ((k + 1 : Nat) : Int) = k + 1 := by
          rw [toU32_natCast]
          exact Nat.mod_eq_of_lt (by omega)
        have hidx2 : toU32 ((k : Int) + 1) = k + 1 := by
          have h := hidx
          push_cast at h
          exact h
        simp [MsgPacket.put_U32, memberFields, toU32_natCast, hidx2]
    · rw [if_neg hm]
      obtain ⟨members, hsub, hall, hcompl, hloop⟩ :=
        ih (if c.GroupSep = true then c.Name else if automatic = true then c.Provider else g)
          k resp (by omega)
      refine ⟨members, hsub.cons c, ?_, ?_, hloop⟩
      · intro c2 hc2
        obtain ⟨hw, pre, post, hcat, hs, hkey⟩ := hall c2 hc2
        exact ⟨hw, c :: pre, post, by rw [hcat]; rfl, hs, by rw [hstate]; exact hkey⟩
      · intro pre c2 post hcat hs hkey hw
        cases pre with
        | nil =>
          simp only [List.nil_append, List.cons.injEq] at hcat
          obtain ⟨rfl, -⟩ := hcat
          exact absurd ⟨hs, hkey, hw⟩ hm
        | cons x pre2 =>
          simp only [List.cons_append, List.cons.injEq] at hcat
          obtain ⟨rfl, hrest⟩ := hcat
          exact hcompl pre2 c2 post hrest hs (by rw [← hstate]; exact hkey) hw


/-- C29: after a group-count request over a catalog whose separator entries
carry no service id, for every group named n in catalog r, a
CHANNELGROUP_MEMBERS request for (n, r) over the same catalog, in a session
with the same filter settings and the catalogs the count request left, returns
true and writes a non-empty list of members: in catalog order, exactly the
non-separator channels that are wanted under kind r and whose group key is n
(the provider name in automatic mode, the name of the most recent separator
otherwise), each as its channel uid followed by its index, the indices being
1, 2, ..., m. -/
theorem C29_group_members_agree (env : Env) (s t : Session) (req1 resp1 req2 resp2 : MsgPacket)
    (r : Bool) (n : String) (rest2 : List Field)
    (hsep : ∀ c ∈ env.channels, c.GroupSep = true → c.Sid = 0)
    (hlen : env.channels.length < 2 ^ 32)
    (hn : n ∈ (processCHANNELS_GroupsCount env s req1 resp1).s.groupNames r)
    (hgroups : t.m_channelgroups
      = (processCHANNELS_GroupsCount env s req1 resp1).s.m_channelgroups)
    (hfilter : sameFilter t s)
    (hreq : req2.payload = Field.Str n :: Field.U8 (if r = true then 1 else 0) :: rest2) :
    ∃ (out : HandlerOut) (members : List Channel),
      processCHANNELS_GetGroupMembers env t req2 resp2 = some out ∧ out.result = true ∧
      members ≠ [] ∧ members.Sublist env.channels ∧
      (∀ c ∈ members, IsChannelWanted env t (some c) (boolToInt r) = true ∧
        ∃ pre post, env.channels = pre ++ c :: post ∧ c.GroupSep = false ∧
          specGroupKey (decide ((get_U32 req1.payload).1 = 1)) pre c = n) ∧
      (∀ pre c post, env.channels = pre ++ c :: post → c.GroupSep = false →
        specGroupKey (decide ((get_U32 req1.payload).1 = 1)) pre c = n →
        IsChannelWanted env t (some c) (boolToInt r) = true → c ∈ members) ∧
      out.resp.payload = resp2.payload ++ memberFields env 0 members := by
  -- the catalogs after the count request
  have hs1 := processCHANNELS_GroupsCount_session env s req1 resp1
  have hsf0 : sameFilter { s with m_channelgroups := ([], []) } s := ⟨rfl, rfl, rfl, rfl⟩
  have hempty : ∀ r2, ({ s with m_channelgroups := ([], []) } : Session).groups r2 = [] := by
    intro r2; cases r2 <;> rfl
  have hsep0 : ∀ c ∈ env.channels, c.GroupSep = true →
      IsChannelWanted env { s with m_channelgroups := ([], []) } (some c)
        (boolToInt (IsRadio c)) = false :=
    fun c hc hs => IsChannelWanted_of_sid_zero env _ c _ (hsep c hc hs)
  -- the group has a source in the catalog
  have hn0 := hn
  rw [hs1, createGroupsLoop_names env _ env.channels "" _ hsep0 r n] at hn0
  have hnone : n ∉ ({ s with m_channelgroups := ([], []) } : Session).groupNames r := by
    unfold Session.groupNames; rw [hempty]; simp
  obtain ⟨pre0, c0, post0, hcat0, hs0, hr0, hw0, hkey0, hne⟩ := hn0.resolve_left hnone
  -- the entry of the group in the catalog of the session
  have htg : t.groups r = (processCHANNELS_GroupsCount env s req1 resp1).s.groups r := by
    unfold Session.groups; rw [hgroups]
  have hfind : ∃ g, GroupMap.find (t.groups r) n = some g := by
    cases hf : GroupMap.find (t.groups r) n with
    | some g => exact ⟨g, rfl⟩
    | none =>
      rw [GroupMap.find_eq_none_iff, htg] at hf
      exact absurd hn hf
  obtain ⟨g, hg⟩ := hfind
  have hauto : g.automatic = decide ((get_U32 req1.payload).1 = 1) := by
    have hin := GroupMap.mem_of_find _ _ _ hg
    rw [htg, hs1] at hin
    have := createGroupsLoop_entries env _ env.channels "" _
      (by intro r2 n2 e he; rw [hempty] at he; exact absurd he (List.not_mem_nil _)) r n g hin
    rw [this]
  -- the request
  have hradio : (get_U8 (get_String req2.payload).2).1 = if r = true then 1 else 0 := by
    rw [hreq]
    cases r <;> rfl
  have hname : (get_String req2.payload).1 = n := by rw [hreq]; rfl
  have hat : t.groupsAt (if r = true then 1 else 0) = some (t.groups r) := by
    cases r <;> rfl
  have hkind : (((if r = true then 1 else 0 : Nat) : Nat) : Int) = boolToInt r := by
    cases r <;> rfl
  -- the loop
  have hsft : sameFilter { t with m_channelCount := ChannelsCount env t } t :=
    ⟨rfl, rfl, rfl, rfl⟩
  obtain ⟨members, hsub, hall, hcompl, hloop⟩ :=
    groupMembersLoop_members env { t with m_channelCount := ChannelsCount env t }
      (decide ((get_U32 req1.payload).1 = 1)) n (if r = true then 1 else 0) hne env.channels
      "" 0 resp2 (by omega)
  have hwt : ∀ c : Channel,
      IsChannelWanted env { t with m_channelCount := ChannelsCount env t } (some c)
          ((if r = true then 1 else 0 : Nat) : Int)
        = IsChannelWanted env t (some c) (boolToInt r) := by
    intro c
    rw [IsChannelWanted_congr env _ t hsft, hkind]
  refine ⟨{ s := { t with m_channelCount := ChannelsCount env t },
            resp := groupMembersLoop env { t with m_channelCount := ChannelsCount env t }
              (decide ((get_U32 req1.payload).1 = 1)) n (if r = true then 1 else 0) env.channels
              "" 0 resp2,
            result := true }, members, ?_, ?_, ?_, hsub, ?_, ?_, ?_⟩
  · simp only [processCHANNELS_GetGroupMembers, hradio, hname, hat, hg, hauto]
  · rfl
  · intro hnil
    have hw1 : IsChannelWanted env { t with m_channelCount := ChannelsCount env t } (some c0)
        ((if r = true then 1 else 0 : Nat) : Int) = true := by
      rw [hwt, IsChannelWanted_congr env t s hfilter, ← IsChannelWanted_congr env _ s hsf0]
      exact hw0
    have := hcompl pre0 c0 post0 hcat0 hs0 hkey0 hw1
    rw [hnil] at this
    exact absurd this (List.not_mem_nil _)
  · intro c hc
    obtain ⟨hw, pre, post, hcat, hs, hkey⟩ := hall c hc
    exact ⟨by rw [← hwt]; exact hw, pre, post, hcat, hs, hkey⟩
  · intro pre c post hcat hs hkey hw
    exact hcompl pre c post hcat hs hkey (by rw [hwt]; exact hw)
  · rw [hloop]

/-- Witness for C29: over the catalog of a separator named News, a television
channel and a radio channel, the group News of the non-radio catalog has
members. -/
theorem C29_group_members_agree_witness :
    ∃ (out : HandlerOut) (members : List Channel),
      processCHANNELS_GetGroupMembers groupsEnv
          (processCHANNELS_GroupsCount groupsEnv loggedInSession
            (request MsgID.CHANNELGROUP_GETCOUNT 6 [Field.U32 0])
            (freshResponse groupsEnv (request MsgID.CHANNELGROUP_GETCOUNT 6 [Field.U32 0]))).s
          (request MsgID.CHANNELGROUP_MEMBERS 6 [Field.Str "News", Field.U8 0])
          (freshResponse groupsEnv (request MsgID.CHANNELGROUP_MEMBERS 6 [])) = some out ∧
      members ≠ [] ∧
      out.resp.payload
        = (freshResponse groupsEnv (request MsgID.CHANNELGROUP_MEMBERS 6 [])).payload
            ++ memberFields groupsEnv 0 members :=
  match C29_group_members_agree groupsEnv loggedInSession
      (processCHANNELS_GroupsCount groupsEnv loggedInSession
        (request MsgID.CHANNELGROUP_GETCOUNT 6 [Field.U32 0])
        (freshResponse groupsEnv (request MsgID.CHANNELGROUP_GETCOUNT 6 [Field.U32 0]))).s
      (request MsgID.CHANNELGROUP_GETCOUNT 6 [Field.U32 0])
      (freshResponse groupsEnv (request MsgID.CHANNELGROUP_GETCOUNT 6 [Field.U32 0]))
      (request MsgID.CHANNELGROUP_MEMBERS 6 [Field.Str "News", Field.U8 0])
      (freshResponse groupsEnv (request MsgID.CHANNELGROUP_MEMBERS 6 []))
      false "News" [] (by decide) (by decide) (by decide) rfl ⟨rfl, rfl, rfl, rfl⟩ rfl with
  | ⟨out, members, h1, _, h3, _, _, _, h7⟩ => ⟨out, members, h1, h3, h7⟩

/-! ## Locking -/

/-- Taking a mutex and releasing it leaves the counts as they were. -/
theorem Held.set_set_get (h : Held) (m : Mutex) :
    (h.set m (h.get m + 1)).set m ((h.set m (h.get m + 1)).get m - 1) = h := by
  cases m <;> rfl

/-- The count of a mutex after it was taken. -/
theorem Held.get_set_self (h : Held) (m : Mutex) (v : Nat) : (h.set m v).get m = v := by
  cases m <;> rfl

/-- The empty sequence is balanced. -/
theorem Balanced.nil (strict : Bool) : Balanced strict [] := fun _ _ => rfl

/-- Two balanced sequences in a row are balanced. -/
theorem Balanced.append {strict : Bool} {a b : List Op} (ha : Balanced strict a)
    (hb : Balanced strict b) : Balanced strict (a ++ b) := by
  intro held rest
  rw [List.append_assoc, ha, hb]

/-- Balanced sequences in a row are balanced. -/
theorem Balanced.flatten {strict : Bool} (blocks : List (List Op))
    (h : ∀ b ∈ blocks, Balanced strict b) : Balanced strict blocks.flatten := by
  induction blocks with
  | nil => exact Balanced.nil strict
  | cons b rest ih =>
    rw [List.flatten_cons]
    exact Balanced.append (h b (List.mem_cons_self _ _))
      (ih (fun c hc => h c (List.mem_cons_of_mem _ hc)))

/-- A balanced sequence keeps the discipline when it is run on its own. -/
theorem Balanced.guarded {strict : Bool} {ops : List Op} (h : Balanced strict ops)
    (held : Held) : guardedFrom strict held ops = true := by
  have := h held []
  rw [List.append_nil] at this
  rw [this]
  rfl

/-- A sequence run under a mutex: when the body keeps the discipline from every
state in which the mutex is held and leaves the counts as it found them, the
body between lock and unlock is balanced. -/
theorem Balanced.scoped (strict : Bool) (m : Mutex) (body : List Op)
    (h : ∀ (held : Held) (rest : List Op), 0 < held.get m →
      guardedFrom strict held (body ++ rest) = guardedFrom strict held rest) :
    Balanced strict (Op.lock m :: (body ++ [Op.unlock m])) := by
  intro held rest
  rw [List.cons_append, List.append_assoc]
  show guardedFrom strict (held.set m (held.get m + 1)) (body ++ ([Op.unlock m] ++ rest)) = _
  rw [h _ _ (by rw [Held.get_set_self]; omega)]
  show guardedFrom strict
    ((held.set m (held.get m + 1)).set m ((held.set m (held.get m + 1)).get m - 1)) rest = _
  rw [Held.set_set_get]

/-- A balanced sequence can be run while any mutex is held. -/
theorem Balanced.under {strict : Bool} {ops : List Op} (h : Balanced strict ops) (m : Mutex) :
    ∀ (held : Held) (rest : List Op), 0 < held.get m →
      guardedFrom strict held (ops ++ rest) = guardedFrom strict held rest :=
  fun held rest _ => h held rest

/-- An access of a shared object under the mutex that guards it. -/
theorem guardedFrom_access {strict : Bool} (held : Held) (x : Shared) (rest : List Op)
    (h : 0 < held.get x.guard) :
    guardedFrom strict held (Op.read x :: rest) = guardedFrom strict held rest ∧
    guardedFrom strict held (Op.write x :: rest) = guardedFrom strict held rest := by
  simp [guardedFrom, h]

/-- Function `StartChannelStreaming` keeps the discipline. -/
theorem Trace.StartChannelStreaming_balanced (strict : Bool) :
    Balanced strict Trace.StartChannelStreaming := by
  apply Balanced.scoped strict Mutex.m_streamerLock
    [Op.write Shared.m_Streamer, Op.read Shared.m_Streamer, Op.read Shared.m_Streamer,
      Op.read Shared.m_Streamer, Op.read Shared.m_Streamer]
  intro held rest h
  have h2 : 0 < held.get Shared.m_Streamer.guard := h
  simp [guardedFrom, h2]

/-- Function `StopChannelStreaming` keeps the discipline. -/
theorem Trace.StopChannelStreaming_balanced (strict : Bool) :
    Balanced strict Trace.StopChannelStreaming := by
  apply Balanced.scoped strict Mutex.m_streamerLock
    [Op.read Shared.m_Streamer, Op.write Shared.m_Streamer]
  intro held rest h
  have h2 : 0 < held.get Shared.m_Streamer.guard := h
  simp [guardedFrom, h2]

/-- Function `QueueMessage` keeps the discipline. -/
theorem Trace.QueueMessage_balanced (strict : Bool) : Balanced strict Trace.QueueMessage := by
  apply Balanced.scoped strict Mutex.m_queueLock [Op.write Shared.m_queue]
  intro held rest h
  have h2 : 0 < held.get Shared.m_queue.guard := h
  simp [guardedFrom, h2]

/-- A status callback keeps the discipline. -/
theorem Trace.statusCallback_balanced (strict : Bool) (pushes : Bool) :
    Balanced strict (Trace.statusCallback pushes) := by
  have hq := Trace.QueueMessage_balanced strict
  cases pushes
  · exact Balanced.scoped strict Mutex.m_msgLock [] (fun _ _ _ => rfl)
  · exact Balanced.scoped strict Mutex.m_msgLock Trace.QueueMessage
      (hq.under Mutex.m_msgLock)

/-- Function `ChannelChange` keeps the discipline, also the strict one: it reads
the slot under `m_streamerLock` only. -/
theorem Trace.ChannelChange_balanced (strict : Bool) (streaming pushes : Bool) :
    Balanced strict (Trace.ChannelChange streaming pushes) := by
  have hs := Trace.statusCallback_balanced strict pushes
  have hbody : ∀ (held : Held) (rest : List Op), 0 < held.get Mutex.m_streamerLock →
      guardedFrom strict held
          (([Op.read Shared.m_Streamer]
            ++ (if streaming = true then [Op.read Shared.m_Streamer] else [])
            ++ Trace.statusCallback pushes) ++ rest)
        = guardedFrom strict held rest := by
    intro held rest h
    have h2 : 0 < held.get Shared.m_Streamer.guard := h
    cases streaming
    · simp only [Bool.false_eq_true, if_false, List.append_nil, List.append_assoc,
        List.singleton_append, List.cons_append, List.nil_append]
      rw [(guardedFrom_access held Shared.m_Streamer _ h2).1, hs]
    · simp only [if_true, List.append_assoc, List.singleton_append, List.cons_append,
        List.nil_append]
      rw [(guardedFrom_access held Shared.m_Streamer _ h2).1,
        (guardedFrom_access held Shared.m_Streamer _ h2).1, hs]
  have := Balanced.scoped strict Mutex.m_streamerLock _ hbody
  have heq : Trace.ChannelChange streaming pushes
      = Op.lock Mutex.m_streamerLock ::
          (([Op.read Shared.m_Streamer]
            ++ (if streaming = true then [Op.read Shared.m_Streamer] else [])
            ++ Trace.statusCallback pushes) ++ [Op.unlock Mutex.m_streamerLock]) := by
    cases streaming <;> cases pushes <;> rfl
  rw [heq]
  exact this

/-- The successful rounds of the drain loop keep the discipline under
`m_queueLock`. -/
theorem Trace.drainRounds_guarded (strict : Bool) (sent : Nat) :
    ∀ (held : Held) (rest : List Op), 0 < held.get Mutex.m_queueLock →
      guardedFrom strict held (Trace.drainRounds sent ++ rest) = guardedFrom strict held rest := by
  induction sent with
  | zero => intro held rest _; rfl
  | succ k ih =>
    intro held rest h
    have h2 : 0 < held.get Shared.m_queue.guard := h
    simp only [Trace.drainRounds, List.cons_append]
    rw [(guardedFrom_access held Shared.m_queue _ h2).1,
      (guardedFrom_access held Shared.m_queue _ h2).1,
      (guardedFrom_access held Shared.m_queue _ h2).2, ih held rest h]

/-- The drain step keeps the discipline. -/
theorem Trace.drain_balanced (strict : Bool) (sent : Nat) (failed : Bool) :
    Balanced strict (Trace.drain sent failed) := by
  have hbody : ∀ (held : Held) (rest : List Op), 0 < held.get Mutex.m_queueLock →
      guardedFrom strict held
          ((Trace.drainRounds sent
            ++ (if failed = true then [Op.read Shared.m_queue, Op.read Shared.m_queue]
                else [Op.read Shared.m_queue])) ++ rest)
        = guardedFrom strict held rest := by
    intro held rest h
    have h2 : 0 < held.get Shared.m_queue.guard := h
    rw [List.append_assoc, Trace.drainRounds_guarded strict sent held _ h]
    cases failed
    · simp only [Bool.false_eq_true, if_false, List.singleton_append, List.cons_append,
        List.nil_append]
      rw [(guardedFrom_access held Shared.m_queue _ h2).1]
    · simp only [if_true, List.cons_append, List.nil_append]
      rw [(guardedFrom_access held Shared.m_queue _ h2).1,
        (guardedFrom_access held Shared.m_queue _ h2).1]
  have := Balanced.scoped strict Mutex.m_queueLock _ hbody
  have heq : Trace.drain sent failed
      = Op.lock Mutex.m_queueLock ::
          ((Trace.drainRounds sent
            ++ (if failed = true then [Op.read Shared.m_queue, Op.read Shared.m_queue]
                else [Op.read Shared.m_queue])) ++ [Op.unlock Mutex.m_queueLock]) := by
    simp [Trace.drain]
  rw [heq]
  exact this

/-- A read of the slot without the mutex is within the discipline of the
session thread. -/
theorem balanced_session_read : Balanced false [Op.read Shared.m_Streamer] := by
  intro held rest
  simp [guardedFrom]

/-- Every handler body keeps the discipline of the session thread. -/
theorem Trace.handler_balanced (h : Handler) : Balanced false (Trace.handler h) := by
  have hr := balanced_session_read
  have hstop := Trace.StopChannelStreaming_balanced false
  have hstart := Trace.StartChannelStreaming_balanced false
  cases h with
  | open_ found =>
    cases found
    · exact Balanced.append hstop (Balanced.nil false)
    · exact Balanced.append hstop hstart
  | close => exact hstop
  | packetRequest streaming =>
    cases streaming
    · exact hr
    · exact Balanced.append hr hr
  | pause => exact hr
  | signal streaming =>
    cases streaming
    · exact hr
    · exact Balanced.append hr hr
  | other result => exact Balanced.nil false

/-- Function `processRequest` keeps the discipline of the session thread. -/
theorem Trace.processRequest_balanced (h : Handler) :
    Balanced false (Trace.processRequest h) := by
  have hb : Balanced false
      (Trace.handler h ++ (if h.result = true then Trace.QueueMessage else [])) := by
    apply Balanced.append (Trace.handler_balanced h)
    split
    · exact Trace.QueueMessage_balanced false
    · exact Balanced.nil false
  have := Balanced.scoped false Mutex.m_msgLock _ (hb.under Mutex.m_msgLock)
  have heq : Trace.processRequest h
      = Op.lock Mutex.m_msgLock ::
          ((Trace.handler h ++ (if h.result = true then Trace.QueueMessage else []))
            ++ [Op.unlock Mutex.m_msgLock]) := by
    simp [Trace.processRequest]
  rw [heq]
  exact this

/-- One iteration of the loop of `Action` keeps the discipline of the session
thread. -/
theorem Trace.iteration_balanced (it : Nat × Bool × Incoming) :
    Balanced false (Trace.iteration it) := by
  unfold Trace.iteration
  apply Balanced.append (Trace.drain_balanced false it.1 it.2.1)
  cases it.2.2 with
  | nothing => exact Balanced.nil false
  | scanStatus => exact Trace.QueueMessage_balanced false
  | request h => exact Trace.processRequest_balanced h

/-- Function `Action` keeps the discipline of the session thread. -/
theorem Trace.Action_balanced (iterations : List (Nat × Bool × Incoming)) (last : Nat × Bool) :
    Balanced false (Trace.Action iterations last) := by
  unfold Trace.Action
  apply Balanced.append
  · apply Balanced.append
    · apply Balanced.flatten
      intro b hb
      obtain ⟨it, -, rfl⟩ := List.mem_map.1 hb
      exact Trace.iteration_balanced it
    · exact Trace.drain_balanced false last.1 last.2
  · exact Trace.StopChannelStreaming_balanced false

/-- A sequence of callbacks keeps the strict discipline. -/
theorem Trace.callbacks_balanced (cs : List Callback) : Balanced true (Trace.callbacks cs) := by
  unfold Trace.callbacks
  apply Balanced.flatten
  intro b hb
  obtain ⟨c, -, rfl⟩ := List.mem_map.1 hb
  cases c with
  | ChannelChange streaming pushes => exact Trace.ChannelChange_balanced true streaming pushes
  | status pushes => exact Trace.statusCallback_balanced true pushes

/-- No callback writes the slot. -/
theorem Trace.callbacks_no_slot_write (cs : List Callback) :
    Op.write Shared.m_Streamer ∉ Trace.callbacks cs := by
  unfold Trace.callbacks
  intro h
  obtain ⟨b, hb, hin⟩ := List.mem_flatten.1 h
  obtain ⟨c, -, rfl⟩ := List.mem_map.1 hb
  cases c with
  | ChannelChange streaming pushes =>
    cases streaming <;> cases pushes <;> revert hin <;> decide
  | status pushes =>
    cases pushes <;> revert hin <;> decide


/-- Two records of counts agree when they agree on every mutex. -/
theorem Held.ext_get (a b : Held) (h : ∀ m, a.get m = b.get m) : a = b := by
  obtain ⟨a1, a2, a3⟩ := a
  obtain ⟨b1, b2, b3⟩ := b
  have h1 := h Mutex.m_msgLock
  have h2 := h Mutex.m_streamerLock
  have h3 := h Mutex.m_queueLock
  simp only [Held.get] at h1 h2 h3
  rw [h1, h2, h3]

/-- The count of a mutex after the count of a mutex was replaced. -/
theorem Held.get_set (h : Held) (m m2 : Mutex) (v : Nat) :
    (h.set m v).get m2 = if m2 = m then v else h.get m2 := by
  cases m <;> cases m2 <;> rfl

/-- The counts of a thread, mutex by mutex. -/
theorem Threads.held_get (st : Threads) (i : Nat) (m : Mutex) :
    (st.held i).get m = st.heldBy i m := by
  cases m <;> rfl

/-- The discipline after the first operation of a sequence. -/
theorem guardedFrom_tail (strict : Bool) (held : Held) (op : Op) (rest : List Op)
    (h : guardedFrom strict held (op :: rest) = true) :
    guardedFrom strict (held.after op) rest = true := by
  cases op with
  | lock m => exact h
  | unlock m => exact h
  | read x =>
    simp only [guardedFrom, Bool.and_eq_true] at h
    exact h.2
  | write x =>
    simp only [guardedFrom, Bool.and_eq_true] at h
    exact h.2

/-- What a step of thread `i` does: the thread drops its first operation, its
counts change as the operation says, and the counts of the other threads stay
as they are. -/
theorem Threads.step_spec (st st1 : Threads) (i : Nat) (h : st.step i = some st1) :
    ∃ op rest, st.todo i = op :: rest ∧ st1.todo = Function.update st.todo i rest ∧
      st1.held i = (st.held i).after op ∧ ∀ k, k ≠ i → st1.held k = st.held k := by
  unfold Threads.step at h
  cases htodo : st.todo i with
  | nil => rw [htodo] at h; exact absurd h (by simp)
  | cons op rest =>
    rw [htodo] at h
    refine ⟨op, rest, rfl, ?_⟩
    cases op with
    | lock m =>
      simp only at h
      cases howner : st.owner m with
      | none =>
        rw [howner] at h
        simp only [Option.some.injEq] at h
        subst h
        refine ⟨rfl, ?_, ?_⟩
        · apply Held.ext_get
          intro m2
          simp only [Held.after, Held.get_set, Threads.held_get, Threads.heldBy]
          by_cases hm : m2 = m
          · subst hm
            simp [howner]
          · simp [hm, Function.update]
        · intro k hk
          apply Held.ext_get
          intro m2
          simp only [Threads.held_get, Threads.heldBy]
          by_cases hm : m2 = m
          · subst hm
            have hk2 : ¬ i = k := fun e => hk e.symm
            simp [howner, hk2]
          · simp [hm, Function.update]
      | some j =>
        rw [howner] at h
        simp only at h
        by_cases hj : j = i
        · subst hj
          simp only [if_true, Option.some.injEq] at h
          subst h
          refine ⟨rfl, ?_, ?_⟩
          · apply Held.ext_get
            intro m2
            simp only [Held.after, Held.get_set, Threads.held_get, Threads.heldBy]
            by_cases hm : m2 = m
            · subst hm
              simp [howner]
            · simp [hm, Function.update]
          · intro k hk
            apply Held.ext_get
            intro m2
            simp only [Threads.held_get, Threads.heldBy]
            by_cases hm : m2 = m
            · subst hm
              have hk2 : ¬ j = k := fun e => hk e.symm
              simp [howner, hk2]
            · simp [hm, Function.update]
        · simp only [hj, if_false] at h
          exact absurd h (by simp)
    | unlock m =>
      simp only at h
      by_cases ho : st.owner m = some i
      · simp only [ho, if_true, Option.some.injEq] at h
        subst h
        refine ⟨rfl, ?_, ?_⟩
        · apply Held.ext_get
          intro m2
          simp only [Held.after, Held.get_set, Threads.held_get, Threads.heldBy]
          by_cases hm : m2 = m
          · subst hm
            by_cases hd : st.depth m2 - 1 = 0
            · simp [hd, ho]
            · simp [hd, ho]
          · by_cases hd : st.depth m - 1 = 0
            · simp [hd, hm, Function.update]
            · simp [hd, hm, Function.update]
        · intro k hk
          apply Held.ext_get
          intro m2
          simp only [Threads.held_get, Threads.heldBy]
          have hk2 : ¬ i = k := fun e => hk e.symm
          by_cases hm : m2 = m
          · subst hm
            by_cases hd : st.depth m2 - 1 = 0
            · simp [hd, ho, hk2]
            · simp [hd, ho, hk2]
          · by_cases hd : st.depth m - 1 = 0
            · simp [hd, hm, Function.update]
            · simp [hd, hm, Function.update]
      · simp only [ho, if_false, Option.some.injEq] at h
        subst h
        refine ⟨rfl, ?_, ?_⟩
        · apply Held.ext_get
          intro m2
          simp only [Held.after, Held.get_set, Threads.held_get, Threads.heldBy]
          by_cases hm : m2 = m
          · subst hm
            simp [ho]
          · simp [hm]
        · intro k _
          rfl
    | read x =>
      simp only [Option.some.injEq] at h
      subst h
      exact ⟨rfl, rfl, fun _ _ => rfl⟩
    | write x =>
      simp only [Option.some.injEq] at h
      subst h
      exact ⟨rfl, rfl, fun _ _ => rfl⟩

/-- A step keeps the discipline of all threads. -/
theorem Threads.disciplined_step (st st1 : Threads) (i : Nat) (hd : st.disciplined)
    (h : st.step i = some st1) : st1.disciplined := by
  obtain ⟨op, rest, htodo, htodo1, hheld, hothers⟩ := Threads.step_spec st st1 i h
  obtain ⟨hg, hw⟩ := hd
  constructor
  · intro k
    by_cases hk : k = i
    · subst hk
      rw [htodo1, Function.update_same, hheld]
      apply guardedFrom_tail
      rw [← htodo]
      exact hg k
    · rw [htodo1, Function.update_noteq hk, hothers k hk]
      exact hg k
  · intro k hk0 hmem
    by_cases hk : k = i
    · subst hk
      rw [htodo1, Function.update_same] at hmem
      exact hw k hk0 (by rw [htodo]; exact List.mem_cons_of_mem _ hmem)
    · rw [htodo1, Function.update_noteq hk] at hmem
      exact hw k hk0 hmem

/-- An execution keeps the discipline of all threads. -/
theorem Threads.disciplined_run (schedule : List Nat) :
    ∀ (st st1 : Threads), st.disciplined → st.run schedule = some st1 → st1.disciplined := by
  induction schedule with
  | nil =>
    intro st st1 hd h
    simp only [Threads.run, Option.some.injEq] at h
    rw [← h]
    exact hd
  | cons i rest ih =>
    intro st st1 hd h
    simp only [Threads.run] at h
    cases hs : st.step i with
    | none => rw [hs] at h; exact absurd h (by simp)
    | some st2 =>
      rw [hs] at h
      exact ih st2 st1 (Threads.disciplined_step st st2 i hd hs) h

/-- Before any thread ran, all threads are disciplined. -/
theorem Threads.start_disciplined (iterations : List (Nat × Bool × Incoming))
    (last : Nat × Bool) (callbacks : List (List Callback)) :
    (Threads.start iterations last callbacks).disciplined := by
  constructor
  · intro i
    cases i with
    | zero => exact (Trace.Action_balanced iterations last).guarded _
    | succ j => exact (Trace.callbacks_balanced (callbacks.getD j [])).guarded _
  · intro i hi
    cases i with
    | zero => exact absurd rfl hi
    | succ j => exact Trace.callbacks_no_slot_write (callbacks.getD j [])

/-- A thread that holds a mutex at least once is its owner. -/
theorem Threads.owner_of_held (st : Threads) (i : Nat) (m : Mutex)
    (h : 0 < (st.held i).get m) : st.owner m = some i := by
  rw [Threads.held_get] at h
  unfold Threads.heldBy at h
  by_cases ho : st.owner m = some i
  · exact ho
  · rw [if_neg ho] at h
    exact absurd h (Nat.lt_irrefl 0)

/-- In a disciplined state a thread that is about to write a shared object, to
access the queue or, when it is a callback thread, to read the slot, owns the
mutex that guards the object. -/
theorem Threads.disciplined_owner (st : Threads) (hd : st.disciplined) (i : Nat) (x : Shared) :
    (st.next i = some (Op.write x) → st.owner x.guard = some i) ∧
    (st.next i = some (Op.read x) → (i ≠ 0 ∨ x = Shared.m_queue) →
      st.owner x.guard = some i) := by
  have hg := hd.1 i
  constructor
  · intro hn
    unfold Threads.next at hn
    cases htodo : st.todo i with
    | nil => rw [htodo] at hn; exact absurd hn (by simp)
    | cons op rest =>
      rw [htodo] at hn hg
      simp only [List.head?_cons, Option.some.injEq] at hn
      subst hn
      simp only [guardedFrom, Bool.and_eq_true, decide_eq_true_eq] at hg
      exact Threads.owner_of_held st i _ hg.1
  · intro hn hcase
    unfold Threads.next at hn
    cases htodo : st.todo i with
    | nil => rw [htodo] at hn; exact absurd hn (by simp)
    | cons op rest =>
      rw [htodo] at hn hg
      simp only [List.head?_cons, Option.some.injEq] at hn
      subst hn
      simp only [guardedFrom, Bool.and_eq_true, Bool.or_eq_true, decide_eq_true_eq,
        Bool.not_eq_true', decide_eq_false_iff_not, not_not] at hg
      rcases hg.1 with hpos | ⟨hi, hx⟩
      · exact Threads.owner_of_held st i _ hpos
      · rcases hcase with hne | hq
        · exact absurd hi hne
        · rw [hq] at hx
          exact absurd hx (by decide)

/-- In a disciplined state no two threads race on a shared object. -/
theorem Threads.disciplined_no_race (st : Threads) (hd : st.disciplined) (x : Shared)
    (i j : Nat) : ¬ st.race x i j := by
  rintro ⟨hij, hwi, hj⟩
  have hoi := (Threads.disciplined_owner st hd i x).1 hwi
  rcases hj with hr | hwj
  · by_cases hcase : j ≠ 0 ∨ x = Shared.m_queue
    · have hoj := (Threads.disciplined_owner st hd j x).2 hr hcase
      rw [hoi] at hoj
      exact hij (Option.some.inj hoj)
    · simp only [not_or, not_not] at hcase
      obtain ⟨hj0, hx⟩ := hcase
      have hx2 : x = Shared.m_Streamer := by
        cases x
        · rfl
        · exact absurd rfl hx
      subst hx2
      have hi0 : i ≠ 0 := fun e => hij (by rw [e, hj0])
      have hmem : Op.write Shared.m_Streamer ∈ st.todo i := by
        unfold Threads.next at hwi
        exact List.mem_of_mem_head? hwi
      exact hd.2 i hi0 hmem
  · have hoj := (Threads.disciplined_owner st hd j x).1 hwj
    rw [hoi] at hoj
    exact hij (Option.some.inj hoj)


/-- C23: in every execution of the session thread, which runs `Action` with
any sequence of requests (live-stream open and close among them), and of any
number of backend threads that deliver callbacks (ChannelChange among them),
no two threads race on the slot `m_Streamer` or on the outgoing queue. Every
write of the slot (in StartChannelStreaming and StopChannelStreaming), and
every read of the slot and use of the streamer by a callback, happens while
the thread owns `m_streamerLock`; every access of the queue, by QueueMessage
and by the drain step, happens while the thread owns `m_queueLock`. -/
theorem C23_no_race_on_slot_and_queue (iterations : List (Nat × Bool × Incoming))
    (last : Nat × Bool) (callbacks : List (List Callback)) (schedule : List Nat)
    (st : Threads)
    (h : (Threads.start iterations last callbacks).run schedule = some st) :
    (∀ (x : Shared) (i j : Nat), ¬ st.race x i j) ∧
    (∀ i : Nat, st.next i = some (Op.write Shared.m_Streamer) →
      st.owner Mutex.m_streamerLock = some i) ∧
    (∀ i : Nat, i ≠ 0 → st.next i = some (Op.read Shared.m_Streamer) →
      st.owner Mutex.m_streamerLock = some i) ∧
    (∀ i : Nat, st.next i = some (Op.read Shared.m_queue) ∨
        st.next i = some (Op.write Shared.m_queue) →
      st.owner Mutex.m_queueLock = some i) ∧
    Balanced true Trace.StartChannelStreaming ∧ Balanced true Trace.StopChannelStreaming ∧
    (∀ streaming pushes : Bool, Balanced true (Trace.ChannelChange streaming pushes)) ∧
    Balanced true Trace.QueueMessage ∧
    (∀ (sent : Nat) (failed : Bool), Balanced true (Trace.drain sent failed)) := by
  have hd := Threads.disciplined_run schedule _ st
    (Threads.start_disciplined iterations last callbacks) h
  refine ⟨fun x i j => Threads.disciplined_no_race st hd x i j, ?_, ?_, ?_,
    Trace.StartChannelStreaming_balanced true, Trace.StopChannelStreaming_balanced true,
    fun a b => Trace.ChannelChange_balanced true a b, Trace.QueueMessage_balanced true,
    fun k f => Trace.drain_balanced true k f⟩
  · intro i hn
    exact (Threads.disciplined_owner st hd i Shared.m_Streamer).1 hn
  · intro i hi hn
    exact (Threads.disciplined_owner st hd i Shared.m_Streamer).2 hn (Or.inl hi)
  · intro i hn
    rcases hn with hn | hn
    · exact (Threads.disciplined_owner st hd i Shared.m_queue).2 hn (Or.inr rfl)
    · exact (Threads.disciplined_owner st hd i Shared.m_queue).1 hn

/-- Witness for C23: the session thread is to open a live stream while a
backend thread delivers a channel change; the backend thread takes
`m_streamerLock` and checks the slot, then the session thread starts its drain
step. In the state reached the backend thread is about to use the streamer
and owns `m_streamerLock`, and no two threads race. -/
theorem C23_no_race_on_slot_and_queue_witness :
    ∃ st : Threads,
      (Threads.start [(0, false, Incoming.request (Handler.open_ true))] (0, false)
          [[Callback.ChannelChange true true]]).run [1, 1, 0, 0] = some st ∧
      st.next 1 = some (Op.read Shared.m_Streamer) ∧
      st.owner Mutex.m_streamerLock = some 1 ∧
      ∀ (x : Shared) (i j : Nat), ¬ st.race x i j :=
  ⟨_, rfl, rfl, rfl,
    (C23_no_race_on_slot_and_queue [(0, false, Incoming.request (Handler.open_ true))]
      (0, false) [[Callback.ChannelChange true true]] [1, 1, 0, 0] _ rfl).1⟩

end RoboTV
